import Mathlib

/-!
Verification of the `vntaptd` callback-to-queue bridge
(`vnpy/api/tap/vntap/vntaptd/vntaptd.cpp`).

The bridge receives SDK callbacks, packs their arguments into generic `Task` values pushed
onto a blocking queue, and a worker thread started by `init()` pops the tasks and replays
them through user-overridable handlers, rebuilding a generic dict from the vendor payload
structs.
-/

namespace VnTapTd

/-- Value stored in the generic dict: either a string field routed through `toUtf`, or a
numeric field stored directly (`Int` carries the char/int/unsigned/double values, which the
bridge only ever copies). -/
inductive DValue where
  | utf (s : String)
  | num (v : Int)

/-- The generic map (`dict`) a process function builds: an insertion-ordered key/value
list. Every process function assigns pairwise-distinct keys, so the list is faithful to
the map. -/
abbrev TapDict := List (String × DValue)

/-- Conversion `toUtf` applied to a vendor string field before storing it in the dict. Its
definition (GBK decoding) lives outside the translated sources, so it is kept symbolic as
an injection into `DValue`. -/
def toUtf (s : String) : DValue := DValue.utf s

/-- Vendor payload struct `TapAPITradeLoginRspInfo` as read by the process functions
(string fields are those passed through `toUtf`; all numeric fields use `Int` as value carrier,
since the bridge only copies them). -/
structure TapAPITradeLoginRspInfo where
  UserNo : String
  UserType : Int
  UserName : String
  ReservedInfo : String
  LastLoginIP : String
  LastLoginProt : Int
  LastLoginTime : String
  LastLogoutTime : String
  TradeDate : String
  LastSettleTime : String
  StartTime : String
  InitTime : String

/-- Vendor payload struct `TapAPIRequestVertificateCodeRsp` as read by the process functions
(string fields are those passed through `toUtf`; all numeric fields use `Int` as value carrier,
since the bridge only copies them). -/
structure TapAPIRequestVertificateCodeRsp where
  SecondSerialID : String
  Effective : Int

/-- Vendor payload struct `TapAPITradingCalendarQryRsp` as read by the process functions
(string fields are those passed through `toUtf`; all numeric fields use `Int` as value carrier,
since the bridge only copies them). -/
structure TapAPITradingCalendarQryRsp where
  CurrTradeDate : String
  LastSettlementDate : String
  PromptDate : String
  LastPromptDate : String

/-- Vendor payload struct `TapAPIAccountInfo` as read by the process functions
(string fields are those passed through `toUtf`; all numeric fields use `Int` as value carrier,
since the bridge only copies them). -/
structure TapAPIAccountInfo where
  AccountNo : String
  AccountType : Int
  AccountState : Int
  AccountTradeRight : Int
  CommodityGroupNo : String
  AccountShortName : String
  AccountEnShortName : String

/-- Vendor payload struct `TapAPIFundData` as read by the process functions
(string fields are those passed through `toUtf`; all numeric fields use `Int` as value carrier,
since the bridge only copies them). -/
structure TapAPIFundData where
  AccountNo : String
  CurrencyGroupNo : String
  CurrencyNo : String
  TradeRate : Int
  FutureAlg : Int
  OptionAlg : Int
  PreBalance : Int
  PreUnExpProfit : Int
  PreLMEPositionProfit : Int
  PreEquity : Int
  PreAvailable1 : Int
  PreMarketEquity : Int
  CashInValue : Int
  CashOutValue : Int
  CashAdjustValue : Int
  CashPledged : Int
  FrozenFee : Int
  FrozenDeposit : Int
  AccountFee : Int
  SwapInValue : Int
  SwapOutValue : Int
  PremiumIncome : Int
  PremiumPay : Int
  CloseProfit : Int
  FrozenFund : Int
  UnExpProfit : Int
  ExpProfit : Int
  PositionProfit : Int
  LmePositionProfit : Int
  OptionMarketValue : Int
  AccountIntialMargin : Int
  AccountMaintenanceMargin : Int
  UpperInitalMargin : Int
  UpperMaintenanceMargin : Int
  Discount : Int
  Balance : Int
  Equity : Int
  Available : Int
  CanDraw : Int
  MarketEquity : Int
  AuthMoney : Int

/-- Vendor payload struct `TapAPIExchangeInfo` as read by the process functions
(string fields are those passed through `toUtf`; all numeric fields use `Int` as value carrier,
since the bridge only copies them). -/
structure TapAPIExchangeInfo where
  ExchangeNo : String
  ExchangeName : String

/-- Vendor payload struct `TapAPICommodityInfo` as read by the process functions
(string fields are those passed through `toUtf`; all numeric fields use `Int` as value carrier,
since the bridge only copies them). -/
structure TapAPICommodityInfo where
  ExchangeNo : String
  CommodityType : Int
  CommodityNo : String
  CommodityName : String
  CommodityEngName : String
  RelateExchangeNo : String
  RelateCommodityType : Int
  RelateCommodityNo : String
  RelateExchangeNo2 : String
  RelateCommodityType2 : Int
  RelateCommodityNo2 : String
  CurrencyGroupNo : String
  TradeCurrency : String
  ContractSize : Int
  OpenCloseMode : Int
  StrikePriceTimes : Int
  CommodityTickSize : Int
  CommodityDenominator : Int
  CmbDirect : Int
  DeliveryMode : Int
  DeliveryDays : Int
  AddOneTime : String
  CommodityTimeZone : Int
  IsAddOne : Int

/-- Vendor payload struct `TapAPITradeContractInfo` as read by the process functions
(string fields are those passed through `toUtf`; all numeric fields use `Int` as value carrier,
since the bridge only copies them). -/
structure TapAPITradeContractInfo where
  ExchangeNo : String
  CommodityType : Int
  CommodityNo : String
  ContractNo1 : String
  StrikePrice1 : String
  CallOrPutFlag1 : Int
  ContractNo2 : String
  StrikePrice2 : String
  CallOrPutFlag2 : Int
  ContractType : Int
  QuoteUnderlyingContract : String
  ContractName : String
  ContractExpDate : String
  LastTradeDate : String
  FirstNoticeDate : String

/-- Vendor payload struct `TapAPIOrderActionRsp` as read by the process functions
(string fields are those passed through `toUtf`; all numeric fields use `Int` as value carrier,
since the bridge only copies them). -/
structure TapAPIOrderActionRsp where
  ActionType : Int
  OrderInfo : Int

/-- Vendor payload struct `TapAPIOrderInfoNotice` as read by the process functions
(string fields are those passed through `toUtf`; all numeric fields use `Int` as value carrier,
since the bridge only copies them). -/
structure TapAPIOrderInfoNotice where
  SessionID : Int
  ErrorCode : Int
  OrderInfo : Int

/-- Vendor payload struct `TapAPIOrderInfo` as read by the process functions
(string fields are those passed through `toUtf`; all numeric fields use `Int` as value carrier,
since the bridge only copies them). -/
structure TapAPIOrderInfo where
  AccountNo : String
  ExchangeNo : String
  CommodityType : Int
  CommodityNo : String
  ContractNo : String
  StrikePrice : String
  CallOrPutFlag : Int
  ContractNo2 : String
  StrikePrice2 : String
  CallOrPutFlag2 : Int
  OrderType : Int
  OrderSource : Int
  TimeInForce : Int
  ExpireTime : String
  IsRiskOrder : Int
  OrderSide : Int
  PositionEffect : Int
  PositionEffect2 : Int
  InquiryNo : String
  HedgeFlag : Int
  OrderPrice : Int
  OrderPrice2 : Int
  StopPrice : Int
  OrderQty : Int
  OrderMinQty : Int
  RefInt : Int
  RefDouble : Int
  RefString : String
  MinClipSize : Int
  MaxClipSize : Int
  LicenseNo : String
  ServerFlag : Int
  OrderNo : String
  ClientOrderNo : String
  ClientID : String
  TacticsType : Int
  TriggerCondition : Int
  TriggerPriceType : Int
  AddOneIsValid : Int
  ClientLocalIP : String
  ClientMac : String
  ClientIP : String
  OrderStreamID : Int
  UpperNo : String
  UpperChannelNo : String
  OrderLocalNo : String
  UpperStreamID : Int
  OrderSystemNo : String
  OrderExchangeSystemNo : String
  OrderParentSystemNo : String
  OrderInsertUserNo : String
  OrderInsertTime : String
  OrderCommandUserNo : String
  OrderUpdateUserNo : String
  OrderUpdateTime : String
  OrderState : Int
  OrderMatchPrice : Int
  OrderMatchPrice2 : Int
  OrderMatchQty : Int
  OrderMatchQty2 : Int
  ErrorCode : Int
  ErrorText : String
  IsBackInput : Int
  IsDeleted : Int
  IsAddOne : Int

/-- Vendor payload struct `TapAPIFillInfo` as read by the process functions
(string fields are those passed through `toUtf`; all numeric fields use `Int` as value carrier,
since the bridge only copies them). -/
structure TapAPIFillInfo where
  AccountNo : String
  ExchangeNo : String
  CommodityType : Int
  CommodityNo : String
  ContractNo : String
  StrikePrice : String
  CallOrPutFlag : Int
  MatchSource : Int
  MatchSide : Int
  PositionEffect : Int
  ServerFlag : Int
  OrderNo : String
  OrderSystemNo : String
  MatchNo : String
  UpperMatchNo : String
  ExchangeMatchNo : String
  MatchDateTime : String
  UpperMatchDateTime : String
  UpperNo : String
  MatchPrice : Int
  MatchQty : Int
  IsDeleted : Int
  IsAddOne : Int
  FeeCurrencyGroup : String
  FeeCurrency : String
  FeeValue : Int
  IsManualFee : Int
  ClosePrositionPrice : Int

/-- Vendor payload struct `TapAPIPositionInfo` as read by the process functions
(string fields are those passed through `toUtf`; all numeric fields use `Int` as value carrier,
since the bridge only copies them). -/
structure TapAPIPositionInfo where
  AccountNo : String
  ExchangeNo : String
  CommodityType : Int
  CommodityNo : String
  ContractNo : String
  StrikePrice : String
  CallOrPutFlag : Int
  MatchSide : Int
  HedgeFlag : Int
  PositionNo : String
  ServerFlag : Int
  OrderNo : String
  MatchNo : String
  UpperNo : String
  PositionPrice : Int
  PositionQty : Int
  PositionStreamId : Int
  CommodityCurrencyGroup : String
  CommodityCurrency : String
  CalculatePrice : Int
  AccountInitialMargin : Int
  AccountMaintenanceMargin : Int
  UpperInitialMargin : Int
  UpperMaintenanceMargin : Int
  PositionProfit : Int
  LMEPositionProfit : Int
  OptionMarketValue : Int
  IsHistory : Int

/-- Vendor payload struct `TapAPIPositionSummary` as read by the process functions
(string fields are those passed through `toUtf`; all numeric fields use `Int` as value carrier,
since the bridge only copies them). -/
structure TapAPIPositionSummary where
  AccountNo : String
  ExchangeNo : String
  CommodityType : Int
  CommodityNo : String
  ContractNo : String
  StrikePrice : String
  CallOrPutFlag : Int
  MatchSide : Int
  PositionPrice : Int
  PositionQty : Int
  HisPositionQty : Int

/-- Vendor payload struct `TapAPIPositionProfitNotice` as read by the process functions
(string fields are those passed through `toUtf`; all numeric fields use `Int` as value carrier,
since the bridge only copies them). -/
structure TapAPIPositionProfitNotice where
  IsLast : Int
  Data : Int

/-- Vendor payload struct `TapAPICurrencyInfo` as read by the process functions
(string fields are those passed through `toUtf`; all numeric fields use `Int` as value carrier,
since the bridge only copies them). -/
structure TapAPICurrencyInfo where
  CurrencyNo : String
  CurrencyGroupNo : String
  TradeRate : Int
  TradeRate2 : Int
  FutureAlg : Int
  OptionAlg : Int

/-- Vendor payload struct `TapAPITradeMessage` as read by the process functions
(string fields are those passed through `toUtf`; all numeric fields use `Int` as value carrier,
since the bridge only copies them). -/
structure TapAPITradeMessage where
  SerialID : Int
  AccountNo : String
  TMsgValidDateTime : String
  TMsgTitle : String
  TMsgContent : String
  TMsgType : Int
  TMsgLevel : Int
  IsSendBySMS : Int
  IsSendByEMail : Int
  Sender : String
  SendDateTime : String

/-- Vendor payload struct `TapAPIHisOrderQryRsp` as read by the process functions
(string fields are those passed through `toUtf`; all numeric fields use `Int` as value carrier,
since the bridge only copies them). -/
structure TapAPIHisOrderQryRsp where
  Date : String
  AccountNo : String
  ExchangeNo : String
  CommodityType : Int
  CommodityNo : String
  ContractNo : String
  StrikePrice : String
  CallOrPutFlag : Int
  ContractNo2 : String
  StrikePrice2 : String
  CallOrPutFlag2 : Int
  OrderType : Int
  OrderSource : Int
  TimeInForce : Int
  ExpireTime : String
  IsRiskOrder : Int
  OrderSide : Int
  PositionEffect : Int
  PositionEffect2 : Int
  InquiryNo : String
  HedgeFlag : Int
  OrderPrice : Int
  OrderPrice2 : Int
  StopPrice : Int
  OrderQty : Int
  OrderMinQty : Int
  OrderCanceledQty : Int
  RefInt : Int
  RefDouble : Int
  RefString : String
  ServerFlag : Int
  OrderNo : String
  OrderStreamID : Int
  UpperNo : String
  UpperChannelNo : String
  OrderLocalNo : String
  UpperStreamID : Int
  OrderSystemNo : String
  OrderExchangeSystemNo : String
  OrderParentSystemNo : String
  OrderInsertUserNo : String
  OrderInsertTime : String
  OrderCommandUserNo : String
  OrderUpdateUserNo : String
  OrderUpdateTime : String
  OrderState : Int
  OrderMatchPrice : Int
  OrderMatchPrice2 : Int
  OrderMatchQty : Int
  OrderMatchQty2 : Int
  ErrorCode : Int
  ErrorText : String
  IsBackInput : Int
  IsDeleted : Int
  IsAddOne : Int
  AddOneIsValid : Int
  MinClipSize : Int
  MaxClipSize : Int
  LicenseNo : String
  TacticsType : Int
  TriggerCondition : Int
  TriggerPriceType : Int

/-- Vendor payload struct `TapAPIHisOrderProcessQryRsp` as read by the process functions
(string fields are those passed through `toUtf`; all numeric fields use `Int` as value carrier,
since the bridge only copies them). -/
structure TapAPIHisOrderProcessQryRsp where
  Date : String
  AccountNo : String
  ExchangeNo : String
  CommodityType : Int
  CommodityNo : String
  ContractNo : String
  StrikePrice : String
  CallOrPutFlag : Int
  ContractNo2 : String
  StrikePrice2 : String
  CallOrPutFlag2 : Int
  OrderType : Int
  OrderSource : Int
  TimeInForce : Int
  ExpireTime : String
  IsRiskOrder : Int
  OrderSide : Int
  PositionEffect : Int
  PositionEffect2 : Int
  InquiryNo : String
  HedgeFlag : Int
  OrderPrice : Int
  OrderPrice2 : Int
  StopPrice : Int
  OrderQty : Int
  OrderMinQty : Int
  OrderCanceledQty : Int
  RefInt : Int
  RefDouble : Int
  RefString : String
  ServerFlag : Int
  OrderNo : String
  OrderStreamID : Int
  UpperNo : String
  UpperChannelNo : String
  OrderLocalNo : String
  UpperStreamID : Int
  OrderSystemNo : String
  OrderExchangeSystemNo : String
  OrderParentSystemNo : String
  OrderInsertUserNo : String
  OrderInsertTime : String
  OrderCommandUserNo : String
  OrderUpdateUserNo : String
  OrderUpdateTime : String
  OrderState : Int
  OrderMatchPrice : Int
  OrderMatchPrice2 : Int
  OrderMatchQty : Int
  OrderMatchQty2 : Int
  ErrorCode : Int
  ErrorText : String
  IsBackInput : Int
  IsDeleted : Int
  IsAddOne : Int
  AddOneIsValid : Int
  MinClipSize : Int
  MaxClipSize : Int
  LicenseNo : String
  TacticsType : Int
  TriggerCondition : Int
  TriggerPriceType : Int

/-- Vendor payload struct `TapAPIHisMatchQryRsp` as read by the process functions
(string fields are those passed through `toUtf`; all numeric fields use `Int` as value carrier,
since the bridge only copies them). -/
structure TapAPIHisMatchQryRsp where
  SettleDate : String
  TradeDate : String
  AccountNo : String
  ExchangeNo : String
  CommodityType : Int
  CommodityNo : String
  ContractNo : String
  StrikePrice : String
  CallOrPutFlag : Int
  MatchSource : Int
  MatchSide : Int
  PositionEffect : Int
  HedgeFlag : Int
  MatchPrice : Int
  MatchQty : Int
  OrderNo : String
  MatchNo : String
  MatchStreamID : Int
  UpperNo : String
  MatchCmbNo : String
  ExchangeMatchNo : String
  MatchUpperStreamID : Int
  CommodityCurrencyGroup : String
  CommodityCurrency : String
  Turnover : Int
  PremiumIncome : Int
  PremiumPay : Int
  AccountFee : Int
  AccountFeeCurrencyGroup : String
  AccountFeeCurrency : String
  IsManualFee : Int
  AccountOtherFee : Int
  UpperFee : Int
  UpperFeeCurrencyGroup : String
  UpperFeeCurrency : String
  IsUpperManualFee : Int
  UpperOtherFee : Int
  MatchDateTime : String
  UpperMatchDateTime : String
  CloseProfit : Int
  ClosePrice : Int
  CloseQty : Int
  SettleGroupNo : String
  OperatorNo : String
  OperateTime : String

/-- Vendor payload struct `TapAPIHisPositionQryRsp` as read by the process functions
(string fields are those passed through `toUtf`; all numeric fields use `Int` as value carrier,
since the bridge only copies them). -/
structure TapAPIHisPositionQryRsp where
  SettleDate : String
  OpenDate : String
  AccountNo : String
  ExchangeNo : String
  CommodityType : Int
  CommodityNo : String
  ContractNo : String
  StrikePrice : String
  CallOrPutFlag : Int
  MatchSide : Int
  HedgeFlag : Int
  PositionPrice : Int
  PositionQty : Int
  OrderNo : String
  PositionNo : String
  UpperNo : String
  CurrencyGroup : String
  Currency : String
  PreSettlePrice : Int
  SettlePrice : Int
  PositionDProfit : Int
  LMEPositionProfit : Int
  OptionMarketValue : Int
  AccountInitialMargin : Int
  AccountMaintenanceMargin : Int
  UpperInitialMargin : Int
  UpperMaintenanceMargin : Int
  SettleGroupNo : String

/-- Vendor payload struct `TapAPIHisDeliveryQryRsp` as read by the process functions
(string fields are those passed through `toUtf`; all numeric fields use `Int` as value carrier,
since the bridge only copies them). -/
structure TapAPIHisDeliveryQryRsp where
  DeliveryDate : String
  OpenDate : String
  AccountNo : String
  ExchangeNo : String
  CommodityType : Int
  CommodityNo : String
  ContractNo : String
  StrikePrice : String
  CallOrPutFlag : Int
  MatchSource : Int
  OpenSide : Int
  OpenPrice : Int
  DeliveryPrice : Int
  DeliveryQty : Int
  FrozenQty : Int
  OpenNo : String
  UpperNo : String
  CommodityCurrencyGroupy : String
  CommodityCurrency : String
  PreSettlePrice : Int
  DeliveryProfit : Int
  AccountFrozenInitialMargin : Int
  AccountFrozenMaintenanceMargin : Int
  UpperFrozenInitialMargin : Int
  UpperFrozenMaintenanceMargin : Int
  AccountFeeCurrencyGroup : String
  AccountFeeCurrency : String
  AccountDeliveryFee : Int
  UpperFeeCurrencyGroup : String
  UpperFeeCurrency : String
  UpperDeliveryFee : Int
  DeliveryMode : Int
  OperatorNo : String
  OperateTime : String
  SettleGourpNo : String

/-- Vendor payload struct `TapAPIAccountCashAdjustQryRsp` as read by the process functions
(string fields are those passed through `toUtf`; all numeric fields use `Int` as value carrier,
since the bridge only copies them). -/
structure TapAPIAccountCashAdjustQryRsp where
  Date : String
  AccountNo : String
  CashAdjustType : Int
  CurrencyGroupNo : String
  CurrencyNo : String
  CashAdjustValue : Int
  CashAdjustRemark : String
  OperateTime : String
  OperatorNo : String
  AccountBank : String
  BankAccount : String
  AccountLWFlag : Int
  CompanyBank : String
  InternalBankAccount : String
  CompanyLWFlag : Int

/-- Vendor payload struct `TapAPIBillQryRsp` as read by the process functions
(string fields are those passed through `toUtf`; all numeric fields use `Int` as value carrier,
since the bridge only copies them). -/
structure TapAPIBillQryRsp where
  Reqdata : Int
  BillLen : Int
  BillText : Int

/-- Vendor payload struct `TapAPIAccountFeeRentQryRsp` as read by the process functions
(string fields are those passed through `toUtf`; all numeric fields use `Int` as value carrier,
since the bridge only copies them). -/
structure TapAPIAccountFeeRentQryRsp where
  AccountNo : String
  ExchangeNo : String
  CommodityType : Int
  CommodityNo : String
  MatchSource : Int
  CalculateMode : Int
  CurrencyGroupNo : String
  CurrencyNo : String
  OpenCloseFee : Int
  CloseTodayFee : Int

/-- Vendor payload struct `TapAPIAccountMarginRentQryRsp` as read by the process functions
(string fields are those passed through `toUtf`; all numeric fields use `Int` as value carrier,
since the bridge only copies them). -/
structure TapAPIAccountMarginRentQryRsp where
  AccountNo : String
  ExchangeNo : String
  CommodityType : Int
  CommodityNo : String
  ContractNo : String
  StrikePrice : String
  CallOrPutFlag : Int
  CalculateMode : Int
  CurrencyGroupNo : String
  CurrencyNo : String
  InitialMargin : Int
  MaintenanceMargin : Int
  SellInitialMargin : Int
  SellMaintenanceMargin : Int
  LockMargin : Int

/-- Vendor payload struct `TapAPIOrderMarketInsertRsp` as read by the process functions
(string fields are those passed through `toUtf`; all numeric fields use `Int` as value carrier,
since the bridge only copies them). -/
structure TapAPIOrderMarketInsertRsp where
  AccountNo : String
  ExchangeNo : String
  CommodityType : Int
  CommodityNo : String
  ContractNo : String
  StrikePrice : String
  CallOrPutFlag : Int
  OrderType : Int
  TimeInForce : Int
  ExpireTime : String
  OrderSource : Int
  BuyPositionEffect : Int
  SellPositionEffect : Int
  OrderBuyPrice : Int
  OrderSellPrice : Int
  OrderBuyQty : Int
  OrderSellQty : Int
  ServerFlag : Int
  OrderBuyNo : String
  OrderSellNo : String
  AddOneIsValid : Int
  OrderMarketUserNo : String
  OrderMarketTime : String
  RefInt : Int
  RefDouble : Int
  RefString : String
  ClientBuyOrderNo : String
  ClientSellOrderNo : String
  ErrorCode : Int
  ErrorText : String
  ClientLocalIP : String
  ClientMac : String
  ClientIP : String
  Remark : String

/-- Vendor payload struct `TapAPIOrderMarketDeleteRsp` as read by the process functions
(string fields are those passed through `toUtf`; all numeric fields use `Int` as value carrier,
since the bridge only copies them). -/
structure TapAPIOrderMarketDeleteRsp where
  AccountNo : String
  ExchangeNo : String
  CommodityType : Int
  CommodityNo : String
  ContractNo : String
  StrikePrice : String
  CallOrPutFlag : Int
  OrderType : Int
  TimeInForce : Int
  ExpireTime : String
  OrderSource : Int
  BuyPositionEffect : Int
  SellPositionEffect : Int
  OrderBuyPrice : Int
  OrderSellPrice : Int
  OrderBuyQty : Int
  OrderSellQty : Int
  ServerFlag : Int
  OrderBuyNo : String
  OrderSellNo : String
  AddOneIsValid : Int
  OrderMarketUserNo : String
  OrderMarketTime : String
  RefInt : Int
  RefDouble : Int
  RefString : String
  ClientBuyOrderNo : String
  ClientSellOrderNo : String
  ErrorCode : Int
  ErrorText : String
  ClientLocalIP : String
  ClientMac : String
  ClientIP : String
  Remark : String

/-- Vendor payload struct `TapAPIOrderQuoteMarketNotice` as read by the process functions
(string fields are those passed through `toUtf`; all numeric fields use `Int` as value carrier,
since the bridge only copies them). -/
structure TapAPIOrderQuoteMarketNotice where
  ExchangeNo : String
  CommodityType : Int
  CommodityNo : String
  ContractNo : String
  StrikePrice : String
  CallOrPutFlag : Int
  OrderSide : Int
  OrderQty : Int

/-- Vendor payload struct `TapAPIOrderLocalRemoveRsp` as read by the process functions
(string fields are those passed through `toUtf`; all numeric fields use `Int` as value carrier,
since the bridge only copies them). -/
structure TapAPIOrderLocalRemoveRsp where
  req : Int
  ClientLocalIP : String
  ClientMac : String
  ClientIP : String

/-- Vendor payload struct `TapAPIOrderLocalInputRsp` as read by the process functions
(string fields are those passed through `toUtf`; all numeric fields use `Int` as value carrier,
since the bridge only copies them). -/
structure TapAPIOrderLocalInputRsp where
  AccountNo : String
  ExchangeNo : String
  CommodityType : Int
  CommodityNo : String
  ContractNo : String
  StrikePrice : String
  CallOrPutFlag : Int
  ContractNo2 : String
  StrikePrice2 : String
  CallOrPutFlag2 : Int
  OrderType : Int
  OrderSource : Int
  TimeInForce : Int
  ExpireTime : String
  IsRiskOrder : Int
  OrderSide : Int
  PositionEffect : Int
  PositionEffect2 : Int
  InquiryNo : String
  HedgeFlag : Int
  OrderPrice : Int
  OrderPrice2 : Int
  StopPrice : Int
  OrderQty : Int
  OrderMinQty : Int
  RefInt : Int
  RefDouble : Int
  RefString : String
  MinClipSize : Int
  MaxClipSize : Int
  LicenseNo : String
  ServerFlag : Int
  OrderNo : String
  ClientOrderNo : String
  ClientID : String
  TacticsType : Int
  TriggerCondition : Int
  TriggerPriceType : Int
  AddOneIsValid : Int
  ClientLocalIP : String
  ClientMac : String
  ClientIP : String
  OrderStreamID : Int
  UpperNo : String
  UpperChannelNo : String
  OrderLocalNo : String
  UpperStreamID : Int
  OrderSystemNo : String
  OrderExchangeSystemNo : String
  OrderParentSystemNo : String
  OrderInsertUserNo : String
  OrderInsertTime : String
  OrderCommandUserNo : String
  OrderUpdateUserNo : String
  OrderUpdateTime : String
  OrderState : Int
  OrderMatchPrice : Int
  OrderMatchPrice2 : Int
  OrderMatchQty : Int
  OrderMatchQty2 : Int
  ErrorCode : Int
  ErrorText : String
  IsBackInput : Int
  IsDeleted : Int
  IsAddOne : Int

/-- Vendor payload struct `TapAPIOrderLocalModifyRsp` as read by the process functions
(string fields are those passed through `toUtf`; all numeric fields use `Int` as value carrier,
since the bridge only copies them). -/
structure TapAPIOrderLocalModifyRsp where
  AccountNo : String
  ExchangeNo : String
  CommodityType : Int
  CommodityNo : String
  ContractNo : String
  StrikePrice : String
  CallOrPutFlag : Int
  ContractNo2 : String
  StrikePrice2 : String
  CallOrPutFlag2 : Int
  OrderType : Int
  OrderSource : Int
  TimeInForce : Int
  ExpireTime : String
  IsRiskOrder : Int
  OrderSide : Int
  PositionEffect : Int
  PositionEffect2 : Int
  InquiryNo : String
  HedgeFlag : Int
  OrderPrice : Int
  OrderPrice2 : Int
  StopPrice : Int
  OrderQty : Int
  OrderMinQty : Int
  RefInt : Int
  RefDouble : Int
  RefString : String
  MinClipSize : Int
  MaxClipSize : Int
  LicenseNo : String
  ServerFlag : Int
  OrderNo : String
  ClientOrderNo : String
  ClientID : String
  TacticsType : Int
  TriggerCondition : Int
  TriggerPriceType : Int
  AddOneIsValid : Int
  ClientLocalIP : String
  ClientMac : String
  ClientIP : String
  OrderStreamID : Int
  UpperNo : String
  UpperChannelNo : String
  OrderLocalNo : String
  UpperStreamID : Int
  OrderSystemNo : String
  OrderExchangeSystemNo : String
  OrderParentSystemNo : String
  OrderInsertUserNo : String
  OrderInsertTime : String
  OrderCommandUserNo : String
  OrderUpdateUserNo : String
  OrderUpdateTime : String
  OrderState : Int
  OrderMatchPrice : Int
  OrderMatchPrice2 : Int
  OrderMatchQty : Int
  OrderMatchQty2 : Int
  ErrorCode : Int
  ErrorText : String
  IsBackInput : Int
  IsDeleted : Int
  IsAddOne : Int

/-- Vendor payload struct `TapAPIOrderLocalTransferRsp` as read by the process functions
(string fields are those passed through `toUtf`; all numeric fields use `Int` as value carrier,
since the bridge only copies them). -/
structure TapAPIOrderLocalTransferRsp where
  AccountNo : String
  ExchangeNo : String
  CommodityType : Int
  CommodityNo : String
  ContractNo : String
  StrikePrice : String
  CallOrPutFlag : Int
  ContractNo2 : String
  StrikePrice2 : String
  CallOrPutFlag2 : Int
  OrderType : Int
  OrderSource : Int
  TimeInForce : Int
  ExpireTime : String
  IsRiskOrder : Int
  OrderSide : Int
  PositionEffect : Int
  PositionEffect2 : Int
  InquiryNo : String
  HedgeFlag : Int
  OrderPrice : Int
  OrderPrice2 : Int
  StopPrice : Int
  OrderQty : Int
  OrderMinQty : Int
  RefInt : Int
  RefDouble : Int
  RefString : String
  MinClipSize : Int
  MaxClipSize : Int
  LicenseNo : String
  ServerFlag : Int
  OrderNo : String
  ClientOrderNo : String
  ClientID : String
  TacticsType : Int
  TriggerCondition : Int
  TriggerPriceType : Int
  AddOneIsValid : Int
  ClientLocalIP : String
  ClientMac : String
  ClientIP : String
  OrderStreamID : Int
  UpperNo : String
  UpperChannelNo : String
  OrderLocalNo : String
  UpperStreamID : Int
  OrderSystemNo : String
  OrderExchangeSystemNo : String
  OrderParentSystemNo : String
  OrderInsertUserNo : String
  OrderInsertTime : String
  OrderCommandUserNo : String
  OrderUpdateUserNo : String
  OrderUpdateTime : String
  OrderState : Int
  OrderMatchPrice : Int
  OrderMatchPrice2 : Int
  OrderMatchQty : Int
  OrderMatchQty2 : Int
  ErrorCode : Int
  ErrorText : String
  IsBackInput : Int
  IsDeleted : Int
  IsAddOne : Int

/-- Vendor payload struct `TapAPIFillLocalInputRsp` as read by the process functions
(string fields are those passed through `toUtf`; all numeric fields use `Int` as value carrier,
since the bridge only copies them). -/
structure TapAPIFillLocalInputRsp where
  AccountNo : String
  ExchangeNo : String
  CommodityType : Int
  CommodityNo : String
  ContractNo : String
  StrikePrice : String
  CallOrPutFlag : Int
  MatchSide : Int
  PositionEffect : Int
  HedgeFlag : Int
  MatchPrice : Int
  MatchQty : Int
  OrderSystemNo : String
  UpperMatchNo : String
  MatchDateTime : String
  UpperMatchDateTime : String
  UpperNo : String
  IsAddOne : Int
  FeeCurrencyGroup : String
  FeeCurrency : String
  FeeValue : Int
  IsManualFee : Int
  ClosePositionPrice : Int

/-- Vendor payload struct `TapAPIFillLocalRemoveRsp` as read by the process functions
(string fields are those passed through `toUtf`; all numeric fields use `Int` as value carrier,
since the bridge only copies them). -/
structure TapAPIFillLocalRemoveRsp where
  ServerFlag : Int
  MatchNo : String

/-- One-for-one field enumeration of `TapAPITradeLoginRspInfo`: each field value under a key equal to the
field name (string fields through `toUtf`). -/
def TapAPITradeLoginRspInfo.toDict (d : TapAPITradeLoginRspInfo) : TapDict :=
  [("UserNo", toUtf d.UserNo),
  ("UserType", DValue.num d.UserType),
  ("UserName", toUtf d.UserName),
  ("ReservedInfo", toUtf d.ReservedInfo),
  ("LastLoginIP", toUtf d.LastLoginIP),
  ("LastLoginProt", DValue.num d.LastLoginProt),
  ("LastLoginTime", toUtf d.LastLoginTime),
  ("LastLogoutTime", toUtf d.LastLogoutTime),
  ("TradeDate", toUtf d.TradeDate),
  ("LastSettleTime", toUtf d.LastSettleTime),
  ("StartTime", toUtf d.StartTime),
  ("InitTime", toUtf d.InitTime)]

/-- One-for-one field enumeration of `TapAPIRequestVertificateCodeRsp`: each field value under a key equal to the
field name (string fields through `toUtf`). -/
def TapAPIRequestVertificateCodeRsp.toDict (d : TapAPIRequestVertificateCodeRsp) : TapDict :=
  [("SecondSerialID", toUtf d.SecondSerialID),
  ("Effective", DValue.num d.Effective)]

/-- One-for-one field enumeration of `TapAPITradingCalendarQryRsp`: each field value under a key equal to the
field name (string fields through `toUtf`). -/
def TapAPITradingCalendarQryRsp.toDict (d : TapAPITradingCalendarQryRsp) : TapDict :=
  [("CurrTradeDate", toUtf d.CurrTradeDate),
  ("LastSettlementDate", toUtf d.LastSettlementDate),
  ("PromptDate", toUtf d.PromptDate),
  ("LastPromptDate", toUtf d.LastPromptDate)]

/-- One-for-one field enumeration of `TapAPIAccountInfo`: each field value under a key equal to the
field name (string fields through `toUtf`). -/
def TapAPIAccountInfo.toDict (d : TapAPIAccountInfo) : TapDict :=
  [("AccountNo", toUtf d.AccountNo),
  ("AccountType", DValue.num d.AccountType),
  ("AccountState", DValue.num d.AccountState),
  ("AccountTradeRight", DValue.num d.AccountTradeRight),
  ("CommodityGroupNo", toUtf d.CommodityGroupNo),
  ("AccountShortName", toUtf d.AccountShortName),
  ("AccountEnShortName", toUtf d.AccountEnShortName)]

/-- One-for-one field enumeration of `TapAPIFundData`: each field value under a key equal to the
field name (string fields through `toUtf`). -/
def TapAPIFundData.toDict (d : TapAPIFundData) : TapDict :=
  [("AccountNo", toUtf d.AccountNo),
  ("CurrencyGroupNo", toUtf d.CurrencyGroupNo),
  ("CurrencyNo", toUtf d.CurrencyNo),
  ("TradeRate", DValue.num d.TradeRate),
  ("FutureAlg", DValue.num d.FutureAlg),
  ("OptionAlg", DValue.num d.OptionAlg),
  ("PreBalance", DValue.num d.PreBalance),
  ("PreUnExpProfit", DValue.num d.PreUnExpProfit),
  ("PreLMEPositionProfit", DValue.num d.PreLMEPositionProfit),
  ("PreEquity", DValue.num d.PreEquity),
  ("PreAvailable1", DValue.num d.PreAvailable1),
  ("PreMarketEquity", DValue.num d.PreMarketEquity),
  ("CashInValue", DValue.num d.CashInValue),
  ("CashOutValue", DValue.num d.CashOutValue),
  ("CashAdjustValue", DValue.num d.CashAdjustValue),
  ("CashPledged", DValue.num d.CashPledged),
  ("FrozenFee", DValue.num d.FrozenFee),
  ("FrozenDeposit", DValue.num d.FrozenDeposit),
  ("AccountFee", DValue.num d.AccountFee),
  ("SwapInValue", DValue.num d.SwapInValue),
  ("SwapOutValue", DValue.num d.SwapOutValue),
  ("PremiumIncome", DValue.num d.PremiumIncome),
  ("PremiumPay", DValue.num d.PremiumPay),
  ("CloseProfit", DValue.num d.CloseProfit),
  ("FrozenFund", DValue.num d.FrozenFund),
  ("UnExpProfit", DValue.num d.UnExpProfit),
  ("ExpProfit", DValue.num d.ExpProfit),
  ("PositionProfit", DValue.num d.PositionProfit),
  ("LmePositionProfit", DValue.num d.LmePositionProfit),
  ("OptionMarketValue", DValue.num d.OptionMarketValue),
  ("AccountIntialMargin", DValue.num d.AccountIntialMargin),
  ("AccountMaintenanceMargin", DValue.num d.AccountMaintenanceMargin),
  ("UpperInitalMargin", DValue.num d.UpperInitalMargin),
  ("UpperMaintenanceMargin", DValue.num d.UpperMaintenanceMargin),
  ("Discount", DValue.num d.Discount),
  ("Balance", DValue.num d.Balance),
  ("Equity", DValue.num d.Equity),
  ("Available", DValue.num d.Available),
  ("CanDraw", DValue.num d.CanDraw),
  ("MarketEquity", DValue.num d.MarketEquity),
  ("AuthMoney", DValue.num d.AuthMoney)]

/-- One-for-one field enumeration of `TapAPIExchangeInfo`: each field value under a key equal to the
field name (string fields through `toUtf`). -/
def TapAPIExchangeInfo.toDict (d : TapAPIExchangeInfo) : TapDict :=
  [("ExchangeNo", toUtf d.ExchangeNo),
  ("ExchangeName", toUtf d.ExchangeName)]

/-- One-for-one field enumeration of `TapAPICommodityInfo`: each field value under a key equal to the
field name (string fields through `toUtf`). -/
def TapAPICommodityInfo.toDict (d : TapAPICommodityInfo) : TapDict :=
  [("ExchangeNo", toUtf d.ExchangeNo),
  ("CommodityType", DValue.num d.CommodityType),
  ("CommodityNo", toUtf d.CommodityNo),
  ("CommodityName", toUtf d.CommodityName),
  ("CommodityEngName", toUtf d.CommodityEngName),
  ("RelateExchangeNo", toUtf d.RelateExchangeNo),
  ("RelateCommodityType", DValue.num d.RelateCommodityType),
  ("RelateCommodityNo", toUtf d.RelateCommodityNo),
  ("RelateExchangeNo2", toUtf d.RelateExchangeNo2),
  ("RelateCommodityType2", DValue.num d.RelateCommodityType2),
  ("RelateCommodityNo2", toUtf d.RelateCommodityNo2),
  ("CurrencyGroupNo", toUtf d.CurrencyGroupNo),
  ("TradeCurrency", toUtf d.TradeCurrency),
  ("ContractSize", DValue.num d.ContractSize),
  ("OpenCloseMode", DValue.num d.OpenCloseMode),
  ("StrikePriceTimes", DValue.num d.StrikePriceTimes),
  ("CommodityTickSize", DValue.num d.CommodityTickSize),
  ("CommodityDenominator", DValue.num d.CommodityDenominator),
  ("CmbDirect", DValue.num d.CmbDirect),
  ("DeliveryMode", DValue.num d.DeliveryMode),
  ("DeliveryDays", DValue.num d.DeliveryDays),
  ("AddOneTime", toUtf d.AddOneTime),
  ("CommodityTimeZone", DValue.num d.CommodityTimeZone),
  ("IsAddOne", DValue.num d.IsAddOne)]

/-- One-for-one field enumeration of `TapAPITradeContractInfo`: each field value under a key equal to the
field name (string fields through `toUtf`). -/
def TapAPITradeContractInfo.toDict (d : TapAPITradeContractInfo) : TapDict :=
  [("ExchangeNo", toUtf d.ExchangeNo),
  ("CommodityType", DValue.num d.CommodityType),
  ("CommodityNo", toUtf d.CommodityNo),
  ("ContractNo1", toUtf d.ContractNo1),
  ("StrikePrice1", toUtf d.StrikePrice1),
  ("CallOrPutFlag1", DValue.num d.CallOrPutFlag1),
  ("ContractNo2", toUtf d.ContractNo2),
  ("StrikePrice2", toUtf d.StrikePrice2),
  ("CallOrPutFlag2", DValue.num d.CallOrPutFlag2),
  ("ContractType", DValue.num d.ContractType),
  ("QuoteUnderlyingContract", toUtf d.QuoteUnderlyingContract),
  ("ContractName", toUtf d.ContractName),
  ("ContractExpDate", toUtf d.ContractExpDate),
  ("LastTradeDate", toUtf d.LastTradeDate),
  ("FirstNoticeDate", toUtf d.FirstNoticeDate)]

/-- One-for-one field enumeration of `TapAPIOrderActionRsp`: each field value under a key equal to the
field name (string fields through `toUtf`). -/
def TapAPIOrderActionRsp.toDict (d : TapAPIOrderActionRsp) : TapDict :=
  [("ActionType", DValue.num d.ActionType),
  ("OrderInfo", DValue.num d.OrderInfo)]

/-- One-for-one field enumeration of `TapAPIOrderInfoNotice`: each field value under a key equal to the
field name (string fields through `toUtf`). -/
def TapAPIOrderInfoNotice.toDict (d : TapAPIOrderInfoNotice) : TapDict :=
  [("SessionID", DValue.num d.SessionID),
  ("ErrorCode", DValue.num d.ErrorCode),
  ("OrderInfo", DValue.num d.OrderInfo)]

/-- One-for-one field enumeration of `TapAPIOrderInfo`: each field value under a key equal to the
field name (string fields through `toUtf`). -/
def TapAPIOrderInfo.toDict (d : TapAPIOrderInfo) : TapDict :=
  [("AccountNo", toUtf d.AccountNo),
  ("ExchangeNo", toUtf d.ExchangeNo),
  ("CommodityType", DValue.num d.CommodityType),
  ("CommodityNo", toUtf d.CommodityNo),
  ("ContractNo", toUtf d.ContractNo),
  ("StrikePrice", toUtf d.StrikePrice),
  ("CallOrPutFlag", DValue.num d.CallOrPutFlag),
  ("ContractNo2", toUtf d.ContractNo2),
  ("StrikePrice2", toUtf d.StrikePrice2),
  ("CallOrPutFlag2", DValue.num d.CallOrPutFlag2),
  ("OrderType", DValue.num d.OrderType),
  ("OrderSource", DValue.num d.OrderSource),
  ("TimeInForce", DValue.num d.TimeInForce),
  ("ExpireTime", toUtf d.ExpireTime),
  ("IsRiskOrder", DValue.num d.IsRiskOrder),
  ("OrderSide", DValue.num d.OrderSide),
  ("PositionEffect", DValue.num d.PositionEffect),
  ("PositionEffect2", DValue.num d.PositionEffect2),
  ("InquiryNo", toUtf d.InquiryNo),
  ("HedgeFlag", DValue.num d.HedgeFlag),
  ("OrderPrice", DValue.num d.OrderPrice),
  ("OrderPrice2", DValue.num d.OrderPrice2),
  ("StopPrice", DValue.num d.StopPrice),
  ("OrderQty", DValue.num d.OrderQty),
  ("OrderMinQty", DValue.num d.OrderMinQty),
  ("RefInt", DValue.num d.RefInt),
  ("RefDouble", DValue.num d.RefDouble),
  ("RefString", toUtf d.RefString),
  ("MinClipSize", DValue.num d.MinClipSize),
  ("MaxClipSize", DValue.num d.MaxClipSize),
  ("LicenseNo", toUtf d.LicenseNo),
  ("ServerFlag", DValue.num d.ServerFlag),
  ("OrderNo", toUtf d.OrderNo),
  ("ClientOrderNo", toUtf d.ClientOrderNo),
  ("ClientID", toUtf d.ClientID),
  ("TacticsType", DValue.num d.TacticsType),
  ("TriggerCondition", DValue.num d.TriggerCondition),
  ("TriggerPriceType", DValue.num d.TriggerPriceType),
  ("AddOneIsValid", DValue.num d.AddOneIsValid),
  ("ClientLocalIP", toUtf d.ClientLocalIP),
  ("ClientMac", toUtf d.ClientMac),
  ("ClientIP", toUtf d.ClientIP),
  ("OrderStreamID", DValue.num d.OrderStreamID),
  ("UpperNo", toUtf d.UpperNo),
  ("UpperChannelNo", toUtf d.UpperChannelNo),
  ("OrderLocalNo", toUtf d.OrderLocalNo),
  ("UpperStreamID", DValue.num d.UpperStreamID),
  ("OrderSystemNo", toUtf d.OrderSystemNo),
  ("OrderExchangeSystemNo", toUtf d.OrderExchangeSystemNo),
  ("OrderParentSystemNo", toUtf d.OrderParentSystemNo),
  ("OrderInsertUserNo", toUtf d.OrderInsertUserNo),
  ("OrderInsertTime", toUtf d.OrderInsertTime),
  ("OrderCommandUserNo", toUtf d.OrderCommandUserNo),
  ("OrderUpdateUserNo", toUtf d.OrderUpdateUserNo),
  ("OrderUpdateTime", toUtf d.OrderUpdateTime),
  ("OrderState", DValue.num d.OrderState),
  ("OrderMatchPrice", DValue.num d.OrderMatchPrice),
  ("OrderMatchPrice2", DValue.num d.OrderMatchPrice2),
  ("OrderMatchQty", DValue.num d.OrderMatchQty),
  ("OrderMatchQty2", DValue.num d.OrderMatchQty2),
  ("ErrorCode", DValue.num d.ErrorCode),
  ("ErrorText", toUtf d.ErrorText),
  ("IsBackInput", DValue.num d.IsBackInput),
  ("IsDeleted", DValue.num d.IsDeleted),
  ("IsAddOne", DValue.num d.IsAddOne)]

/-- One-for-one field enumeration of `TapAPIFillInfo`: each field value under a key equal to the
field name (string fields through `toUtf`). -/
def TapAPIFillInfo.toDict (d : TapAPIFillInfo) : TapDict :=
  [("AccountNo", toUtf d.AccountNo),
  ("ExchangeNo", toUtf d.ExchangeNo),
  ("CommodityType", DValue.num d.CommodityType),
  ("CommodityNo", toUtf d.CommodityNo),
  ("ContractNo", toUtf d.ContractNo),
  ("StrikePrice", toUtf d.StrikePrice),
  ("CallOrPutFlag", DValue.num d.CallOrPutFlag),
  ("MatchSource", DValue.num d.MatchSource),
  ("MatchSide", DValue.num d.MatchSide),
  ("PositionEffect", DValue.num d.PositionEffect),
  ("ServerFlag", DValue.num d.ServerFlag),
  ("OrderNo", toUtf d.OrderNo),
  ("OrderSystemNo", toUtf d.OrderSystemNo),
  ("MatchNo", toUtf d.MatchNo),
  ("UpperMatchNo", toUtf d.UpperMatchNo),
  ("ExchangeMatchNo", toUtf d.ExchangeMatchNo),
  ("MatchDateTime", toUtf d.MatchDateTime),
  ("UpperMatchDateTime", toUtf d.UpperMatchDateTime),
  ("UpperNo", toUtf d.UpperNo),
  ("MatchPrice", DValue.num d.MatchPrice),
  ("MatchQty", DValue.num d.MatchQty),
  ("IsDeleted", DValue.num d.IsDeleted),
  ("IsAddOne", DValue.num d.IsAddOne),
  ("FeeCurrencyGroup", toUtf d.FeeCurrencyGroup),
  ("FeeCurrency", toUtf d.FeeCurrency),
  ("FeeValue", DValue.num d.FeeValue),
  ("IsManualFee", DValue.num d.IsManualFee),
  ("ClosePrositionPrice", DValue.num d.ClosePrositionPrice)]

/-- One-for-one field enumeration of `TapAPIPositionInfo`: each field value under a key equal to the
field name (string fields through `toUtf`). -/
def TapAPIPositionInfo.toDict (d : TapAPIPositionInfo) : TapDict :=
  [("AccountNo", toUtf d.AccountNo),
  ("ExchangeNo", toUtf d.ExchangeNo),
  ("CommodityType", DValue.num d.CommodityType),
  ("CommodityNo", toUtf d.CommodityNo),
  ("ContractNo", toUtf d.ContractNo),
  ("StrikePrice", toUtf d.StrikePrice),
  ("CallOrPutFlag", DValue.num d.CallOrPutFlag),
  ("MatchSide", DValue.num d.MatchSide),
  ("HedgeFlag", DValue.num d.HedgeFlag),
  ("PositionNo", toUtf d.PositionNo),
  ("ServerFlag", DValue.num d.ServerFlag),
  ("OrderNo", toUtf d.OrderNo),
  ("MatchNo", toUtf d.MatchNo),
  ("UpperNo", toUtf d.UpperNo),
  ("PositionPrice", DValue.num d.PositionPrice),
  ("PositionQty", DValue.num d.PositionQty),
  ("PositionStreamId", DValue.num d.PositionStreamId),
  ("CommodityCurrencyGroup", toUtf d.CommodityCurrencyGroup),
  ("CommodityCurrency", toUtf d.CommodityCurrency),
  ("CalculatePrice", DValue.num d.CalculatePrice),
  ("AccountInitialMargin", DValue.num d.AccountInitialMargin),
  ("AccountMaintenanceMargin", DValue.num d.AccountMaintenanceMargin),
  ("UpperInitialMargin", DValue.num d.UpperInitialMargin),
  ("UpperMaintenanceMargin", DValue.num d.UpperMaintenanceMargin),
  ("PositionProfit", DValue.num d.PositionProfit),
  ("LMEPositionProfit", DValue.num d.LMEPositionProfit),
  ("OptionMarketValue", DValue.num d.OptionMarketValue),
  ("IsHistory", DValue.num d.IsHistory)]

/-- One-for-one field enumeration of `TapAPIPositionSummary`: each field value under a key equal to the
field name (string fields through `toUtf`). -/
def TapAPIPositionSummary.toDict (d : TapAPIPositionSummary) : TapDict :=
  [("AccountNo", toUtf d.AccountNo),
  ("ExchangeNo", toUtf d.ExchangeNo),
  ("CommodityType", DValue.num d.CommodityType),
  ("CommodityNo", toUtf d.CommodityNo),
  ("ContractNo", toUtf d.ContractNo),
  ("StrikePrice", toUtf d.StrikePrice),
  ("CallOrPutFlag", DValue.num d.CallOrPutFlag),
  ("MatchSide", DValue.num d.MatchSide),
  ("PositionPrice", DValue.num d.PositionPrice),
  ("PositionQty", DValue.num d.PositionQty),
  ("HisPositionQty", DValue.num d.HisPositionQty)]

/-- One-for-one field enumeration of `TapAPIPositionProfitNotice`: each field value under a key equal to the
field name (string fields through `toUtf`). -/
def TapAPIPositionProfitNotice.toDict (d : TapAPIPositionProfitNotice) : TapDict :=
  [("IsLast", DValue.num d.IsLast),
  ("Data", DValue.num d.Data)]

/-- One-for-one field enumeration of `TapAPICurrencyInfo`: each field value under a key equal to the
field name (string fields through `toUtf`). -/
def TapAPICurrencyInfo.toDict (d : TapAPICurrencyInfo) : TapDict :=
  [("CurrencyNo", toUtf d.CurrencyNo),
  ("CurrencyGroupNo", toUtf d.CurrencyGroupNo),
  ("TradeRate", DValue.num d.TradeRate),
  ("TradeRate2", DValue.num d.TradeRate2),
  ("FutureAlg", DValue.num d.FutureAlg),
  ("OptionAlg", DValue.num d.OptionAlg)]

/-- One-for-one field enumeration of `TapAPITradeMessage`: each field value under a key equal to the
field name (string fields through `toUtf`). -/
def TapAPITradeMessage.toDict (d : TapAPITradeMessage) : TapDict :=
  [("SerialID", DValue.num d.SerialID),
  ("AccountNo", toUtf d.AccountNo),
  ("TMsgValidDateTime", toUtf d.TMsgValidDateTime),
  ("TMsgTitle", toUtf d.TMsgTitle),
  ("TMsgContent", toUtf d.TMsgContent),
  ("TMsgType", DValue.num d.TMsgType),
  ("TMsgLevel", DValue.num d.TMsgLevel),
  ("IsSendBySMS", DValue.num d.IsSendBySMS),
  ("IsSendByEMail", DValue.num d.IsSendByEMail),
  ("Sender", toUtf d.Sender),
  ("SendDateTime", toUtf d.SendDateTime)]

/-- One-for-one field enumeration of `TapAPIHisOrderQryRsp`: each field value under a key equal to the
field name (string fields through `toUtf`). -/
def TapAPIHisOrderQryRsp.toDict (d : TapAPIHisOrderQryRsp) : TapDict :=
  [("Date", toUtf d.Date),
  ("AccountNo", toUtf d.AccountNo),
  ("ExchangeNo", toUtf d.ExchangeNo),
  ("CommodityType", DValue.num d.CommodityType),
  ("CommodityNo", toUtf d.CommodityNo),
  ("ContractNo", toUtf d.ContractNo),
  ("StrikePrice", toUtf d.StrikePrice),
  ("CallOrPutFlag", DValue.num d.CallOrPutFlag),
  ("ContractNo2", toUtf d.ContractNo2),
  ("StrikePrice2", toUtf d.StrikePrice2),
  ("CallOrPutFlag2", DValue.num d.CallOrPutFlag2),
  ("OrderType", DValue.num d.OrderType),
  ("OrderSource", DValue.num d.OrderSource),
  ("TimeInForce", DValue.num d.TimeInForce),
  ("ExpireTime", toUtf d.ExpireTime),
  ("IsRiskOrder", DValue.num d.IsRiskOrder),
  ("OrderSide", DValue.num d.OrderSide),
  ("PositionEffect", DValue.num d.PositionEffect),
  ("PositionEffect2", DValue.num d.PositionEffect2),
  ("InquiryNo", toUtf d.InquiryNo),
  ("HedgeFlag", DValue.num d.HedgeFlag),
  ("OrderPrice", DValue.num d.OrderPrice),
  ("OrderPrice2", DValue.num d.OrderPrice2),
  ("StopPrice", DValue.num d.StopPrice),
  ("OrderQty", DValue.num d.OrderQty),
  ("OrderMinQty", DValue.num d.OrderMinQty),
  ("OrderCanceledQty", DValue.num d.OrderCanceledQty),
  ("RefInt", DValue.num d.RefInt),
  ("RefDouble", DValue.num d.RefDouble),
  ("RefString", toUtf d.RefString),
  ("ServerFlag", DValue.num d.ServerFlag),
  ("OrderNo", toUtf d.OrderNo),
  ("OrderStreamID", DValue.num d.OrderStreamID),
  ("UpperNo", toUtf d.UpperNo),
  ("UpperChannelNo", toUtf d.UpperChannelNo),
  ("OrderLocalNo", toUtf d.OrderLocalNo),
  ("UpperStreamID", DValue.num d.UpperStreamID),
  ("OrderSystemNo", toUtf d.OrderSystemNo),
  ("OrderExchangeSystemNo", toUtf d.OrderExchangeSystemNo),
  ("OrderParentSystemNo", toUtf d.OrderParentSystemNo),
  ("OrderInsertUserNo", toUtf d.OrderInsertUserNo),
  ("OrderInsertTime", toUtf d.OrderInsertTime),
  ("OrderCommandUserNo", toUtf d.OrderCommandUserNo),
  ("OrderUpdateUserNo", toUtf d.OrderUpdateUserNo),
  ("OrderUpdateTime", toUtf d.OrderUpdateTime),
  ("OrderState", DValue.num d.OrderState),
  ("OrderMatchPrice", DValue.num d.OrderMatchPrice),
  ("OrderMatchPrice2", DValue.num d.OrderMatchPrice2),
  ("OrderMatchQty", DValue.num d.OrderMatchQty),
  ("OrderMatchQty2", DValue.num d.OrderMatchQty2),
  ("ErrorCode", DValue.num d.ErrorCode),
  ("ErrorText", toUtf d.ErrorText),
  ("IsBackInput", DValue.num d.IsBackInput),
  ("IsDeleted", DValue.num d.IsDeleted),
  ("IsAddOne", DValue.num d.IsAddOne),
  ("AddOneIsValid", DValue.num d.AddOneIsValid),
  ("MinClipSize", DValue.num d.MinClipSize),
  ("MaxClipSize", DValue.num d.MaxClipSize),
  ("LicenseNo", toUtf d.LicenseNo),
  ("TacticsType", DValue.num d.TacticsType),
  ("TriggerCondition", DValue.num d.TriggerCondition),
  ("TriggerPriceType", DValue.num d.TriggerPriceType)]

/-- One-for-one field enumeration of `TapAPIHisOrderProcessQryRsp`: each field value under a key equal to the
field name (string fields through `toUtf`). -/
def TapAPIHisOrderProcessQryRsp.toDict (d : TapAPIHisOrderProcessQryRsp) : TapDict :=
  [("Date", toUtf d.Date),
  ("AccountNo", toUtf d.AccountNo),
  ("ExchangeNo", toUtf d.ExchangeNo),
  ("CommodityType", DValue.num d.CommodityType),
  ("CommodityNo", toUtf d.CommodityNo),
  ("ContractNo", toUtf d.ContractNo),
  ("StrikePrice", toUtf d.StrikePrice),
  ("CallOrPutFlag", DValue.num d.CallOrPutFlag),
  ("ContractNo2", toUtf d.ContractNo2),
  ("StrikePrice2", toUtf d.StrikePrice2),
  ("CallOrPutFlag2", DValue.num d.CallOrPutFlag2),
  ("OrderType", DValue.num d.OrderType),
  ("OrderSource", DValue.num d.OrderSource),
  ("TimeInForce", DValue.num d.TimeInForce),
  ("ExpireTime", toUtf d.ExpireTime),
  ("IsRiskOrder", DValue.num d.IsRiskOrder),
  ("OrderSide", DValue.num d.OrderSide),
  ("PositionEffect", DValue.num d.PositionEffect),
  ("PositionEffect2", DValue.num d.PositionEffect2),
  ("InquiryNo", toUtf d.InquiryNo),
  ("HedgeFlag", DValue.num d.HedgeFlag),
  ("OrderPrice", DValue.num d.OrderPrice),
  ("OrderPrice2", DValue.num d.OrderPrice2),
  ("StopPrice", DValue.num d.StopPrice),
  ("OrderQty", DValue.num d.OrderQty),
  ("OrderMinQty", DValue.num d.OrderMinQty),
  ("OrderCanceledQty", DValue.num d.OrderCanceledQty),
  ("RefInt", DValue.num d.RefInt),
  ("RefDouble", DValue.num d.RefDouble),
  ("RefString", toUtf d.RefString),
  ("ServerFlag", DValue.num d.ServerFlag),
  ("OrderNo", toUtf d.OrderNo),
  ("OrderStreamID", DValue.num d.OrderStreamID),
  ("UpperNo", toUtf d.UpperNo),
  ("UpperChannelNo", toUtf d.UpperChannelNo),
  ("OrderLocalNo", toUtf d.OrderLocalNo),
  ("UpperStreamID", DValue.num d.UpperStreamID),
  ("OrderSystemNo", toUtf d.OrderSystemNo),
  ("OrderExchangeSystemNo", toUtf d.OrderExchangeSystemNo),
  ("OrderParentSystemNo", toUtf d.OrderParentSystemNo),
  ("OrderInsertUserNo", toUtf d.OrderInsertUserNo),
  ("OrderInsertTime", toUtf d.OrderInsertTime),
  ("OrderCommandUserNo", toUtf d.OrderCommandUserNo),
  ("OrderUpdateUserNo", toUtf d.OrderUpdateUserNo),
  ("OrderUpdateTime", toUtf d.OrderUpdateTime),
  ("OrderState", DValue.num d.OrderState),
  ("OrderMatchPrice", DValue.num d.OrderMatchPrice),
  ("OrderMatchPrice2", DValue.num d.OrderMatchPrice2),
  ("OrderMatchQty", DValue.num d.OrderMatchQty),
  ("OrderMatchQty2", DValue.num d.OrderMatchQty2),
  ("ErrorCode", DValue.num d.ErrorCode),
  ("ErrorText", toUtf d.ErrorText),
  ("IsBackInput", DValue.num d.IsBackInput),
  ("IsDeleted", DValue.num d.IsDeleted),
  ("IsAddOne", DValue.num d.IsAddOne),
  ("AddOneIsValid", DValue.num d.AddOneIsValid),
  ("MinClipSize", DValue.num d.MinClipSize),
  ("MaxClipSize", DValue.num d.MaxClipSize),
  ("LicenseNo", toUtf d.LicenseNo),
  ("TacticsType", DValue.num d.TacticsType),
  ("TriggerCondition", DValue.num d.TriggerCondition),
  ("TriggerPriceType", DValue.num d.TriggerPriceType)]

/-- One-for-one field enumeration of `TapAPIHisMatchQryRsp`: each field value under a key equal to the
field name (string fields through `toUtf`). -/
def TapAPIHisMatchQryRsp.toDict (d : TapAPIHisMatchQryRsp) : TapDict :=
  [("SettleDate", toUtf d.SettleDate),
  ("TradeDate", toUtf d.TradeDate),
  ("AccountNo", toUtf d.AccountNo),
  ("ExchangeNo", toUtf d.ExchangeNo),
  ("CommodityType", DValue.num d.CommodityType),
  ("CommodityNo", toUtf d.CommodityNo),
  ("ContractNo", toUtf d.ContractNo),
  ("StrikePrice", toUtf d.StrikePrice),
  ("CallOrPutFlag", DValue.num d.CallOrPutFlag),
  ("MatchSource", DValue.num d.MatchSource),
  ("MatchSide", DValue.num d.MatchSide),
  ("PositionEffect", DValue.num d.PositionEffect),
  ("HedgeFlag", DValue.num d.HedgeFlag),
  ("MatchPrice", DValue.num d.MatchPrice),
  ("MatchQty", DValue.num d.MatchQty),
  ("OrderNo", toUtf d.OrderNo),
  ("MatchNo", toUtf d.MatchNo),
  ("MatchStreamID", DValue.num d.MatchStreamID),
  ("UpperNo", toUtf d.UpperNo),
  ("MatchCmbNo", toUtf d.MatchCmbNo),
  ("ExchangeMatchNo", toUtf d.ExchangeMatchNo),
  ("MatchUpperStreamID", DValue.num d.MatchUpperStreamID),
  ("CommodityCurrencyGroup", toUtf d.CommodityCurrencyGroup),
  ("CommodityCurrency", toUtf d.CommodityCurrency),
  ("Turnover", DValue.num d.Turnover),
  ("PremiumIncome", DValue.num d.PremiumIncome),
  ("PremiumPay", DValue.num d.PremiumPay),
  ("AccountFee", DValue.num d.AccountFee),
  ("AccountFeeCurrencyGroup", toUtf d.AccountFeeCurrencyGroup),
  ("AccountFeeCurrency", toUtf d.AccountFeeCurrency),
  ("IsManualFee", DValue.num d.IsManualFee),
  ("AccountOtherFee", DValue.num d.AccountOtherFee),
  ("UpperFee", DValue.num d.UpperFee),
  ("UpperFeeCurrencyGroup", toUtf d.UpperFeeCurrencyGroup),
  ("UpperFeeCurrency", toUtf d.UpperFeeCurrency),
  ("IsUpperManualFee", DValue.num d.IsUpperManualFee),
  ("UpperOtherFee", DValue.num d.UpperOtherFee),
  ("MatchDateTime", toUtf d.MatchDateTime),
  ("UpperMatchDateTime", toUtf d.UpperMatchDateTime),
  ("CloseProfit", DValue.num d.CloseProfit),
  ("ClosePrice", DValue.num d.ClosePrice),
  ("CloseQty", DValue.num d.CloseQty),
  ("SettleGroupNo", toUtf d.SettleGroupNo),
  ("OperatorNo", toUtf d.OperatorNo),
  ("OperateTime", toUtf d.OperateTime)]

/-- One-for-one field enumeration of `TapAPIHisPositionQryRsp`: each field value under a key equal to the
field name (string fields through `toUtf`). -/
def TapAPIHisPositionQryRsp.toDict (d : TapAPIHisPositionQryRsp) : TapDict :=
  [("SettleDate", toUtf d.SettleDate),
  ("OpenDate", toUtf d.OpenDate),
  ("AccountNo", toUtf d.AccountNo),
  ("ExchangeNo", toUtf d.ExchangeNo),
  ("CommodityType", DValue.num d.CommodityType),
  ("CommodityNo", toUtf d.CommodityNo),
  ("ContractNo", toUtf d.ContractNo),
  ("StrikePrice", toUtf d.StrikePrice),
  ("CallOrPutFlag", DValue.num d.CallOrPutFlag),
  ("MatchSide", DValue.num d.MatchSide),
  ("HedgeFlag", DValue.num d.HedgeFlag),
  ("PositionPrice", DValue.num d.PositionPrice),
  ("PositionQty", DValue.num d.PositionQty),
  ("OrderNo", toUtf d.OrderNo),
  ("PositionNo", toUtf d.PositionNo),
  ("UpperNo", toUtf d.UpperNo),
  ("CurrencyGroup", toUtf d.CurrencyGroup),
  ("Currency", toUtf d.Currency),
  ("PreSettlePrice", DValue.num d.PreSettlePrice),
  ("SettlePrice", DValue.num d.SettlePrice),
  ("PositionDProfit", DValue.num d.PositionDProfit),
  ("LMEPositionProfit", DValue.num d.LMEPositionProfit),
  ("OptionMarketValue", DValue.num d.OptionMarketValue),
  ("AccountInitialMargin", DValue.num d.AccountInitialMargin),
  ("AccountMaintenanceMargin", DValue.num d.AccountMaintenanceMargin),
  ("UpperInitialMargin", DValue.num d.UpperInitialMargin),
  ("UpperMaintenanceMargin", DValue.num d.UpperMaintenanceMargin),
  ("SettleGroupNo", toUtf d.SettleGroupNo)]

/-- One-for-one field enumeration of `TapAPIHisDeliveryQryRsp`: each field value under a key equal to the
field name (string fields through `toUtf`). -/
def TapAPIHisDeliveryQryRsp.toDict (d : TapAPIHisDeliveryQryRsp) : TapDict :=
  [("DeliveryDate", toUtf d.DeliveryDate),
  ("OpenDate", toUtf d.OpenDate),
  ("AccountNo", toUtf d.AccountNo),
  ("ExchangeNo", toUtf d.ExchangeNo),
  ("CommodityType", DValue.num d.CommodityType),
  ("CommodityNo", toUtf d.CommodityNo),
  ("ContractNo", toUtf d.ContractNo),
  ("StrikePrice", toUtf d.StrikePrice),
  ("CallOrPutFlag", DValue.num d.CallOrPutFlag),
  ("MatchSource", DValue.num d.MatchSource),
  ("OpenSide", DValue.num d.OpenSide),
  ("OpenPrice", DValue.num d.OpenPrice),
  ("DeliveryPrice", DValue.num d.DeliveryPrice),
  ("DeliveryQty", DValue.num d.DeliveryQty),
  ("FrozenQty", DValue.num d.FrozenQty),
  ("OpenNo", toUtf d.OpenNo),
  ("UpperNo", toUtf d.UpperNo),
  ("CommodityCurrencyGroupy", toUtf d.CommodityCurrencyGroupy),
  ("CommodityCurrency", toUtf d.CommodityCurrency),
  ("PreSettlePrice", DValue.num d.PreSettlePrice),
  ("DeliveryProfit", DValue.num d.DeliveryProfit),
  ("AccountFrozenInitialMargin", DValue.num d.AccountFrozenInitialMargin),
  ("AccountFrozenMaintenanceMargin", DValue.num d.AccountFrozenMaintenanceMargin),
  ("UpperFrozenInitialMargin", DValue.num d.UpperFrozenInitialMargin),
  ("UpperFrozenMaintenanceMargin", DValue.num d.UpperFrozenMaintenanceMargin),
  ("AccountFeeCurrencyGroup", toUtf d.AccountFeeCurrencyGroup),
  ("AccountFeeCurrency", toUtf d.AccountFeeCurrency),
  ("AccountDeliveryFee", DValue.num d.AccountDeliveryFee),
  ("UpperFeeCurrencyGroup", toUtf d.UpperFeeCurrencyGroup),
  ("UpperFeeCurrency", toUtf d.UpperFeeCurrency),
  ("UpperDeliveryFee", DValue.num d.UpperDeliveryFee),
  ("DeliveryMode", DValue.num d.DeliveryMode),
  ("OperatorNo", toUtf d.OperatorNo),
  ("OperateTime", toUtf d.OperateTime),
  ("SettleGourpNo", toUtf d.SettleGourpNo)]

/-- One-for-one field enumeration of `TapAPIAccountCashAdjustQryRsp`: each field value under a key equal to the
field name (string fields through `toUtf`). -/
def TapAPIAccountCashAdjustQryRsp.toDict (d : TapAPIAccountCashAdjustQryRsp) : TapDict :=
  [("Date", toUtf d.Date),
  ("AccountNo", toUtf d.AccountNo),
  ("CashAdjustType", DValue.num d.CashAdjustType),
  ("CurrencyGroupNo", toUtf d.CurrencyGroupNo),
  ("CurrencyNo", toUtf d.CurrencyNo),
  ("CashAdjustValue", DValue.num d.CashAdjustValue),
  ("CashAdjustRemark", toUtf d.CashAdjustRemark),
  ("OperateTime", toUtf d.OperateTime),
  ("OperatorNo", toUtf d.OperatorNo),
  ("AccountBank", toUtf d.AccountBank),
  ("BankAccount", toUtf d.BankAccount),
  ("AccountLWFlag", DValue.num d.AccountLWFlag),
  ("CompanyBank", toUtf d.CompanyBank),
  ("InternalBankAccount", toUtf d.InternalBankAccount),
  ("CompanyLWFlag", DValue.num d.CompanyLWFlag)]

/-- One-for-one field enumeration of `TapAPIBillQryRsp`: each field value under a key equal to the
field name (string fields through `toUtf`). -/
def TapAPIBillQryRsp.toDict (d : TapAPIBillQryRsp) : TapDict :=
  [("Reqdata", DValue.num d.Reqdata),
  ("BillLen", DValue.num d.BillLen),
  ("BillText", DValue.num d.BillText)]

/-- One-for-one field enumeration of `TapAPIAccountFeeRentQryRsp`: each field value under a key equal to the
field name (string fields through `toUtf`). -/
def TapAPIAccountFeeRentQryRsp.toDict (d : TapAPIAccountFeeRentQryRsp) : TapDict :=
  [("AccountNo", toUtf d.AccountNo),
  ("ExchangeNo", toUtf d.ExchangeNo),
  ("CommodityType", DValue.num d.CommodityType),
  ("CommodityNo", toUtf d.CommodityNo),
  ("MatchSource", DValue.num d.MatchSource),
  ("CalculateMode", DValue.num d.CalculateMode),
  ("CurrencyGroupNo", toUtf d.CurrencyGroupNo),
  ("CurrencyNo", toUtf d.CurrencyNo),
  ("OpenCloseFee", DValue.num d.OpenCloseFee),
  ("CloseTodayFee", DValue.num d.CloseTodayFee)]

/-- One-for-one field enumeration of `TapAPIAccountMarginRentQryRsp`: each field value under a key equal to the
field name (string fields through `toUtf`). -/
def TapAPIAccountMarginRentQryRsp.toDict (d : TapAPIAccountMarginRentQryRsp) : TapDict :=
  [("AccountNo", toUtf d.AccountNo),
  ("ExchangeNo", toUtf d.ExchangeNo),
  ("CommodityType", DValue.num d.CommodityType),
  ("CommodityNo", toUtf d.CommodityNo),
  ("ContractNo", toUtf d.ContractNo),
  ("StrikePrice", toUtf d.StrikePrice),
  ("CallOrPutFlag", DValue.num d.CallOrPutFlag),
  ("CalculateMode", DValue.num d.CalculateMode),
  ("CurrencyGroupNo", toUtf d.CurrencyGroupNo),
  ("CurrencyNo", toUtf d.CurrencyNo),
  ("InitialMargin", DValue.num d.InitialMargin),
  ("MaintenanceMargin", DValue.num d.MaintenanceMargin),
  ("SellInitialMargin", DValue.num d.SellInitialMargin),
  ("SellMaintenanceMargin", DValue.num d.SellMaintenanceMargin),
  ("LockMargin", DValue.num d.LockMargin)]

/-- One-for-one field enumeration of `TapAPIOrderMarketInsertRsp`: each field value under a key equal to the
field name (string fields through `toUtf`). -/
def TapAPIOrderMarketInsertRsp.toDict (d : TapAPIOrderMarketInsertRsp) : TapDict :=
  [("AccountNo", toUtf d.AccountNo),
  ("ExchangeNo", toUtf d.ExchangeNo),
  ("CommodityType", DValue.num d.CommodityType),
  ("CommodityNo", toUtf d.CommodityNo),
  ("ContractNo", toUtf d.ContractNo),
  ("StrikePrice", toUtf d.StrikePrice),
  ("CallOrPutFlag", DValue.num d.CallOrPutFlag),
  ("OrderType", DValue.num d.OrderType),
  ("TimeInForce", DValue.num d.TimeInForce),
  ("ExpireTime", toUtf d.ExpireTime),
  ("OrderSource", DValue.num d.OrderSource),
  ("BuyPositionEffect", DValue.num d.BuyPositionEffect),
  ("SellPositionEffect", DValue.num d.SellPositionEffect),
  ("OrderBuyPrice", DValue.num d.OrderBuyPrice),
  ("OrderSellPrice", DValue.num d.OrderSellPrice),
  ("OrderBuyQty", DValue.num d.OrderBuyQty),
  ("OrderSellQty", DValue.num d.OrderSellQty),
  ("ServerFlag", DValue.num d.ServerFlag),
  ("OrderBuyNo", toUtf d.OrderBuyNo),
  ("OrderSellNo", toUtf d.OrderSellNo),
  ("AddOneIsValid", DValue.num d.AddOneIsValid),
  ("OrderMarketUserNo", toUtf d.OrderMarketUserNo),
  ("OrderMarketTime", toUtf d.OrderMarketTime),
  ("RefInt", DValue.num d.RefInt),
  ("RefDouble", DValue.num d.RefDouble),
  ("RefString", toUtf d.RefString),
  ("ClientBuyOrderNo", toUtf d.ClientBuyOrderNo),
  ("ClientSellOrderNo", toUtf d.ClientSellOrderNo),
  ("ErrorCode", DValue.num d.ErrorCode),
  ("ErrorText", toUtf d.ErrorText),
  ("ClientLocalIP", toUtf d.ClientLocalIP),
  ("ClientMac", toUtf d.ClientMac),
  ("ClientIP", toUtf d.ClientIP),
  ("Remark", toUtf d.Remark)]

/-- One-for-one field enumeration of `TapAPIOrderMarketDeleteRsp`: each field value under a key equal to the
field name (string fields through `toUtf`). -/
def TapAPIOrderMarketDeleteRsp.toDict (d : TapAPIOrderMarketDeleteRsp) : TapDict :=
  [("AccountNo", toUtf d.AccountNo),
  ("ExchangeNo", toUtf d.ExchangeNo),
  ("CommodityType", DValue.num d.CommodityType),
  ("CommodityNo", toUtf d.CommodityNo),
  ("ContractNo", toUtf d.ContractNo),
  ("StrikePrice", toUtf d.StrikePrice),
  ("CallOrPutFlag", DValue.num d.CallOrPutFlag),
  ("OrderType", DValue.num d.OrderType),
  ("TimeInForce", DValue.num d.TimeInForce),
  ("ExpireTime", toUtf d.ExpireTime),
  ("OrderSource", DValue.num d.OrderSource),
  ("BuyPositionEffect", DValue.num d.BuyPositionEffect),
  ("SellPositionEffect", DValue.num d.SellPositionEffect),
  ("OrderBuyPrice", DValue.num d.OrderBuyPrice),
  ("OrderSellPrice", DValue.num d.OrderSellPrice),
  ("OrderBuyQty", DValue.num d.OrderBuyQty),
  ("OrderSellQty", DValue.num d.OrderSellQty),
  ("ServerFlag", DValue.num d.ServerFlag),
  ("OrderBuyNo", toUtf d.OrderBuyNo),
  ("OrderSellNo", toUtf d.OrderSellNo),
  ("AddOneIsValid", DValue.num d.AddOneIsValid),
  ("OrderMarketUserNo", toUtf d.OrderMarketUserNo),
  ("OrderMarketTime", toUtf d.OrderMarketTime),
  ("RefInt", DValue.num d.RefInt),
  ("RefDouble", DValue.num d.RefDouble),
  ("RefString", toUtf d.RefString),
  ("ClientBuyOrderNo", toUtf d.ClientBuyOrderNo),
  ("ClientSellOrderNo", toUtf d.ClientSellOrderNo),
  ("ErrorCode", DValue.num d.ErrorCode),
  ("ErrorText", toUtf d.ErrorText),
  ("ClientLocalIP", toUtf d.ClientLocalIP),
  ("ClientMac", toUtf d.ClientMac),
  ("ClientIP", toUtf d.ClientIP),
  ("Remark", toUtf d.Remark)]

/-- One-for-one field enumeration of `TapAPIOrderQuoteMarketNotice`: each field value under a key equal to the
field name (string fields through `toUtf`). -/
def TapAPIOrderQuoteMarketNotice.toDict (d : TapAPIOrderQuoteMarketNotice) : TapDict :=
  [("ExchangeNo", toUtf d.ExchangeNo),
  ("CommodityType", DValue.num d.CommodityType),
  ("CommodityNo", toUtf d.CommodityNo),
  ("ContractNo", toUtf d.ContractNo),
  ("StrikePrice", toUtf d.StrikePrice),
  ("CallOrPutFlag", DValue.num d.CallOrPutFlag),
  ("OrderSide", DValue.num d.OrderSide),
  ("OrderQty", DValue.num d.OrderQty)]

/-- One-for-one field enumeration of `TapAPIOrderLocalRemoveRsp`: each field value under a key equal to the
field name (string fields through `toUtf`). -/
def TapAPIOrderLocalRemoveRsp.toDict (d : TapAPIOrderLocalRemoveRsp) : TapDict :=
  [("req", DValue.num d.req),
  ("ClientLocalIP", toUtf d.ClientLocalIP),
  ("ClientMac", toUtf d.ClientMac),
  ("ClientIP", toUtf d.ClientIP)]

/-- One-for-one field enumeration of `TapAPIOrderLocalInputRsp`: each field value under a key equal to the
field name (string fields through `toUtf`). -/
def TapAPIOrderLocalInputRsp.toDict (d : TapAPIOrderLocalInputRsp) : TapDict :=
  [("AccountNo", toUtf d.AccountNo),
  ("ExchangeNo", toUtf d.ExchangeNo),
  ("CommodityType", DValue.num d.CommodityType),
  ("CommodityNo", toUtf d.CommodityNo),
  ("ContractNo", toUtf d.ContractNo),
  ("StrikePrice", toUtf d.StrikePrice),
  ("CallOrPutFlag", DValue.num d.CallOrPutFlag),
  ("ContractNo2", toUtf d.ContractNo2),
  ("StrikePrice2", toUtf d.StrikePrice2),
  ("CallOrPutFlag2", DValue.num d.CallOrPutFlag2),
  ("OrderType", DValue.num d.OrderType),
  ("OrderSource", DValue.num d.OrderSource),
  ("TimeInForce", DValue.num d.TimeInForce),
  ("ExpireTime", toUtf d.ExpireTime),
  ("IsRiskOrder", DValue.num d.IsRiskOrder),
  ("OrderSide", DValue.num d.OrderSide),
  ("PositionEffect", DValue.num d.PositionEffect),
  ("PositionEffect2", DValue.num d.PositionEffect2),
  ("InquiryNo", toUtf d.InquiryNo),
  ("HedgeFlag", DValue.num d.HedgeFlag),
  ("OrderPrice", DValue.num d.OrderPrice),
  ("OrderPrice2", DValue.num d.OrderPrice2),
  ("StopPrice", DValue.num d.StopPrice),
  ("OrderQty", DValue.num d.OrderQty),
  ("OrderMinQty", DValue.num d.OrderMinQty),
  ("RefInt", DValue.num d.RefInt),
  ("RefDouble", DValue.num d.RefDouble),
  ("RefString", toUtf d.RefString),
  ("MinClipSize", DValue.num d.MinClipSize),
  ("MaxClipSize", DValue.num d.MaxClipSize),
  ("LicenseNo", toUtf d.LicenseNo),
  ("ServerFlag", DValue.num d.ServerFlag),
  ("OrderNo", toUtf d.OrderNo),
  ("ClientOrderNo", toUtf d.ClientOrderNo),
  ("ClientID", toUtf d.ClientID),
  ("TacticsType", DValue.num d.TacticsType),
  ("TriggerCondition", DValue.num d.TriggerCondition),
  ("TriggerPriceType", DValue.num d.TriggerPriceType),
  ("AddOneIsValid", DValue.num d.AddOneIsValid),
  ("ClientLocalIP", toUtf d.ClientLocalIP),
  ("ClientMac", toUtf d.ClientMac),
  ("ClientIP", toUtf d.ClientIP),
  ("OrderStreamID", DValue.num d.OrderStreamID),
  ("UpperNo", toUtf d.UpperNo),
  ("UpperChannelNo", toUtf d.UpperChannelNo),
  ("OrderLocalNo", toUtf d.OrderLocalNo),
  ("UpperStreamID", DValue.num d.UpperStreamID),
  ("OrderSystemNo", toUtf d.OrderSystemNo),
  ("OrderExchangeSystemNo", toUtf d.OrderExchangeSystemNo),
  ("OrderParentSystemNo", toUtf d.OrderParentSystemNo),
  ("OrderInsertUserNo", toUtf d.OrderInsertUserNo),
  ("OrderInsertTime", toUtf d.OrderInsertTime),
  ("OrderCommandUserNo", toUtf d.OrderCommandUserNo),
  ("OrderUpdateUserNo", toUtf d.OrderUpdateUserNo),
  ("OrderUpdateTime", toUtf d.OrderUpdateTime),
  ("OrderState", DValue.num d.OrderState),
  ("OrderMatchPrice", DValue.num d.OrderMatchPrice),
  ("OrderMatchPrice2", DValue.num d.OrderMatchPrice2),
  ("OrderMatchQty", DValue.num d.OrderMatchQty),
  ("OrderMatchQty2", DValue.num d.OrderMatchQty2),
  ("ErrorCode", DValue.num d.ErrorCode),
  ("ErrorText", toUtf d.ErrorText),
  ("IsBackInput", DValue.num d.IsBackInput),
  ("IsDeleted", DValue.num d.IsDeleted),
  ("IsAddOne", DValue.num d.IsAddOne)]

/-- One-for-one field enumeration of `TapAPIOrderLocalModifyRsp`: each field value under a key equal to the
field name (string fields through `toUtf`). -/
def TapAPIOrderLocalModifyRsp.toDict (d : TapAPIOrderLocalModifyRsp) : TapDict :=
  [("AccountNo", toUtf d.AccountNo),
  ("ExchangeNo", toUtf d.ExchangeNo),
  ("CommodityType", DValue.num d.CommodityType),
  ("CommodityNo", toUtf d.CommodityNo),
  ("ContractNo", toUtf d.ContractNo),
  ("StrikePrice", toUtf d.StrikePrice),
  ("CallOrPutFlag", DValue.num d.CallOrPutFlag),
  ("ContractNo2", toUtf d.ContractNo2),
  ("StrikePrice2", toUtf d.StrikePrice2),
  ("CallOrPutFlag2", DValue.num d.CallOrPutFlag2),
  ("OrderType", DValue.num d.OrderType),
  ("OrderSource", DValue.num d.OrderSource),
  ("TimeInForce", DValue.num d.TimeInForce),
  ("ExpireTime", toUtf d.ExpireTime),
  ("IsRiskOrder", DValue.num d.IsRiskOrder),
  ("OrderSide", DValue.num d.OrderSide),
  ("PositionEffect", DValue.num d.PositionEffect),
  ("PositionEffect2", DValue.num d.PositionEffect2),
  ("InquiryNo", toUtf d.InquiryNo),
  ("HedgeFlag", DValue.num d.HedgeFlag),
  ("OrderPrice", DValue.num d.OrderPrice),
  ("OrderPrice2", DValue.num d.OrderPrice2),
  ("StopPrice", DValue.num d.StopPrice),
  ("OrderQty", DValue.num d.OrderQty),
  ("OrderMinQty", DValue.num d.OrderMinQty),
  ("RefInt", DValue.num d.RefInt),
  ("RefDouble", DValue.num d.RefDouble),
  ("RefString", toUtf d.RefString),
  ("MinClipSize", DValue.num d.MinClipSize),
  ("MaxClipSize", DValue.num d.MaxClipSize),
  ("LicenseNo", toUtf d.LicenseNo),
  ("ServerFlag", DValue.num d.ServerFlag),
  ("OrderNo", toUtf d.OrderNo),
  ("ClientOrderNo", toUtf d.ClientOrderNo),
  ("ClientID", toUtf d.ClientID),
  ("TacticsType", DValue.num d.TacticsType),
  ("TriggerCondition", DValue.num d.TriggerCondition),
  ("TriggerPriceType", DValue.num d.TriggerPriceType),
  ("AddOneIsValid", DValue.num d.AddOneIsValid),
  ("ClientLocalIP", toUtf d.ClientLocalIP),
  ("ClientMac", toUtf d.ClientMac),
  ("ClientIP", toUtf d.ClientIP),
  ("OrderStreamID", DValue.num d.OrderStreamID),
  ("UpperNo", toUtf d.UpperNo),
  ("UpperChannelNo", toUtf d.UpperChannelNo),
  ("OrderLocalNo", toUtf d.OrderLocalNo),
  ("UpperStreamID", DValue.num d.UpperStreamID),
  ("OrderSystemNo", toUtf d.OrderSystemNo),
  ("OrderExchangeSystemNo", toUtf d.OrderExchangeSystemNo),
  ("OrderParentSystemNo", toUtf d.OrderParentSystemNo),
  ("OrderInsertUserNo", toUtf d.OrderInsertUserNo),
  ("OrderInsertTime", toUtf d.OrderInsertTime),
  ("OrderCommandUserNo", toUtf d.OrderCommandUserNo),
  ("OrderUpdateUserNo", toUtf d.OrderUpdateUserNo),
  ("OrderUpdateTime", toUtf d.OrderUpdateTime),
  ("OrderState", DValue.num d.OrderState),
  ("OrderMatchPrice", DValue.num d.OrderMatchPrice),
  ("OrderMatchPrice2", DValue.num d.OrderMatchPrice2),
  ("OrderMatchQty", DValue.num d.OrderMatchQty),
  ("OrderMatchQty2", DValue.num d.OrderMatchQty2),
  ("ErrorCode", DValue.num d.ErrorCode),
  ("ErrorText", toUtf d.ErrorText),
  ("IsBackInput", DValue.num d.IsBackInput),
  ("IsDeleted", DValue.num d.IsDeleted),
  ("IsAddOne", DValue.num d.IsAddOne)]

/-- One-for-one field enumeration of `TapAPIOrderLocalTransferRsp`: each field value under a key equal to the
field name (string fields through `toUtf`). -/
def TapAPIOrderLocalTransferRsp.toDict (d : TapAPIOrderLocalTransferRsp) : TapDict :=
  [("AccountNo", toUtf d.AccountNo),
  ("ExchangeNo", toUtf d.ExchangeNo),
  ("CommodityType", DValue.num d.CommodityType),
  ("CommodityNo", toUtf d.CommodityNo),
  ("ContractNo", toUtf d.ContractNo),
  ("StrikePrice", toUtf d.StrikePrice),
  ("CallOrPutFlag", DValue.num d.CallOrPutFlag),
  ("ContractNo2", toUtf d.ContractNo2),
  ("StrikePrice2", toUtf d.StrikePrice2),
  ("CallOrPutFlag2", DValue.num d.CallOrPutFlag2),
  ("OrderType", DValue.num d.OrderType),
  ("OrderSource", DValue.num d.OrderSource),
  ("TimeInForce", DValue.num d.TimeInForce),
  ("ExpireTime", toUtf d.ExpireTime),
  ("IsRiskOrder", DValue.num d.IsRiskOrder),
  ("OrderSide", DValue.num d.OrderSide),
  ("PositionEffect", DValue.num d.PositionEffect),
  ("PositionEffect2", DValue.num d.PositionEffect2),
  ("InquiryNo", toUtf d.InquiryNo),
  ("HedgeFlag", DValue.num d.HedgeFlag),
  ("OrderPrice", DValue.num d.OrderPrice),
  ("OrderPrice2", DValue.num d.OrderPrice2),
  ("StopPrice", DValue.num d.StopPrice),
  ("OrderQty", DValue.num d.OrderQty),
  ("OrderMinQty", DValue.num d.OrderMinQty),
  ("RefInt", DValue.num d.RefInt),
  ("RefDouble", DValue.num d.RefDouble),
  ("RefString", toUtf d.RefString),
  ("MinClipSize", DValue.num d.MinClipSize),
  ("MaxClipSize", DValue.num d.MaxClipSize),
  ("LicenseNo", toUtf d.LicenseNo),
  ("ServerFlag", DValue.num d.ServerFlag),
  ("OrderNo", toUtf d.OrderNo),
  ("ClientOrderNo", toUtf d.ClientOrderNo),
  ("ClientID", toUtf d.ClientID),
  ("TacticsType", DValue.num d.TacticsType),
  ("TriggerCondition", DValue.num d.TriggerCondition),
  ("TriggerPriceType", DValue.num d.TriggerPriceType),
  ("AddOneIsValid", DValue.num d.AddOneIsValid),
  ("ClientLocalIP", toUtf d.ClientLocalIP),
  ("ClientMac", toUtf d.ClientMac),
  ("ClientIP", toUtf d.ClientIP),
  ("OrderStreamID", DValue.num d.OrderStreamID),
  ("UpperNo", toUtf d.UpperNo),
  ("UpperChannelNo", toUtf d.UpperChannelNo),
  ("OrderLocalNo", toUtf d.OrderLocalNo),
  ("UpperStreamID", DValue.num d.UpperStreamID),
  ("OrderSystemNo", toUtf d.OrderSystemNo),
  ("OrderExchangeSystemNo", toUtf d.OrderExchangeSystemNo),
  ("OrderParentSystemNo", toUtf d.OrderParentSystemNo),
  ("OrderInsertUserNo", toUtf d.OrderInsertUserNo),
  ("OrderInsertTime", toUtf d.OrderInsertTime),
  ("OrderCommandUserNo", toUtf d.OrderCommandUserNo),
  ("OrderUpdateUserNo", toUtf d.OrderUpdateUserNo),
  ("OrderUpdateTime", toUtf d.OrderUpdateTime),
  ("OrderState", DValue.num d.OrderState),
  ("OrderMatchPrice", DValue.num d.OrderMatchPrice),
  ("OrderMatchPrice2", DValue.num d.OrderMatchPrice2),
  ("OrderMatchQty", DValue.num d.OrderMatchQty),
  ("OrderMatchQty2", DValue.num d.OrderMatchQty2),
  ("ErrorCode", DValue.num d.ErrorCode),
  ("ErrorText", toUtf d.ErrorText),
  ("IsBackInput", DValue.num d.IsBackInput),
  ("IsDeleted", DValue.num d.IsDeleted),
  ("IsAddOne", DValue.num d.IsAddOne)]

/-- One-for-one field enumeration of `TapAPIFillLocalInputRsp`: each field value under a key equal to the
field name (string fields through `toUtf`). -/
def TapAPIFillLocalInputRsp.toDict (d : TapAPIFillLocalInputRsp) : TapDict :=
  [("AccountNo", toUtf d.AccountNo),
  ("ExchangeNo", toUtf d.ExchangeNo),
  ("CommodityType", DValue.num d.CommodityType),
  ("CommodityNo", toUtf d.CommodityNo),
  ("ContractNo", toUtf d.ContractNo),
  ("StrikePrice", toUtf d.StrikePrice),
  ("CallOrPutFlag", DValue.num d.CallOrPutFlag),
  ("MatchSide", DValue.num d.MatchSide),
  ("PositionEffect", DValue.num d.PositionEffect),
  ("HedgeFlag", DValue.num d.HedgeFlag),
  ("MatchPrice", DValue.num d.MatchPrice),
  ("MatchQty", DValue.num d.MatchQty),
  ("OrderSystemNo", toUtf d.OrderSystemNo),
  ("UpperMatchNo", toUtf d.UpperMatchNo),
  ("MatchDateTime", toUtf d.MatchDateTime),
  ("UpperMatchDateTime", toUtf d.UpperMatchDateTime),
  ("UpperNo", toUtf d.UpperNo),
  ("IsAddOne", DValue.num d.IsAddOne),
  ("FeeCurrencyGroup", toUtf d.FeeCurrencyGroup),
  ("FeeCurrency", toUtf d.FeeCurrency),
  ("FeeValue", DValue.num d.FeeValue),
  ("IsManualFee", DValue.num d.IsManualFee),
  ("ClosePositionPrice", DValue.num d.ClosePositionPrice)]

/-- One-for-one field enumeration of `TapAPIFillLocalRemoveRsp`: each field value under a key equal to the
field name (string fields through `toUtf`). -/
def TapAPIFillLocalRemoveRsp.toDict (d : TapAPIFillLocalRemoveRsp) : TapDict :=
  [("ServerFlag", DValue.num d.ServerFlag),
  ("MatchNo", toUtf d.MatchNo)]

/-- Sum of all vendor payload struct types that a `Task.task_data` pointer can carry. -/
inductive Payload where
  | pTapAPITradeLoginRspInfo (d : TapAPITradeLoginRspInfo)
  | pTapAPIRequestVertificateCodeRsp (d : TapAPIRequestVertificateCodeRsp)
  | pTapAPITradingCalendarQryRsp (d : TapAPITradingCalendarQryRsp)
  | pTapAPIAccountInfo (d : TapAPIAccountInfo)
  | pTapAPIFundData (d : TapAPIFundData)
  | pTapAPIExchangeInfo (d : TapAPIExchangeInfo)
  | pTapAPICommodityInfo (d : TapAPICommodityInfo)
  | pTapAPITradeContractInfo (d : TapAPITradeContractInfo)
  | pTapAPIOrderActionRsp (d : TapAPIOrderActionRsp)
  | pTapAPIOrderInfoNotice (d : TapAPIOrderInfoNotice)
  | pTapAPIOrderInfo (d : TapAPIOrderInfo)
  | pTapAPIFillInfo (d : TapAPIFillInfo)
  | pTapAPIPositionInfo (d : TapAPIPositionInfo)
  | pTapAPIPositionSummary (d : TapAPIPositionSummary)
  | pTapAPIPositionProfitNotice (d : TapAPIPositionProfitNotice)
  | pTapAPICurrencyInfo (d : TapAPICurrencyInfo)
  | pTapAPITradeMessage (d : TapAPITradeMessage)
  | pTapAPIHisOrderQryRsp (d : TapAPIHisOrderQryRsp)
  | pTapAPIHisOrderProcessQryRsp (d : TapAPIHisOrderProcessQryRsp)
  | pTapAPIHisMatchQryRsp (d : TapAPIHisMatchQryRsp)
  | pTapAPIHisPositionQryRsp (d : TapAPIHisPositionQryRsp)
  | pTapAPIHisDeliveryQryRsp (d : TapAPIHisDeliveryQryRsp)
  | pTapAPIAccountCashAdjustQryRsp (d : TapAPIAccountCashAdjustQryRsp)
  | pTapAPIBillQryRsp (d : TapAPIBillQryRsp)
  | pTapAPIAccountFeeRentQryRsp (d : TapAPIAccountFeeRentQryRsp)
  | pTapAPIAccountMarginRentQryRsp (d : TapAPIAccountMarginRentQryRsp)
  | pTapAPIOrderMarketInsertRsp (d : TapAPIOrderMarketInsertRsp)
  | pTapAPIOrderMarketDeleteRsp (d : TapAPIOrderMarketDeleteRsp)
  | pTapAPIOrderQuoteMarketNotice (d : TapAPIOrderQuoteMarketNotice)
  | pTapAPIOrderLocalRemoveRsp (d : TapAPIOrderLocalRemoveRsp)
  | pTapAPIOrderLocalInputRsp (d : TapAPIOrderLocalInputRsp)
  | pTapAPIOrderLocalModifyRsp (d : TapAPIOrderLocalModifyRsp)
  | pTapAPIOrderLocalTransferRsp (d : TapAPIOrderLocalTransferRsp)
  | pTapAPIFillLocalInputRsp (d : TapAPIFillLocalInputRsp)
  | pTapAPIFillLocalRemoveRsp (d : TapAPIFillLocalRemoveRsp)

/-- Field enumeration of whichever vendor struct the payload carries. -/
def Payload.toDict : Payload → TapDict
  | .pTapAPITradeLoginRspInfo d => d.toDict
  | .pTapAPIRequestVertificateCodeRsp d => d.toDict
  | .pTapAPITradingCalendarQryRsp d => d.toDict
  | .pTapAPIAccountInfo d => d.toDict
  | .pTapAPIFundData d => d.toDict
  | .pTapAPIExchangeInfo d => d.toDict
  | .pTapAPICommodityInfo d => d.toDict
  | .pTapAPITradeContractInfo d => d.toDict
  | .pTapAPIOrderActionRsp d => d.toDict
  | .pTapAPIOrderInfoNotice d => d.toDict
  | .pTapAPIOrderInfo d => d.toDict
  | .pTapAPIFillInfo d => d.toDict
  | .pTapAPIPositionInfo d => d.toDict
  | .pTapAPIPositionSummary d => d.toDict
  | .pTapAPIPositionProfitNotice d => d.toDict
  | .pTapAPICurrencyInfo d => d.toDict
  | .pTapAPITradeMessage d => d.toDict
  | .pTapAPIHisOrderQryRsp d => d.toDict
  | .pTapAPIHisOrderProcessQryRsp d => d.toDict
  | .pTapAPIHisMatchQryRsp d => d.toDict
  | .pTapAPIHisPositionQryRsp d => d.toDict
  | .pTapAPIHisDeliveryQryRsp d => d.toDict
  | .pTapAPIAccountCashAdjustQryRsp d => d.toDict
  | .pTapAPIBillQryRsp d => d.toDict
  | .pTapAPIAccountFeeRentQryRsp d => d.toDict
  | .pTapAPIAccountMarginRentQryRsp d => d.toDict
  | .pTapAPIOrderMarketInsertRsp d => d.toDict
  | .pTapAPIOrderMarketDeleteRsp d => d.toDict
  | .pTapAPIOrderQuoteMarketNotice d => d.toDict
  | .pTapAPIOrderLocalRemoveRsp d => d.toDict
  | .pTapAPIOrderLocalInputRsp d => d.toDict
  | .pTapAPIOrderLocalModifyRsp d => d.toDict
  | .pTapAPIOrderLocalTransferRsp d => d.toDict
  | .pTapAPIFillLocalInputRsp d => d.toDict
  | .pTapAPIFillLocalRemoveRsp d => d.toDict

/-- Tag constants for `Task.task_name`. Their numeric values live in `vntaptd.h` (not part
of the translated sources); they are modelled as 0..49 in declaration order. They must be
pairwise distinct for the C++ `switch` in `processTask` to compile, which is all the proofs use. -/
def ONCONNECT : Nat := 0
def ONRSPLOGIN : Nat := 1
def ONRTNCONTACTINFO : Nat := 2
def ONRSPREQUESTVERTIFICATECODE : Nat := 3
def ONEXPRIATIONDATE : Nat := 4
def ONAPIREADY : Nat := 5
def ONDISCONNECT : Nat := 6
def ONRSPCHANGEPASSWORD : Nat := 7
def ONRSPAUTHPASSWORD : Nat := 8
def ONRSPQRYTRADINGDATE : Nat := 9
def ONRSPSETRESERVEDINFO : Nat := 10
def ONRSPQRYACCOUNT : Nat := 11
def ONRSPQRYFUND : Nat := 12
def ONRTNFUND : Nat := 13
def ONRSPQRYEXCHANGE : Nat := 14
def ONRSPQRYCOMMODITY : Nat := 15
def ONRSPQRYCONTRACT : Nat := 16
def ONRTNCONTRACT : Nat := 17
def ONRSPORDERACTION : Nat := 18
def ONRTNORDER : Nat := 19
def ONRSPQRYORDER : Nat := 20
def ONRSPQRYORDERPROCESS : Nat := 21
def ONRSPQRYFILL : Nat := 22
def ONRTNFILL : Nat := 23
def ONRSPQRYPOSITION : Nat := 24
def ONRTNPOSITION : Nat := 25
def ONRSPQRYPOSITIONSUMMARY : Nat := 26
def ONRTNPOSITIONSUMMARY : Nat := 27
def ONRTNPOSITIONPROFIT : Nat := 28
def ONRSPQRYCURRENCY : Nat := 29
def ONRSPQRYTRADEMESSAGE : Nat := 30
def ONRTNTRADEMESSAGE : Nat := 31
def ONRSPQRYHISORDER : Nat := 32
def ONRSPQRYHISORDERPROCESS : Nat := 33
def ONRSPQRYHISMATCH : Nat := 34
def ONRSPQRYHISPOSITION : Nat := 35
def ONRSPQRYHISDELIVERY : Nat := 36
def ONRSPQRYACCOUNTCASHADJUST : Nat := 37
def ONRSPQRYBILL : Nat := 38
def ONRSPQRYACCOUNTFEERENT : Nat := 39
def ONRSPQRYACCOUNTMARGINRENT : Nat := 40
def ONRSPHKMARKETORDERINSERT : Nat := 41
def ONRSPHKMARKETORDERDELETE : Nat := 42
def ONHKMARKETQUOTENOTICE : Nat := 43
def ONRSPORDERLOCALREMOVE : Nat := 44
def ONRSPORDERLOCALINPUT : Nat := 45
def ONRSPORDERLOCALMODIFY : Nat := 46
def ONRSPORDERLOCALTRANSFER : Nat := 47
def ONRSPFILLLOCALINPUT : Nat := 48
def ONRSPFILLLOCALREMOVE : Nat := 49

/-- The generic queued task (`Task` in `vntaptd.h`): value-initialised by `Task()`, so every
field the callback does not assign keeps its zero value. -/
structure Task where
  task_name : Nat := 0
  task_id : Nat := 0
  task_int : Int := 0
  task_last : Int := 0
  task_string : String := ""
  task_data : Option Payload := none

/-- Task built and pushed by `TdApi::OnConnect`. -/
def OnConnect : Task :=
  { task_name := ONCONNECT }

/-- Task built and pushed by `TdApi::OnRspLogin`. -/
def OnRspLogin (errorCode : Int) (loginRspInfo : Option TapAPITradeLoginRspInfo) : Task :=
  { task_name := ONRSPLOGIN, task_int := errorCode, task_data := loginRspInfo.map Payload.pTapAPITradeLoginRspInfo }

/-- Task built and pushed by `TdApi::OnRtnContactInfo`. -/
def OnRtnContactInfo (errorCode : Int) (isLast : Int) (ContactInfo : String) : Task :=
  { task_name := ONRTNCONTACTINFO, task_int := errorCode, task_last := isLast, task_string := ContactInfo }

/-- Task built and pushed by `TdApi::OnRspRequestVertificateCode`. -/
def OnRspRequestVertificateCode (sessionID : Nat) (errorCode : Int) (rsp : Option TapAPIRequestVertificateCodeRsp) : Task :=
  { task_name := ONRSPREQUESTVERTIFICATECODE, task_id := sessionID, task_int := errorCode, task_data := rsp.map Payload.pTapAPIRequestVertificateCodeRsp }

/-- Task built and pushed by `TdApi::OnExpriationDate`. -/
def OnExpriationDate (date : String) (days : Int) : Task :=
  { task_name := ONEXPRIATIONDATE, task_string := date, task_int := days }

/-- Task built and pushed by `TdApi::OnAPIReady`. -/
def OnAPIReady (errorCode : Int) : Task :=
  { task_name := ONAPIREADY, task_int := errorCode }

/-- Task built and pushed by `TdApi::OnDisconnect`. -/
def OnDisconnect (reasonCode : Int) : Task :=
  { task_name := ONDISCONNECT, task_int := reasonCode }

/-- Task built and pushed by `TdApi::OnRspChangePassword`. -/
def OnRspChangePassword (sessionID : Nat) (errorCode : Int) : Task :=
  { task_name := ONRSPCHANGEPASSWORD, task_id := sessionID, task_int := errorCode }

/-- Task built and pushed by `TdApi::OnRspAuthPassword`. -/
def OnRspAuthPassword (sessionID : Nat) (errorCode : Int) : Task :=
  { task_name := ONRSPAUTHPASSWORD, task_id := sessionID, task_int := errorCode }

/-- Task built and pushed by `TdApi::OnRspQryTradingDate`. -/
def OnRspQryTradingDate (sessionID : Nat) (errorCode : Int) (info : Option TapAPITradingCalendarQryRsp) : Task :=
  { task_name := ONRSPQRYTRADINGDATE, task_id := sessionID, task_int := errorCode, task_data := info.map Payload.pTapAPITradingCalendarQryRsp }

/-- Task built and pushed by `TdApi::OnRspSetReservedInfo`. -/
def OnRspSetReservedInfo (sessionID : Nat) (errorCode : Int) (info : String) : Task :=
  { task_name := ONRSPSETRESERVEDINFO, task_id := sessionID, task_int := errorCode, task_string := info }

/-- Task built and pushed by `TdApi::OnRspQryAccount`. -/
def OnRspQryAccount (sessionID : Nat) (errorCode : Nat) (isLast : Int) (info : Option TapAPIAccountInfo) : Task :=
  -- the source assigns task_id twice (sessionID, then errorCode); the first store is dead
  { task_name := ONRSPQRYACCOUNT, task_id := errorCode, task_last := isLast, task_data := info.map Payload.pTapAPIAccountInfo }

/-- Task built and pushed by `TdApi::OnRspQryFund`. -/
def OnRspQryFund (sessionID : Nat) (errorCode : Int) (isLast : Int) (info : Option TapAPIFundData) : Task :=
  { task_name := ONRSPQRYFUND, task_id := sessionID, task_int := errorCode, task_last := isLast, task_data := info.map Payload.pTapAPIFundData }

/-- Task built and pushed by `TdApi::OnRtnFund`. -/
def OnRtnFund (info : Option TapAPIFundData) : Task :=
  { task_name := ONRTNFUND, task_data := info.map Payload.pTapAPIFundData }

/-- Task built and pushed by `TdApi::OnRspQryExchange`. -/
def OnRspQryExchange (sessionID : Nat) (errorCode : Int) (isLast : Int) (info : Option TapAPIExchangeInfo) : Task :=
  { task_name := ONRSPQRYEXCHANGE, task_id := sessionID, task_int := errorCode, task_last := isLast, task_data := info.map Payload.pTapAPIExchangeInfo }

/-- Task built and pushed by `TdApi::OnRspQryCommodity`. -/
def OnRspQryCommodity (sessionID : Nat) (errorCode : Int) (isLast : Int) (info : Option TapAPICommodityInfo) : Task :=
  { task_name := ONRSPQRYCOMMODITY, task_id := sessionID, task_int := errorCode, task_last := isLast, task_data := info.map Payload.pTapAPICommodityInfo }

/-- Task built and pushed by `TdApi::OnRspQryContract`. -/
def OnRspQryContract (sessionID : Nat) (errorCode : Int) (isLast : Int) (info : Option TapAPITradeContractInfo) : Task :=
  { task_name := ONRSPQRYCONTRACT, task_id := sessionID, task_int := errorCode, task_last := isLast, task_data := info.map Payload.pTapAPITradeContractInfo }

/-- Task built and pushed by `TdApi::OnRtnContract`. -/
def OnRtnContract (info : Option TapAPITradeContractInfo) : Task :=
  { task_name := ONRTNCONTRACT, task_data := info.map Payload.pTapAPITradeContractInfo }

/-- Task built and pushed by `TdApi::OnRspOrderAction`. -/
def OnRspOrderAction (sessionID : Nat) (errorCode : Int) (info : Option TapAPIOrderActionRsp) : Task :=
  { task_name := ONRSPORDERACTION, task_id := sessionID, task_int := errorCode, task_data := info.map Payload.pTapAPIOrderActionRsp }

/-- Task built and pushed by `TdApi::OnRtnOrder`. -/
def OnRtnOrder (info : Option TapAPIOrderInfoNotice) : Task :=
  { task_name := ONRTNORDER, task_data := info.map Payload.pTapAPIOrderInfoNotice }

/-- Task built and pushed by `TdApi::OnRspQryOrder`. -/
def OnRspQryOrder (sessionID : Nat) (errorCode : Int) (isLast : Int) (info : Option TapAPIOrderInfo) : Task :=
  { task_name := ONRSPQRYORDER, task_id := sessionID, task_int := errorCode, task_last := isLast, task_data := info.map Payload.pTapAPIOrderInfo }

/-- Task built and pushed by `TdApi::OnRspQryOrderProcess`. -/
def OnRspQryOrderProcess (sessionID : Nat) (errorCode : Int) (isLast : Int) (info : Option TapAPIOrderInfo) : Task :=
  { task_name := ONRSPQRYORDERPROCESS, task_id := sessionID, task_int := errorCode, task_last := isLast, task_data := info.map Payload.pTapAPIOrderInfo }

/-- Task built and pushed by `TdApi::OnRspQryFill`. -/
def OnRspQryFill (sessionID : Nat) (errorCode : Int) (isLast : Int) (info : Option TapAPIFillInfo) : Task :=
  { task_name := ONRSPQRYFILL, task_id := sessionID, task_int := errorCode, task_last := isLast, task_data := info.map Payload.pTapAPIFillInfo }

/-- Task built and pushed by `TdApi::OnRtnFill`. -/
def OnRtnFill (info : Option TapAPIFillInfo) : Task :=
  { task_name := ONRTNFILL, task_data := info.map Payload.pTapAPIFillInfo }

/-- Task built and pushed by `TdApi::OnRspQryPosition`. -/
def OnRspQryPosition (sessionID : Nat) (errorCode : Int) (isLast : Int) (info : Option TapAPIPositionInfo) : Task :=
  { task_name := ONRSPQRYPOSITION, task_id := sessionID, task_int := errorCode, task_last := isLast, task_data := info.map Payload.pTapAPIPositionInfo }

/-- Task built and pushed by `TdApi::OnRtnPosition`. -/
def OnRtnPosition (info : Option TapAPIPositionInfo) : Task :=
  { task_name := ONRTNPOSITION, task_data := info.map Payload.pTapAPIPositionInfo }

/-- Task built and pushed by `TdApi::OnRspQryPositionSummary`. -/
def OnRspQryPositionSummary (sessionID : Nat) (errorCode : Int) (isLast : Int) (info : Option TapAPIPositionSummary) : Task :=
  { task_name := ONRSPQRYPOSITIONSUMMARY, task_id := sessionID, task_int := errorCode, task_last := isLast, task_data := info.map Payload.pTapAPIPositionSummary }

/-- Task built and pushed by `TdApi::OnRtnPositionSummary`. -/
def OnRtnPositionSummary (info : Option TapAPIPositionSummary) : Task :=
  { task_name := ONRTNPOSITIONSUMMARY, task_data := info.map Payload.pTapAPIPositionSummary }

/-- Task built and pushed by `TdApi::OnRtnPositionProfit`. -/
def OnRtnPositionProfit (info : Option TapAPIPositionProfitNotice) : Task :=
  { task_name := ONRTNPOSITIONPROFIT, task_data := info.map Payload.pTapAPIPositionProfitNotice }

/-- Task built and pushed by `TdApi::OnRspQryCurrency`. -/
def OnRspQryCurrency (sessionID : Nat) (errorCode : Int) (isLast : Int) (info : Option TapAPICurrencyInfo) : Task :=
  { task_name := ONRSPQRYCURRENCY, task_id := sessionID, task_int := errorCode, task_last := isLast, task_data := info.map Payload.pTapAPICurrencyInfo }

/-- Task built and pushed by `TdApi::OnRspQryTradeMessage`. -/
def OnRspQryTradeMessage (sessionID : Nat) (errorCode : Int) (isLast : Int) (info : Option TapAPITradeMessage) : Task :=
  { task_name := ONRSPQRYTRADEMESSAGE, task_id := sessionID, task_int := errorCode, task_last := isLast, task_data := info.map Payload.pTapAPITradeMessage }

/-- Task built and pushed by `TdApi::OnRtnTradeMessage`. -/
def OnRtnTradeMessage (info : Option TapAPITradeMessage) : Task :=
  { task_name := ONRTNTRADEMESSAGE, task_data := info.map Payload.pTapAPITradeMessage }

/-- Task built and pushed by `TdApi::OnRspQryHisOrder`. -/
def OnRspQryHisOrder (sessionID : Nat) (errorCode : Int) (isLast : Int) (info : Option TapAPIHisOrderQryRsp) : Task :=
  { task_name := ONRSPQRYHISORDER, task_id := sessionID, task_int := errorCode, task_last := isLast, task_data := info.map Payload.pTapAPIHisOrderQryRsp }

/-- Task built and pushed by `TdApi::OnRspQryHisOrderProcess`. -/
def OnRspQryHisOrderProcess (sessionID : Nat) (errorCode : Int) (isLast : Int) (info : Option TapAPIHisOrderProcessQryRsp) : Task :=
  { task_name := ONRSPQRYHISORDERPROCESS, task_id := sessionID, task_int := errorCode, task_last := isLast, task_data := info.map Payload.pTapAPIHisOrderProcessQryRsp }

/-- Task built and pushed by `TdApi::OnRspQryHisMatch`. -/
def OnRspQryHisMatch (sessionID : Nat) (errorCode : Int) (isLast : Int) (info : Option TapAPIHisMatchQryRsp) : Task :=
  { task_name := ONRSPQRYHISMATCH, task_id := sessionID, task_int := errorCode, task_last := isLast, task_data := info.map Payload.pTapAPIHisMatchQryRsp }

/-- Task built and pushed by `TdApi::OnRspQryHisPosition`. -/
def OnRspQryHisPosition (sessionID : Nat) (errorCode : Int) (isLast : Int) (info : Option TapAPIHisPositionQryRsp) : Task :=
  { task_name := ONRSPQRYHISPOSITION, task_id := sessionID, task_int := errorCode, task_last := isLast, task_data := info.map Payload.pTapAPIHisPositionQryRsp }

/-- Task built and pushed by `TdApi::OnRspQryHisDelivery`. -/
def OnRspQryHisDelivery (sessionID : Nat) (errorCode : Int) (isLast : Int) (info : Option TapAPIHisDeliveryQryRsp) : Task :=
  { task_name := ONRSPQRYHISDELIVERY, task_id := sessionID, task_int := errorCode, task_last := isLast, task_data := info.map Payload.pTapAPIHisDeliveryQryRsp }

/-- Task built and pushed by `TdApi::OnRspQryAccountCashAdjust`. -/
def OnRspQryAccountCashAdjust (sessionID : Nat) (errorCode : Int) (isLast : Int) (info : Option TapAPIAccountCashAdjustQryRsp) : Task :=
  { task_name := ONRSPQRYACCOUNTCASHADJUST, task_id := sessionID, task_int := errorCode, task_last := isLast, task_data := info.map Payload.pTapAPIAccountCashAdjustQryRsp }

/-- Task built and pushed by `TdApi::OnRspQryBill`. -/
def OnRspQryBill (sessionID : Nat) (errorCode : Int) (isLast : Int) (info : Option TapAPIBillQryRsp) : Task :=
  { task_name := ONRSPQRYBILL, task_id := sessionID, task_int := errorCode, task_last := isLast, task_data := info.map Payload.pTapAPIBillQryRsp }

/-- Task built and pushed by `TdApi::OnRspQryAccountFeeRent`. -/
def OnRspQryAccountFeeRent (sessionID : Nat) (errorCode : Int) (isLast : Int) (info : Option TapAPIAccountFeeRentQryRsp) : Task :=
  { task_name := ONRSPQRYACCOUNTFEERENT, task_id := sessionID, task_int := errorCode, task_last := isLast, task_data := info.map Payload.pTapAPIAccountFeeRentQryRsp }

/-- Task built and pushed by `TdApi::OnRspQryAccountMarginRent`. -/
def OnRspQryAccountMarginRent (sessionID : Nat) (errorCode : Int) (isLast : Int) (info : Option TapAPIAccountMarginRentQryRsp) : Task :=
  { task_name := ONRSPQRYACCOUNTMARGINRENT, task_id := sessionID, task_int := errorCode, task_last := isLast, task_data := info.map Payload.pTapAPIAccountMarginRentQryRsp }

/-- Task built and pushed by `TdApi::OnRspHKMarketOrderInsert`. -/
def OnRspHKMarketOrderInsert (sessionID : Nat) (errorCode : Int) (info : Option TapAPIOrderMarketInsertRsp) : Task :=
  { task_name := ONRSPHKMARKETORDERINSERT, task_id := sessionID, task_int := errorCode, task_data := info.map Payload.pTapAPIOrderMarketInsertRsp }

/-- Task built and pushed by `TdApi::OnRspHKMarketOrderDelete`. -/
def OnRspHKMarketOrderDelete (sessionID : Nat) (errorCode : Int) (info : Option TapAPIOrderMarketDeleteRsp) : Task :=
  { task_name := ONRSPHKMARKETORDERDELETE, task_id := sessionID, task_int := errorCode, task_data := info.map Payload.pTapAPIOrderMarketDeleteRsp }

/-- Task built and pushed by `TdApi::OnHKMarketQuoteNotice`. -/
def OnHKMarketQuoteNotice (info : Option TapAPIOrderQuoteMarketNotice) : Task :=
  { task_name := ONHKMARKETQUOTENOTICE, task_data := info.map Payload.pTapAPIOrderQuoteMarketNotice }

/-- Task built and pushed by `TdApi::OnRspOrderLocalRemove`. -/
def OnRspOrderLocalRemove (sessionID : Nat) (errorCode : Int) (info : Option TapAPIOrderLocalRemoveRsp) : Task :=
  { task_name := ONRSPORDERLOCALREMOVE, task_id := sessionID, task_int := errorCode, task_data := info.map Payload.pTapAPIOrderLocalRemoveRsp }

/-- Task built and pushed by `TdApi::OnRspOrderLocalInput`. -/
def OnRspOrderLocalInput (sessionID : Nat) (errorCode : Int) (info : Option TapAPIOrderLocalInputRsp) : Task :=
  { task_name := ONRSPORDERLOCALINPUT, task_id := sessionID, task_int := errorCode, task_data := info.map Payload.pTapAPIOrderLocalInputRsp }

/-- Task built and pushed by `TdApi::OnRspOrderLocalModify`. -/
def OnRspOrderLocalModify (sessionID : Nat) (errorCode : Int) (info : Option TapAPIOrderLocalModifyRsp) : Task :=
  { task_name := ONRSPORDERLOCALMODIFY, task_id := sessionID, task_int := errorCode, task_data := info.map Payload.pTapAPIOrderLocalModifyRsp }

/-- Task built and pushed by `TdApi::OnRspOrderLocalTransfer`. -/
def OnRspOrderLocalTransfer (sessionID : Nat) (errorCode : Int) (info : Option TapAPIOrderLocalTransferRsp) : Task :=
  { task_name := ONRSPORDERLOCALTRANSFER, task_id := sessionID, task_int := errorCode, task_data := info.map Payload.pTapAPIOrderLocalTransferRsp }

/-- Task built and pushed by `TdApi::OnRspFillLocalInput`. -/
def OnRspFillLocalInput (sessionID : Nat) (errorCode : Int) (info : Option TapAPIFillLocalInputRsp) : Task :=
  { task_name := ONRSPFILLLOCALINPUT, task_id := sessionID, task_int := errorCode, task_data := info.map Payload.pTapAPIFillLocalInputRsp }

/-- Task built and pushed by `TdApi::OnRspFillLocalRemove`. -/
def OnRspFillLocalRemove (sessionID : Nat) (errorCode : Int) (info : Option TapAPIFillLocalRemoveRsp) : Task :=
  { task_name := ONRSPFILLLOCALREMOVE, task_id := sessionID, task_int := errorCode, task_data := info.map Payload.pTapAPIFillLocalRemoveRsp }

/-- One SDK callback invocation together with its arguments. -/
inductive CbEvent where
  | OnConnect
  | OnRspLogin (errorCode : Int) (loginRspInfo : Option TapAPITradeLoginRspInfo)
  | OnRtnContactInfo (errorCode : Int) (isLast : Int) (ContactInfo : String)
  | OnRspRequestVertificateCode (sessionID : Nat) (errorCode : Int) (rsp : Option TapAPIRequestVertificateCodeRsp)
  | OnExpriationDate (date : String) (days : Int)
  | OnAPIReady (errorCode : Int)
  | OnDisconnect (reasonCode : Int)
  | OnRspChangePassword (sessionID : Nat) (errorCode : Int)
  | OnRspAuthPassword (sessionID : Nat) (errorCode : Int)
  | OnRspQryTradingDate (sessionID : Nat) (errorCode : Int) (info : Option TapAPITradingCalendarQryRsp)
  | OnRspSetReservedInfo (sessionID : Nat) (errorCode : Int) (info : String)
  | OnRspQryAccount (sessionID : Nat) (errorCode : Nat) (isLast : Int) (info : Option TapAPIAccountInfo)
  | OnRspQryFund (sessionID : Nat) (errorCode : Int) (isLast : Int) (info : Option TapAPIFundData)
  | OnRtnFund (info : Option TapAPIFundData)
  | OnRspQryExchange (sessionID : Nat) (errorCode : Int) (isLast : Int) (info : Option TapAPIExchangeInfo)
  | OnRspQryCommodity (sessionID : Nat) (errorCode : Int) (isLast : Int) (info : Option TapAPICommodityInfo)
  | OnRspQryContract (sessionID : Nat) (errorCode : Int) (isLast : Int) (info : Option TapAPITradeContractInfo)
  | OnRtnContract (info : Option TapAPITradeContractInfo)
  | OnRspOrderAction (sessionID : Nat) (errorCode : Int) (info : Option TapAPIOrderActionRsp)
  | OnRtnOrder (info : Option TapAPIOrderInfoNotice)
  | OnRspQryOrder (sessionID : Nat) (errorCode : Int) (isLast : Int) (info : Option TapAPIOrderInfo)
  | OnRspQryOrderProcess (sessionID : Nat) (errorCode : Int) (isLast : Int) (info : Option TapAPIOrderInfo)
  | OnRspQryFill (sessionID : Nat) (errorCode : Int) (isLast : Int) (info : Option TapAPIFillInfo)
  | OnRtnFill (info : Option TapAPIFillInfo)
  | OnRspQryPosition (sessionID : Nat) (errorCode : Int) (isLast : Int) (info : Option TapAPIPositionInfo)
  | OnRtnPosition (info : Option TapAPIPositionInfo)
  | OnRspQryPositionSummary (sessionID : Nat) (errorCode : Int) (isLast : Int) (info : Option TapAPIPositionSummary)
  | OnRtnPositionSummary (info : Option TapAPIPositionSummary)
  | OnRtnPositionProfit (info : Option TapAPIPositionProfitNotice)
  | OnRspQryCurrency (sessionID : Nat) (errorCode : Int) (isLast : Int) (info : Option TapAPICurrencyInfo)
  | OnRspQryTradeMessage (sessionID : Nat) (errorCode : Int) (isLast : Int) (info : Option TapAPITradeMessage)
  | OnRtnTradeMessage (info : Option TapAPITradeMessage)
  | OnRspQryHisOrder (sessionID : Nat) (errorCode : Int) (isLast : Int) (info : Option TapAPIHisOrderQryRsp)
  | OnRspQryHisOrderProcess (sessionID : Nat) (errorCode : Int) (isLast : Int) (info : Option TapAPIHisOrderProcessQryRsp)
  | OnRspQryHisMatch (sessionID : Nat) (errorCode : Int) (isLast : Int) (info : Option TapAPIHisMatchQryRsp)
  | OnRspQryHisPosition (sessionID : Nat) (errorCode : Int) (isLast : Int) (info : Option TapAPIHisPositionQryRsp)
  | OnRspQryHisDelivery (sessionID : Nat) (errorCode : Int) (isLast : Int) (info : Option TapAPIHisDeliveryQryRsp)
  | OnRspQryAccountCashAdjust (sessionID : Nat) (errorCode : Int) (isLast : Int) (info : Option TapAPIAccountCashAdjustQryRsp)
  | OnRspQryBill (sessionID : Nat) (errorCode : Int) (isLast : Int) (info : Option TapAPIBillQryRsp)
  | OnRspQryAccountFeeRent (sessionID : Nat) (errorCode : Int) (isLast : Int) (info : Option TapAPIAccountFeeRentQryRsp)
  | OnRspQryAccountMarginRent (sessionID : Nat) (errorCode : Int) (isLast : Int) (info : Option TapAPIAccountMarginRentQryRsp)
  | OnRspHKMarketOrderInsert (sessionID : Nat) (errorCode : Int) (info : Option TapAPIOrderMarketInsertRsp)
  | OnRspHKMarketOrderDelete (sessionID : Nat) (errorCode : Int) (info : Option TapAPIOrderMarketDeleteRsp)
  | OnHKMarketQuoteNotice (info : Option TapAPIOrderQuoteMarketNotice)
  | OnRspOrderLocalRemove (sessionID : Nat) (errorCode : Int) (info : Option TapAPIOrderLocalRemoveRsp)
  | OnRspOrderLocalInput (sessionID : Nat) (errorCode : Int) (info : Option TapAPIOrderLocalInputRsp)
  | OnRspOrderLocalModify (sessionID : Nat) (errorCode : Int) (info : Option TapAPIOrderLocalModifyRsp)
  | OnRspOrderLocalTransfer (sessionID : Nat) (errorCode : Int) (info : Option TapAPIOrderLocalTransferRsp)
  | OnRspFillLocalInput (sessionID : Nat) (errorCode : Int) (info : Option TapAPIFillLocalInputRsp)
  | OnRspFillLocalRemove (sessionID : Nat) (errorCode : Int) (info : Option TapAPIFillLocalRemoveRsp)

/-- The task pushed by a callback invocation. -/
def buildTask : CbEvent → Task
  | .OnConnect => OnConnect
  | .OnRspLogin errorCode loginRspInfo => OnRspLogin errorCode loginRspInfo
  | .OnRtnContactInfo errorCode isLast ContactInfo => OnRtnContactInfo errorCode isLast ContactInfo
  | .OnRspRequestVertificateCode sessionID errorCode rsp => OnRspRequestVertificateCode sessionID errorCode rsp
  | .OnExpriationDate date days => OnExpriationDate date days
  | .OnAPIReady errorCode => OnAPIReady errorCode
  | .OnDisconnect reasonCode => OnDisconnect reasonCode
  | .OnRspChangePassword sessionID errorCode => OnRspChangePassword sessionID errorCode
  | .OnRspAuthPassword sessionID errorCode => OnRspAuthPassword sessionID errorCode
  | .OnRspQryTradingDate sessionID errorCode info => OnRspQryTradingDate sessionID errorCode info
  | .OnRspSetReservedInfo sessionID errorCode info => OnRspSetReservedInfo sessionID errorCode info
  | .OnRspQryAccount sessionID errorCode isLast info => OnRspQryAccount sessionID errorCode isLast info
  | .OnRspQryFund sessionID errorCode isLast info => OnRspQryFund sessionID errorCode isLast info
  | .OnRtnFund info => OnRtnFund info
  | .OnRspQryExchange sessionID errorCode isLast info => OnRspQryExchange sessionID errorCode isLast info
  | .OnRspQryCommodity sessionID errorCode isLast info => OnRspQryCommodity sessionID errorCode isLast info
  | .OnRspQryContract sessionID errorCode isLast info => OnRspQryContract sessionID errorCode isLast info
  | .OnRtnContract info => OnRtnContract info
  | .OnRspOrderAction sessionID errorCode info => OnRspOrderAction sessionID errorCode info
  | .OnRtnOrder info => OnRtnOrder info
  | .OnRspQryOrder sessionID errorCode isLast info => OnRspQryOrder sessionID errorCode isLast info
  | .OnRspQryOrderProcess sessionID errorCode isLast info => OnRspQryOrderProcess sessionID errorCode isLast info
  | .OnRspQryFill sessionID errorCode isLast info => OnRspQryFill sessionID errorCode isLast info
  | .OnRtnFill info => OnRtnFill info
  | .OnRspQryPosition sessionID errorCode isLast info => OnRspQryPosition sessionID errorCode isLast info
  | .OnRtnPosition info => OnRtnPosition info
  | .OnRspQryPositionSummary sessionID errorCode isLast info => OnRspQryPositionSummary sessionID errorCode isLast info
  | .OnRtnPositionSummary info => OnRtnPositionSummary info
  | .OnRtnPositionProfit info => OnRtnPositionProfit info
  | .OnRspQryCurrency sessionID errorCode isLast info => OnRspQryCurrency sessionID errorCode isLast info
  | .OnRspQryTradeMessage sessionID errorCode isLast info => OnRspQryTradeMessage sessionID errorCode isLast info
  | .OnRtnTradeMessage info => OnRtnTradeMessage info
  | .OnRspQryHisOrder sessionID errorCode isLast info => OnRspQryHisOrder sessionID errorCode isLast info
  | .OnRspQryHisOrderProcess sessionID errorCode isLast info => OnRspQryHisOrderProcess sessionID errorCode isLast info
  | .OnRspQryHisMatch sessionID errorCode isLast info => OnRspQryHisMatch sessionID errorCode isLast info
  | .OnRspQryHisPosition sessionID errorCode isLast info => OnRspQryHisPosition sessionID errorCode isLast info
  | .OnRspQryHisDelivery sessionID errorCode isLast info => OnRspQryHisDelivery sessionID errorCode isLast info
  | .OnRspQryAccountCashAdjust sessionID errorCode isLast info => OnRspQryAccountCashAdjust sessionID errorCode isLast info
  | .OnRspQryBill sessionID errorCode isLast info => OnRspQryBill sessionID errorCode isLast info
  | .OnRspQryAccountFeeRent sessionID errorCode isLast info => OnRspQryAccountFeeRent sessionID errorCode isLast info
  | .OnRspQryAccountMarginRent sessionID errorCode isLast info => OnRspQryAccountMarginRent sessionID errorCode isLast info
  | .OnRspHKMarketOrderInsert sessionID errorCode info => OnRspHKMarketOrderInsert sessionID errorCode info
  | .OnRspHKMarketOrderDelete sessionID errorCode info => OnRspHKMarketOrderDelete sessionID errorCode info
  | .OnHKMarketQuoteNotice info => OnHKMarketQuoteNotice info
  | .OnRspOrderLocalRemove sessionID errorCode info => OnRspOrderLocalRemove sessionID errorCode info
  | .OnRspOrderLocalInput sessionID errorCode info => OnRspOrderLocalInput sessionID errorCode info
  | .OnRspOrderLocalModify sessionID errorCode info => OnRspOrderLocalModify sessionID errorCode info
  | .OnRspOrderLocalTransfer sessionID errorCode info => OnRspOrderLocalTransfer sessionID errorCode info
  | .OnRspFillLocalInput sessionID errorCode info => OnRspFillLocalInput sessionID errorCode info
  | .OnRspFillLocalRemove sessionID errorCode info => OnRspFillLocalRemove sessionID errorCode info

/-- Constructor index: which of the 50 callbacks an event is. -/
def cbIndex : CbEvent → Nat
  | .OnConnect => 0
  | .OnRspLogin _ _ => 1
  | .OnRtnContactInfo _ _ _ => 2
  | .OnRspRequestVertificateCode _ _ _ => 3
  | .OnExpriationDate _ _ => 4
  | .OnAPIReady _ => 5
  | .OnDisconnect _ => 6
  | .OnRspChangePassword _ _ => 7
  | .OnRspAuthPassword _ _ => 8
  | .OnRspQryTradingDate _ _ _ => 9
  | .OnRspSetReservedInfo _ _ _ => 10
  | .OnRspQryAccount _ _ _ _ => 11
  | .OnRspQryFund _ _ _ _ => 12
  | .OnRtnFund _ => 13
  | .OnRspQryExchange _ _ _ _ => 14
  | .OnRspQryCommodity _ _ _ _ => 15
  | .OnRspQryContract _ _ _ _ => 16
  | .OnRtnContract _ => 17
  | .OnRspOrderAction _ _ _ => 18
  | .OnRtnOrder _ => 19
  | .OnRspQryOrder _ _ _ _ => 20
  | .OnRspQryOrderProcess _ _ _ _ => 21
  | .OnRspQryFill _ _ _ _ => 22
  | .OnRtnFill _ => 23
  | .OnRspQryPosition _ _ _ _ => 24
  | .OnRtnPosition _ => 25
  | .OnRspQryPositionSummary _ _ _ _ => 26
  | .OnRtnPositionSummary _ => 27
  | .OnRtnPositionProfit _ => 28
  | .OnRspQryCurrency _ _ _ _ => 29
  | .OnRspQryTradeMessage _ _ _ _ => 30
  | .OnRtnTradeMessage _ => 31
  | .OnRspQryHisOrder _ _ _ _ => 32
  | .OnRspQryHisOrderProcess _ _ _ _ => 33
  | .OnRspQryHisMatch _ _ _ _ => 34
  | .OnRspQryHisPosition _ _ _ _ => 35
  | .OnRspQryHisDelivery _ _ _ _ => 36
  | .OnRspQryAccountCashAdjust _ _ _ _ => 37
  | .OnRspQryBill _ _ _ _ => 38
  | .OnRspQryAccountFeeRent _ _ _ _ => 39
  | .OnRspQryAccountMarginRent _ _ _ _ => 40
  | .OnRspHKMarketOrderInsert _ _ _ => 41
  | .OnRspHKMarketOrderDelete _ _ _ => 42
  | .OnHKMarketQuoteNotice _ => 43
  | .OnRspOrderLocalRemove _ _ _ => 44
  | .OnRspOrderLocalInput _ _ _ => 45
  | .OnRspOrderLocalModify _ _ _ => 46
  | .OnRspOrderLocalTransfer _ _ _ => 47
  | .OnRspFillLocalInput _ _ _ => 48
  | .OnRspFillLocalRemove _ _ _ => 49

/-- One user-handler invocation with the argument values it receives. -/
inductive Hcall where
  | onConnect
  | onRspLogin (a0 : Int) (a1 : TapDict)
  | onRtnContactInfo (a0 : Int) (a1 : Int) (a2 : String)
  | onRspRequestVertificateCode (a0 : Nat) (a1 : Int) (a2 : TapDict)
  | onExpriationDate (a0 : String) (a1 : Int)
  | onAPIReady (a0 : Int)
  | onDisconnect (a0 : Int)
  | onRspChangePassword (a0 : Nat) (a1 : Int)
  | onRspAuthPassword (a0 : Nat) (a1 : Int)
  | onRspQryTradingDate (a0 : Nat) (a1 : Int) (a2 : TapDict)
  | onRspSetReservedInfo (a0 : Nat) (a1 : Int) (a2 : String)
  | onRspQryAccount (a0 : Nat) (a1 : Nat) (a2 : Int) (a3 : TapDict)
  | onRspQryFund (a0 : Nat) (a1 : Int) (a2 : Int) (a3 : TapDict)
  | onRtnFund (a0 : TapDict)
  | onRspQryExchange (a0 : Nat) (a1 : Int) (a2 : Int) (a3 : TapDict)
  | onRspQryCommodity (a0 : Nat) (a1 : Int) (a2 : Int) (a3 : TapDict)
  | onRspQryContract (a0 : Nat) (a1 : Int) (a2 : Int) (a3 : TapDict)
  | onRtnContract (a0 : TapDict)
  | onRspOrderAction (a0 : Nat) (a1 : Int) (a2 : TapDict)
  | onRtnOrder (a0 : TapDict)
  | onRspQryOrder (a0 : Nat) (a1 : Int) (a2 : Int) (a3 : TapDict)
  | onRspQryOrderProcess (a0 : Nat) (a1 : Int) (a2 : Int) (a3 : TapDict)
  | onRspQryFill (a0 : Nat) (a1 : Int) (a2 : Int) (a3 : TapDict)
  | onRtnFill (a0 : TapDict)
  | onRspQryPosition (a0 : Nat) (a1 : Int) (a2 : Int) (a3 : TapDict)
  | onRtnPosition (a0 : TapDict)
  | onRspQryPositionSummary (a0 : Nat) (a1 : Int) (a2 : Int) (a3 : TapDict)
  | onRtnPositionSummary (a0 : TapDict)
  | onRtnPositionProfit (a0 : TapDict)
  | onRspQryCurrency (a0 : Nat) (a1 : Int) (a2 : Int) (a3 : TapDict)
  | onRspQryTradeMessage (a0 : Nat) (a1 : Int) (a2 : Int) (a3 : TapDict)
  | onRtnTradeMessage (a0 : TapDict)
  | onRspQryHisOrder (a0 : Nat) (a1 : Int) (a2 : Int) (a3 : TapDict)
  | onRspQryHisOrderProcess (a0 : Nat) (a1 : Int) (a2 : Int) (a3 : TapDict)
  | onRspQryHisMatch (a0 : Nat) (a1 : Int) (a2 : Int) (a3 : TapDict)
  | onRspQryHisPosition (a0 : Nat) (a1 : Int) (a2 : Int) (a3 : TapDict)
  | onRspQryHisDelivery (a0 : Nat) (a1 : Int) (a2 : Int) (a3 : TapDict)
  | onRspQryAccountCashAdjust (a0 : Nat) (a1 : Int) (a2 : Int) (a3 : TapDict)
  | onRspQryBill (a0 : Nat) (a1 : Int) (a2 : Int) (a3 : TapDict)
  | onRspQryAccountFeeRent (a0 : Nat) (a1 : Int) (a2 : Int) (a3 : TapDict)
  | onRspQryAccountMarginRent (a0 : Nat) (a1 : Int) (a2 : Int) (a3 : TapDict)
  | onRspHKMarketOrderInsert (a0 : Nat) (a1 : Int) (a2 : TapDict)
  | onRspHKMarketOrderDelete (a0 : Nat) (a1 : Int) (a2 : TapDict)
  | onHKMarketQuoteNotice (a0 : TapDict)
  | onRspOrderLocalRemove (a0 : Nat) (a1 : Int) (a2 : TapDict)
  | onRspOrderLocalInput (a0 : Nat) (a1 : Int) (a2 : TapDict)
  | onRspOrderLocalModify (a0 : Nat) (a1 : Int) (a2 : TapDict)
  | onRspOrderLocalTransfer (a0 : Nat) (a1 : Int) (a2 : TapDict)
  | onRspFillLocalInput (a0 : Nat) (a1 : Int) (a2 : TapDict)
  | onRspFillLocalRemove (a0 : Nat) (a1 : Int) (a2 : TapDict)

/-- Constructor index of a handler invocation (same numbering as the tags). -/
def hname : Hcall → Nat
  | .onConnect => 0
  | .onRspLogin _ _ => 1
  | .onRtnContactInfo _ _ _ => 2
  | .onRspRequestVertificateCode _ _ _ => 3
  | .onExpriationDate _ _ => 4
  | .onAPIReady _ => 5
  | .onDisconnect _ => 6
  | .onRspChangePassword _ _ => 7
  | .onRspAuthPassword _ _ => 8
  | .onRspQryTradingDate _ _ _ => 9
  | .onRspSetReservedInfo _ _ _ => 10
  | .onRspQryAccount _ _ _ _ => 11
  | .onRspQryFund _ _ _ _ => 12
  | .onRtnFund _ => 13
  | .onRspQryExchange _ _ _ _ => 14
  | .onRspQryCommodity _ _ _ _ => 15
  | .onRspQryContract _ _ _ _ => 16
  | .onRtnContract _ => 17
  | .onRspOrderAction _ _ _ => 18
  | .onRtnOrder _ => 19
  | .onRspQryOrder _ _ _ _ => 20
  | .onRspQryOrderProcess _ _ _ _ => 21
  | .onRspQryFill _ _ _ _ => 22
  | .onRtnFill _ => 23
  | .onRspQryPosition _ _ _ _ => 24
  | .onRtnPosition _ => 25
  | .onRspQryPositionSummary _ _ _ _ => 26
  | .onRtnPositionSummary _ => 27
  | .onRtnPositionProfit _ => 28
  | .onRspQryCurrency _ _ _ _ => 29
  | .onRspQryTradeMessage _ _ _ _ => 30
  | .onRtnTradeMessage _ => 31
  | .onRspQryHisOrder _ _ _ _ => 32
  | .onRspQryHisOrderProcess _ _ _ _ => 33
  | .onRspQryHisMatch _ _ _ _ => 34
  | .onRspQryHisPosition _ _ _ _ => 35
  | .onRspQryHisDelivery _ _ _ _ => 36
  | .onRspQryAccountCashAdjust _ _ _ _ => 37
  | .onRspQryBill _ _ _ _ => 38
  | .onRspQryAccountFeeRent _ _ _ _ => 39
  | .onRspQryAccountMarginRent _ _ _ _ => 40
  | .onRspHKMarketOrderInsert _ _ _ => 41
  | .onRspHKMarketOrderDelete _ _ _ => 42
  | .onHKMarketQuoteNotice _ => 43
  | .onRspOrderLocalRemove _ _ _ => 44
  | .onRspOrderLocalInput _ _ _ => 45
  | .onRspOrderLocalModify _ _ _ => 46
  | .onRspOrderLocalTransfer _ _ _ => 47
  | .onRspFillLocalInput _ _ _ => 48
  | .onRspFillLocalRemove _ _ _ => 49

/-- Process function `TdApi::processConnect`: rebuilds the data dict and invokes the user handler. -/
def processConnect (task : Task) : Hcall :=
  Hcall.onConnect

/-- Process function `TdApi::processRspLogin`: rebuilds the data dict and invokes the user handler. -/
def processRspLogin (task : Task) : Hcall :=
  let data : TapDict :=
    match task.task_data with
    | some (Payload.pTapAPITradeLoginRspInfo d) =>
      [("UserNo", toUtf d.UserNo),
      ("UserType", DValue.num d.UserType),
      ("UserName", toUtf d.UserName),
      ("ReservedInfo", toUtf d.ReservedInfo),
      ("LastLoginIP", toUtf d.LastLoginIP),
      ("LastLoginProt", DValue.num d.LastLoginProt),
      ("LastLoginTime", toUtf d.LastLoginTime),
      ("LastLogoutTime", toUtf d.LastLogoutTime),
      ("TradeDate", toUtf d.TradeDate),
      ("LastSettleTime", toUtf d.LastSettleTime),
      ("StartTime", toUtf d.StartTime),
      ("InitTime", toUtf d.InitTime)]
    | _ => []
  Hcall.onRspLogin task.task_int data

/-- Process function `TdApi::processRtnContactInfo`: rebuilds the data dict and invokes the user handler. -/
def processRtnContactInfo (task : Task) : Hcall :=
  Hcall.onRtnContactInfo task.task_int task.task_last task.task_string

/-- Process function `TdApi::processRspRequestVertificateCode`: rebuilds the data dict and invokes the user handler. -/
def processRspRequestVertificateCode (task : Task) : Hcall :=
  let data : TapDict :=
    match task.task_data with
    | some (Payload.pTapAPIRequestVertificateCodeRsp d) =>
      [("SecondSerialID", toUtf d.SecondSerialID),
      ("Effective", DValue.num d.Effective)]
    | _ => []
  Hcall.onRspRequestVertificateCode task.task_id task.task_int data

/-- Process function `TdApi::processExpriationDate`: rebuilds the data dict and invokes the user handler. -/
def processExpriationDate (task : Task) : Hcall :=
  Hcall.onExpriationDate task.task_string task.task_int

/-- Process function `TdApi::processAPIReady`: rebuilds the data dict and invokes the user handler. -/
def processAPIReady (task : Task) : Hcall :=
  Hcall.onAPIReady task.task_int

/-- Process function `TdApi::processDisconnect`: rebuilds the data dict and invokes the user handler. -/
def processDisconnect (task : Task) : Hcall :=
  Hcall.onDisconnect task.task_int

/-- Process function `TdApi::processRspChangePassword`: rebuilds the data dict and invokes the user handler. -/
def processRspChangePassword (task : Task) : Hcall :=
  Hcall.onRspChangePassword task.task_id task.task_int

/-- Process function `TdApi::processRspAuthPassword`: rebuilds the data dict and invokes the user handler. -/
def processRspAuthPassword (task : Task) : Hcall :=
  Hcall.onRspAuthPassword task.task_id task.task_int

/-- Process function `TdApi::processRspQryTradingDate`: rebuilds the data dict and invokes the user handler. -/
def processRspQryTradingDate (task : Task) : Hcall :=
  let data : TapDict :=
    match task.task_data with
    | some (Payload.pTapAPITradingCalendarQryRsp d) =>
      [("CurrTradeDate", toUtf d.CurrTradeDate),
      ("LastSettlementDate", toUtf d.LastSettlementDate),
      ("PromptDate", toUtf d.PromptDate),
      ("LastPromptDate", toUtf d.LastPromptDate)]
    | _ => []
  Hcall.onRspQryTradingDate task.task_id task.task_int data

/-- Process function `TdApi::processRspSetReservedInfo`: rebuilds the data dict and invokes the user handler. -/
def processRspSetReservedInfo (task : Task) : Hcall :=
  Hcall.onRspSetReservedInfo task.task_id task.task_int task.task_string

/-- Process function `TdApi::processRspQryAccount`: rebuilds the data dict and invokes the user handler. -/
def processRspQryAccount (task : Task) : Hcall :=
  let data : TapDict :=
    match task.task_data with
    | some (Payload.pTapAPIAccountInfo d) =>
      [("AccountNo", toUtf d.AccountNo),
      ("AccountType", DValue.num d.AccountType),
      ("AccountState", DValue.num d.AccountState),
      ("AccountTradeRight", DValue.num d.AccountTradeRight),
      ("CommodityGroupNo", toUtf d.CommodityGroupNo),
      ("AccountShortName", toUtf d.AccountShortName),
      ("AccountEnShortName", toUtf d.AccountEnShortName)]
    | _ => []
  Hcall.onRspQryAccount task.task_id task.task_id task.task_last data

/-- Process function `TdApi::processRspQryFund`: rebuilds the data dict and invokes the user handler. -/
def processRspQryFund (task : Task) : Hcall :=
  let data : TapDict :=
    match task.task_data with
    | some (Payload.pTapAPIFundData d) =>
      [("AccountNo", toUtf d.AccountNo),
      ("CurrencyGroupNo", toUtf d.CurrencyGroupNo),
      ("CurrencyNo", toUtf d.CurrencyNo),
      ("TradeRate", DValue.num d.TradeRate),
      ("FutureAlg", DValue.num d.FutureAlg),
      ("OptionAlg", DValue.num d.OptionAlg),
      ("PreBalance", DValue.num d.PreBalance),
      ("PreUnExpProfit", DValue.num d.PreUnExpProfit),
      ("PreLMEPositionProfit", DValue.num d.PreLMEPositionProfit),
      ("PreEquity", DValue.num d.PreEquity),
      ("PreAvailable1", DValue.num d.PreAvailable1),
      ("PreMarketEquity", DValue.num d.PreMarketEquity),
      ("CashInValue", DValue.num d.CashInValue),
      ("CashOutValue", DValue.num d.CashOutValue),
      ("CashAdjustValue", DValue.num d.CashAdjustValue),
      ("CashPledged", DValue.num d.CashPledged),
      ("FrozenFee", DValue.num d.FrozenFee),
      ("FrozenDeposit", DValue.num d.FrozenDeposit),
      ("AccountFee", DValue.num d.AccountFee),
      ("SwapInValue", DValue.num d.SwapInValue),
      ("SwapOutValue", DValue.num d.SwapOutValue),
      ("PremiumIncome", DValue.num d.PremiumIncome),
      ("PremiumPay", DValue.num d.PremiumPay),
      ("CloseProfit", DValue.num d.CloseProfit),
      ("FrozenFund", DValue.num d.FrozenFund),
      ("UnExpProfit", DValue.num d.UnExpProfit),
      ("ExpProfit", DValue.num d.ExpProfit),
      ("PositionProfit", DValue.num d.PositionProfit),
      ("LmePositionProfit", DValue.num d.LmePositionProfit),
      ("OptionMarketValue", DValue.num d.OptionMarketValue),
      ("AccountIntialMargin", DValue.num d.AccountIntialMargin),
      ("AccountMaintenanceMargin", DValue.num d.AccountMaintenanceMargin),
      ("UpperInitalMargin", DValue.num d.UpperInitalMargin),
      ("UpperMaintenanceMargin", DValue.num d.UpperMaintenanceMargin),
      ("Discount", DValue.num d.Discount),
      ("Balance", DValue.num d.Balance),
      ("Equity", DValue.num d.Equity),
      ("Available", DValue.num d.Available),
      ("CanDraw", DValue.num d.CanDraw),
      ("MarketEquity", DValue.num d.MarketEquity),
      ("AuthMoney", DValue.num d.AuthMoney)]
    | _ => []
  Hcall.onRspQryFund task.task_id task.task_int task.task_last data

/-- Process function `TdApi::processRtnFund`: rebuilds the data dict and invokes the user handler. -/
def processRtnFund (task : Task) : Hcall :=
  let data : TapDict :=
    match task.task_data with
    | some (Payload.pTapAPIFundData d) =>
      [("AccountNo", toUtf d.AccountNo),
      ("CurrencyGroupNo", toUtf d.CurrencyGroupNo),
      ("CurrencyNo", toUtf d.CurrencyNo),
      ("TradeRate", DValue.num d.TradeRate),
      ("FutureAlg", DValue.num d.FutureAlg),
      ("OptionAlg", DValue.num d.OptionAlg),
      ("PreBalance", DValue.num d.PreBalance),
      ("PreUnExpProfit", DValue.num d.PreUnExpProfit),
      ("PreLMEPositionProfit", DValue.num d.PreLMEPositionProfit),
      ("PreEquity", DValue.num d.PreEquity),
      ("PreAvailable1", DValue.num d.PreAvailable1),
      ("PreMarketEquity", DValue.num d.PreMarketEquity),
      ("CashInValue", DValue.num d.CashInValue),
      ("CashOutValue", DValue.num d.CashOutValue),
      ("CashAdjustValue", DValue.num d.CashAdjustValue),
      ("CashPledged", DValue.num d.CashPledged),
      ("FrozenFee", DValue.num d.FrozenFee),
      ("FrozenDeposit", DValue.num d.FrozenDeposit),
      ("AccountFee", DValue.num d.AccountFee),
      ("SwapInValue", DValue.num d.SwapInValue),
      ("SwapOutValue", DValue.num d.SwapOutValue),
      ("PremiumIncome", DValue.num d.PremiumIncome),
      ("PremiumPay", DValue.num d.PremiumPay),
      ("CloseProfit", DValue.num d.CloseProfit),
      ("FrozenFund", DValue.num d.FrozenFund),
      ("UnExpProfit", DValue.num d.UnExpProfit),
      ("ExpProfit", DValue.num d.ExpProfit),
      ("PositionProfit", DValue.num d.PositionProfit),
      ("LmePositionProfit", DValue.num d.LmePositionProfit),
      ("OptionMarketValue", DValue.num d.OptionMarketValue),
      ("AccountIntialMargin", DValue.num d.AccountIntialMargin),
      ("AccountMaintenanceMargin", DValue.num d.AccountMaintenanceMargin),
      ("UpperInitalMargin", DValue.num d.UpperInitalMargin),
      ("UpperMaintenanceMargin", DValue.num d.UpperMaintenanceMargin),
      ("Discount", DValue.num d.Discount),
      ("Balance", DValue.num d.Balance),
      ("Equity", DValue.num d.Equity),
      ("Available", DValue.num d.Available),
      ("CanDraw", DValue.num d.CanDraw),
      ("MarketEquity", DValue.num d.MarketEquity),
      ("AuthMoney", DValue.num d.AuthMoney)]
    | _ => []
  Hcall.onRtnFund data

/-- Process function `TdApi::processRspQryExchange`: rebuilds the data dict and invokes the user handler. -/
def processRspQryExchange (task : Task) : Hcall :=
  let data : TapDict :=
    match task.task_data with
    | some (Payload.pTapAPIExchangeInfo d) =>
      [("ExchangeNo", toUtf d.ExchangeNo),
      ("ExchangeName", toUtf d.ExchangeName)]
    | _ => []
  Hcall.onRspQryExchange task.task_id task.task_int task.task_last data

/-- Process function `TdApi::processRspQryCommodity`: rebuilds the data dict and invokes the user handler. -/
def processRspQryCommodity (task : Task) : Hcall :=
  let data : TapDict :=
    match task.task_data with
    | some (Payload.pTapAPICommodityInfo d) =>
      [("ExchangeNo", toUtf d.ExchangeNo),
      ("CommodityType", DValue.num d.CommodityType),
      ("CommodityNo", toUtf d.CommodityNo),
      ("CommodityName", toUtf d.CommodityName),
      ("CommodityEngName", toUtf d.CommodityEngName),
      ("RelateExchangeNo", toUtf d.RelateExchangeNo),
      ("RelateCommodityType", DValue.num d.RelateCommodityType),
      ("RelateCommodityNo", toUtf d.RelateCommodityNo),
      ("RelateExchangeNo2", toUtf d.RelateExchangeNo2),
      ("RelateCommodityType2", DValue.num d.RelateCommodityType2),
      ("RelateCommodityNo2", toUtf d.RelateCommodityNo2),
      ("CurrencyGroupNo", toUtf d.CurrencyGroupNo),
      ("TradeCurrency", toUtf d.TradeCurrency),
      ("ContractSize", DValue.num d.ContractSize),
      ("OpenCloseMode", DValue.num d.OpenCloseMode),
      ("StrikePriceTimes", DValue.num d.StrikePriceTimes),
      ("CommodityTickSize", DValue.num d.CommodityTickSize),
      ("CommodityDenominator", DValue.num d.CommodityDenominator),
      ("CmbDirect", DValue.num d.CmbDirect),
      ("DeliveryMode", DValue.num d.DeliveryMode),
      ("DeliveryDays", DValue.num d.DeliveryDays),
      ("AddOneTime", toUtf d.AddOneTime),
      ("CommodityTimeZone", DValue.num d.CommodityTimeZone),
      ("IsAddOne", DValue.num d.IsAddOne)]
    | _ => []
  Hcall.onRspQryCommodity task.task_id task.task_int task.task_last data

/-- Process function `TdApi::processRspQryContract`: rebuilds the data dict and invokes the user handler. -/
def processRspQryContract (task : Task) : Hcall :=
  let data : TapDict :=
    match task.task_data with
    | some (Payload.pTapAPITradeContractInfo d) =>
      [("ExchangeNo", toUtf d.ExchangeNo),
      ("CommodityType", DValue.num d.CommodityType),
      ("CommodityNo", toUtf d.CommodityNo),
      ("ContractNo1", toUtf d.ContractNo1),
      ("StrikePrice1", toUtf d.StrikePrice1),
      ("CallOrPutFlag1", DValue.num d.CallOrPutFlag1),
      ("ContractNo2", toUtf d.ContractNo2),
      ("StrikePrice2", toUtf d.StrikePrice2),
      ("CallOrPutFlag2", DValue.num d.CallOrPutFlag2),
      ("ContractType", DValue.num d.ContractType),
      ("QuoteUnderlyingContract", toUtf d.QuoteUnderlyingContract),
      ("ContractName", toUtf d.ContractName),
      ("ContractExpDate", toUtf d.ContractExpDate),
      ("LastTradeDate", toUtf d.LastTradeDate),
      ("FirstNoticeDate", toUtf d.FirstNoticeDate)]
    | _ => []
  Hcall.onRspQryContract task.task_id task.task_int task.task_last data

/-- Process function `TdApi::processRtnContract`: rebuilds the data dict and invokes the user handler. -/
def processRtnContract (task : Task) : Hcall :=
  let data : TapDict :=
    match task.task_data with
    | some (Payload.pTapAPITradeContractInfo d) =>
      [("ExchangeNo", toUtf d.ExchangeNo),
      ("CommodityType", DValue.num d.CommodityType),
      ("CommodityNo", toUtf d.CommodityNo),
      ("ContractNo1", toUtf d.ContractNo1),
      ("StrikePrice1", toUtf d.StrikePrice1),
      ("CallOrPutFlag1", DValue.num d.CallOrPutFlag1),
      ("ContractNo2", toUtf d.ContractNo2),
      ("StrikePrice2", toUtf d.StrikePrice2),
      ("CallOrPutFlag2", DValue.num d.CallOrPutFlag2),
      ("ContractType", DValue.num d.ContractType),
      ("QuoteUnderlyingContract", toUtf d.QuoteUnderlyingContract),
      ("ContractName", toUtf d.ContractName),
      ("ContractExpDate", toUtf d.ContractExpDate),
      ("LastTradeDate", toUtf d.LastTradeDate),
      ("FirstNoticeDate", toUtf d.FirstNoticeDate)]
    | _ => []
  Hcall.onRtnContract data

/-- Process function `TdApi::processRspOrderAction`: rebuilds the data dict and invokes the user handler. -/
def processRspOrderAction (task : Task) : Hcall :=
  let data : TapDict :=
    match task.task_data with
    | some (Payload.pTapAPIOrderActionRsp d) =>
      [("ActionType", DValue.num d.ActionType),
      ("OrderInfo", DValue.num d.OrderInfo)]
    | _ => []
  Hcall.onRspOrderAction task.task_id task.task_int data

/-- Process function `TdApi::processRtnOrder`: rebuilds the data dict and invokes the user handler. -/
def processRtnOrder (task : Task) : Hcall :=
  let data : TapDict :=
    match task.task_data with
    | some (Payload.pTapAPIOrderInfoNotice d) =>
      [("SessionID", DValue.num d.SessionID),
      ("ErrorCode", DValue.num d.ErrorCode),
      ("OrderInfo", DValue.num d.OrderInfo)]
    | _ => []
  Hcall.onRtnOrder data

/-- Process function `TdApi::processRspQryOrder`: rebuilds the data dict and invokes the user handler. -/
def processRspQryOrder (task : Task) : Hcall :=
  let data : TapDict :=
    match task.task_data with
    | some (Payload.pTapAPIOrderInfo d) =>
      [("AccountNo", toUtf d.AccountNo),
      ("ExchangeNo", toUtf d.ExchangeNo),
      ("CommodityType", DValue.num d.CommodityType),
      ("CommodityNo", toUtf d.CommodityNo),
      ("ContractNo", toUtf d.ContractNo),
      ("StrikePrice", toUtf d.StrikePrice),
      ("CallOrPutFlag", DValue.num d.CallOrPutFlag),
      ("ContractNo2", toUtf d.ContractNo2),
      ("StrikePrice2", toUtf d.StrikePrice2),
      ("CallOrPutFlag2", DValue.num d.CallOrPutFlag2),
      ("OrderType", DValue.num d.OrderType),
      ("OrderSource", DValue.num d.OrderSource),
      ("TimeInForce", DValue.num d.TimeInForce),
      ("ExpireTime", toUtf d.ExpireTime),
      ("IsRiskOrder", DValue.num d.IsRiskOrder),
      ("OrderSide", DValue.num d.OrderSide),
      ("PositionEffect", DValue.num d.PositionEffect),
      ("PositionEffect2", DValue.num d.PositionEffect2),
      ("InquiryNo", toUtf d.InquiryNo),
      ("HedgeFlag", DValue.num d.HedgeFlag),
      ("OrderPrice", DValue.num d.OrderPrice),
      ("OrderPrice2", DValue.num d.OrderPrice2),
      ("StopPrice", DValue.num d.StopPrice),
      ("OrderQty", DValue.num d.OrderQty),
      ("OrderMinQty", DValue.num d.OrderMinQty),
      ("RefInt", DValue.num d.RefInt),
      ("RefDouble", DValue.num d.RefDouble),
      ("RefString", toUtf d.RefString),
      ("MinClipSize", DValue.num d.MinClipSize),
      ("MaxClipSize", DValue.num d.MaxClipSize),
      ("LicenseNo", toUtf d.LicenseNo),
      ("ServerFlag", DValue.num d.ServerFlag),
      ("OrderNo", toUtf d.OrderNo),
      ("ClientOrderNo", toUtf d.ClientOrderNo),
      ("ClientID", toUtf d.ClientID),
      ("TacticsType", DValue.num d.TacticsType),
      ("TriggerCondition", DValue.num d.TriggerCondition),
      ("TriggerPriceType", DValue.num d.TriggerPriceType),
      ("AddOneIsValid", DValue.num d.AddOneIsValid),
      ("ClientLocalIP", toUtf d.ClientLocalIP),
      ("ClientMac", toUtf d.ClientMac),
      ("ClientIP", toUtf d.ClientIP),
      ("OrderStreamID", DValue.num d.OrderStreamID),
      ("UpperNo", toUtf d.UpperNo),
      ("UpperChannelNo", toUtf d.UpperChannelNo),
      ("OrderLocalNo", toUtf d.OrderLocalNo),
      ("UpperStreamID", DValue.num d.UpperStreamID),
      ("OrderSystemNo", toUtf d.OrderSystemNo),
      ("OrderExchangeSystemNo", toUtf d.OrderExchangeSystemNo),
      ("OrderParentSystemNo", toUtf d.OrderParentSystemNo),
      ("OrderInsertUserNo", toUtf d.OrderInsertUserNo),
      ("OrderInsertTime", toUtf d.OrderInsertTime),
      ("OrderCommandUserNo", toUtf d.OrderCommandUserNo),
      ("OrderUpdateUserNo", toUtf d.OrderUpdateUserNo),
      ("OrderUpdateTime", toUtf d.OrderUpdateTime),
      ("OrderState", DValue.num d.OrderState),
      ("OrderMatchPrice", DValue.num d.OrderMatchPrice),
      ("OrderMatchPrice2", DValue.num d.OrderMatchPrice2),
      ("OrderMatchQty", DValue.num d.OrderMatchQty),
      ("OrderMatchQty2", DValue.num d.OrderMatchQty2),
      ("ErrorCode", DValue.num d.ErrorCode),
      ("ErrorText", toUtf d.ErrorText),
      ("IsBackInput", DValue.num d.IsBackInput),
      ("IsDeleted", DValue.num d.IsDeleted),
      ("IsAddOne", DValue.num d.IsAddOne)]
    | _ => []
  Hcall.onRspQryOrder task.task_id task.task_int task.task_last data

/-- Process function `TdApi::processRspQryOrderProcess`: rebuilds the data dict and invokes the user handler. -/
def processRspQryOrderProcess (task : Task) : Hcall :=
  let data : TapDict :=
    match task.task_data with
    | some (Payload.pTapAPIOrderInfo d) =>
      [("AccountNo", toUtf d.AccountNo),
      ("ExchangeNo", toUtf d.ExchangeNo),
      ("CommodityType", DValue.num d.CommodityType),
      ("CommodityNo", toUtf d.CommodityNo),
      ("ContractNo", toUtf d.ContractNo),
      ("StrikePrice", toUtf d.StrikePrice),
      ("CallOrPutFlag", DValue.num d.CallOrPutFlag),
      ("ContractNo2", toUtf d.ContractNo2),
      ("StrikePrice2", toUtf d.StrikePrice2),
      ("CallOrPutFlag2", DValue.num d.CallOrPutFlag2),
      ("OrderType", DValue.num d.OrderType),
      ("OrderSource", DValue.num d.OrderSource),
      ("TimeInForce", DValue.num d.TimeInForce),
      ("ExpireTime", toUtf d.ExpireTime),
      ("IsRiskOrder", DValue.num d.IsRiskOrder),
      ("OrderSide", DValue.num d.OrderSide),
      ("PositionEffect", DValue.num d.PositionEffect),
      ("PositionEffect2", DValue.num d.PositionEffect2),
      ("InquiryNo", toUtf d.InquiryNo),
      ("HedgeFlag", DValue.num d.HedgeFlag),
      ("OrderPrice", DValue.num d.OrderPrice),
      ("OrderPrice2", DValue.num d.OrderPrice2),
      ("StopPrice", DValue.num d.StopPrice),
      ("OrderQty", DValue.num d.OrderQty),
      ("OrderMinQty", DValue.num d.OrderMinQty),
      ("RefInt", DValue.num d.RefInt),
      ("RefDouble", DValue.num d.RefDouble),
      ("RefString", toUtf d.RefString),
      ("MinClipSize", DValue.num d.MinClipSize),
      ("MaxClipSize", DValue.num d.MaxClipSize),
      ("LicenseNo", toUtf d.LicenseNo),
      ("ServerFlag", DValue.num d.ServerFlag),
      ("OrderNo", toUtf d.OrderNo),
      ("ClientOrderNo", toUtf d.ClientOrderNo),
      ("ClientID", toUtf d.ClientID),
      ("TacticsType", DValue.num d.TacticsType),
      ("TriggerCondition", DValue.num d.TriggerCondition),
      ("TriggerPriceType", DValue.num d.TriggerPriceType),
      ("AddOneIsValid", DValue.num d.AddOneIsValid),
      ("ClientLocalIP", toUtf d.ClientLocalIP),
      ("ClientMac", toUtf d.ClientMac),
      ("ClientIP", toUtf d.ClientIP),
      ("OrderStreamID", DValue.num d.OrderStreamID),
      ("UpperNo", toUtf d.UpperNo),
      ("UpperChannelNo", toUtf d.UpperChannelNo),
      ("OrderLocalNo", toUtf d.OrderLocalNo),
      ("UpperStreamID", DValue.num d.UpperStreamID),
      ("OrderSystemNo", toUtf d.OrderSystemNo),
      ("OrderExchangeSystemNo", toUtf d.OrderExchangeSystemNo),
      ("OrderParentSystemNo", toUtf d.OrderParentSystemNo),
      ("OrderInsertUserNo", toUtf d.OrderInsertUserNo),
      ("OrderInsertTime", toUtf d.OrderInsertTime),
      ("OrderCommandUserNo", toUtf d.OrderCommandUserNo),
      ("OrderUpdateUserNo", toUtf d.OrderUpdateUserNo),
      ("OrderUpdateTime", toUtf d.OrderUpdateTime),
      ("OrderState", DValue.num d.OrderState),
      ("OrderMatchPrice", DValue.num d.OrderMatchPrice),
      ("OrderMatchPrice2", DValue.num d.OrderMatchPrice2),
      ("OrderMatchQty", DValue.num d.OrderMatchQty),
      ("OrderMatchQty2", DValue.num d.OrderMatchQty2),
      ("ErrorCode", DValue.num d.ErrorCode),
      ("ErrorText", toUtf d.ErrorText),
      ("IsBackInput", DValue.num d.IsBackInput),
      ("IsDeleted", DValue.num d.IsDeleted),
      ("IsAddOne", DValue.num d.IsAddOne)]
    | _ => []
  Hcall.onRspQryOrderProcess task.task_id task.task_int task.task_last data

/-- Process function `TdApi::processRspQryFill`: rebuilds the data dict and invokes the user handler. -/
def processRspQryFill (task : Task) : Hcall :=
  let data : TapDict :=
    match task.task_data with
    | some (Payload.pTapAPIFillInfo d) =>
      [("AccountNo", toUtf d.AccountNo),
      ("ExchangeNo", toUtf d.ExchangeNo),
      ("CommodityType", DValue.num d.CommodityType),
      ("CommodityNo", toUtf d.CommodityNo),
      ("ContractNo", toUtf d.ContractNo),
      ("StrikePrice", toUtf d.StrikePrice),
      ("CallOrPutFlag", DValue.num d.CallOrPutFlag),
      ("MatchSource", DValue.num d.MatchSource),
      ("MatchSide", DValue.num d.MatchSide),
      ("PositionEffect", DValue.num d.PositionEffect),
      ("ServerFlag", DValue.num d.ServerFlag),
      ("OrderNo", toUtf d.OrderNo),
      ("OrderSystemNo", toUtf d.OrderSystemNo),
      ("MatchNo", toUtf d.MatchNo),
      ("UpperMatchNo", toUtf d.UpperMatchNo),
      ("ExchangeMatchNo", toUtf d.ExchangeMatchNo),
      ("MatchDateTime", toUtf d.MatchDateTime),
      ("UpperMatchDateTime", toUtf d.UpperMatchDateTime),
      ("UpperNo", toUtf d.UpperNo),
      ("MatchPrice", DValue.num d.MatchPrice),
      ("MatchQty", DValue.num d.MatchQty),
      ("IsDeleted", DValue.num d.IsDeleted),
      ("IsAddOne", DValue.num d.IsAddOne),
      ("FeeCurrencyGroup", toUtf d.FeeCurrencyGroup),
      ("FeeCurrency", toUtf d.FeeCurrency),
      ("FeeValue", DValue.num d.FeeValue),
      ("IsManualFee", DValue.num d.IsManualFee),
      ("ClosePrositionPrice", DValue.num d.ClosePrositionPrice)]
    | _ => []
  Hcall.onRspQryFill task.task_id task.task_int task.task_last data

/-- Process function `TdApi::processRtnFill`: rebuilds the data dict and invokes the user handler. -/
def processRtnFill (task : Task) : Hcall :=
  let data : TapDict :=
    match task.task_data with
    | some (Payload.pTapAPIFillInfo d) =>
      [("AccountNo", toUtf d.AccountNo),
      ("ExchangeNo", toUtf d.ExchangeNo),
      ("CommodityType", DValue.num d.CommodityType),
      ("CommodityNo", toUtf d.CommodityNo),
      ("ContractNo", toUtf d.ContractNo),
      ("StrikePrice", toUtf d.StrikePrice),
      ("CallOrPutFlag", DValue.num d.CallOrPutFlag),
      ("MatchSource", DValue.num d.MatchSource),
      ("MatchSide", DValue.num d.MatchSide),
      ("PositionEffect", DValue.num d.PositionEffect),
      ("ServerFlag", DValue.num d.ServerFlag),
      ("OrderNo", toUtf d.OrderNo),
      ("OrderSystemNo", toUtf d.OrderSystemNo),
      ("MatchNo", toUtf d.MatchNo),
      ("UpperMatchNo", toUtf d.UpperMatchNo),
      ("ExchangeMatchNo", toUtf d.ExchangeMatchNo),
      ("MatchDateTime", toUtf d.MatchDateTime),
      ("UpperMatchDateTime", toUtf d.UpperMatchDateTime),
      ("UpperNo", toUtf d.UpperNo),
      ("MatchPrice", DValue.num d.MatchPrice),
      ("MatchQty", DValue.num d.MatchQty),
      ("IsDeleted", DValue.num d.IsDeleted),
      ("IsAddOne", DValue.num d.IsAddOne),
      ("FeeCurrencyGroup", toUtf d.FeeCurrencyGroup),
      ("FeeCurrency", toUtf d.FeeCurrency),
      ("FeeValue", DValue.num d.FeeValue),
      ("IsManualFee", DValue.num d.IsManualFee),
      ("ClosePrositionPrice", DValue.num d.ClosePrositionPrice)]
    | _ => []
  Hcall.onRtnFill data

/-- Process function `TdApi::processRspQryPosition`: rebuilds the data dict and invokes the user handler. -/
def processRspQryPosition (task : Task) : Hcall :=
  let data : TapDict :=
    match task.task_data with
    | some (Payload.pTapAPIPositionInfo d) =>
      [("AccountNo", toUtf d.AccountNo),
      ("ExchangeNo", toUtf d.ExchangeNo),
      ("CommodityType", DValue.num d.CommodityType),
      ("CommodityNo", toUtf d.CommodityNo),
      ("ContractNo", toUtf d.ContractNo),
      ("StrikePrice", toUtf d.StrikePrice),
      ("CallOrPutFlag", DValue.num d.CallOrPutFlag),
      ("MatchSide", DValue.num d.MatchSide),
      ("HedgeFlag", DValue.num d.HedgeFlag),
      ("PositionNo", toUtf d.PositionNo),
      ("ServerFlag", DValue.num d.ServerFlag),
      ("OrderNo", toUtf d.OrderNo),
      ("MatchNo", toUtf d.MatchNo),
      ("UpperNo", toUtf d.UpperNo),
      ("PositionPrice", DValue.num d.PositionPrice),
      ("PositionQty", DValue.num d.PositionQty),
      ("PositionStreamId", DValue.num d.PositionStreamId),
      ("CommodityCurrencyGroup", toUtf d.CommodityCurrencyGroup),
      ("CommodityCurrency", toUtf d.CommodityCurrency),
      ("CalculatePrice", DValue.num d.CalculatePrice),
      ("AccountInitialMargin", DValue.num d.AccountInitialMargin),
      ("AccountMaintenanceMargin", DValue.num d.AccountMaintenanceMargin),
      ("UpperInitialMargin", DValue.num d.UpperInitialMargin),
      ("UpperMaintenanceMargin", DValue.num d.UpperMaintenanceMargin),
      ("PositionProfit", DValue.num d.PositionProfit),
      ("LMEPositionProfit", DValue.num d.LMEPositionProfit),
      ("OptionMarketValue", DValue.num d.OptionMarketValue),
      ("IsHistory", DValue.num d.IsHistory)]
    | _ => []
  Hcall.onRspQryPosition task.task_id task.task_int task.task_last data

/-- Process function `TdApi::processRtnPosition`: rebuilds the data dict and invokes the user handler. -/
def processRtnPosition (task : Task) : Hcall :=
  let data : TapDict :=
    match task.task_data with
    | some (Payload.pTapAPIPositionInfo d) =>
      [("AccountNo", toUtf d.AccountNo),
      ("ExchangeNo", toUtf d.ExchangeNo),
      ("CommodityType", DValue.num d.CommodityType),
      ("CommodityNo", toUtf d.CommodityNo),
      ("ContractNo", toUtf d.ContractNo),
      ("StrikePrice", toUtf d.StrikePrice),
      ("CallOrPutFlag", DValue.num d.CallOrPutFlag),
      ("MatchSide", DValue.num d.MatchSide),
      ("HedgeFlag", DValue.num d.HedgeFlag),
      ("PositionNo", toUtf d.PositionNo),
      ("ServerFlag", DValue.num d.ServerFlag),
      ("OrderNo", toUtf d.OrderNo),
      ("MatchNo", toUtf d.MatchNo),
      ("UpperNo", toUtf d.UpperNo),
      ("PositionPrice", DValue.num d.PositionPrice),
      ("PositionQty", DValue.num d.PositionQty),
      ("PositionStreamId", DValue.num d.PositionStreamId),
      ("CommodityCurrencyGroup", toUtf d.CommodityCurrencyGroup),
      ("CommodityCurrency", toUtf d.CommodityCurrency),
      ("CalculatePrice", DValue.num d.CalculatePrice),
      ("AccountInitialMargin", DValue.num d.AccountInitialMargin),
      ("AccountMaintenanceMargin", DValue.num d.AccountMaintenanceMargin),
      ("UpperInitialMargin", DValue.num d.UpperInitialMargin),
      ("UpperMaintenanceMargin", DValue.num d.UpperMaintenanceMargin),
      ("PositionProfit", DValue.num d.PositionProfit),
      ("LMEPositionProfit", DValue.num d.LMEPositionProfit),
      ("OptionMarketValue", DValue.num d.OptionMarketValue),
      ("IsHistory", DValue.num d.IsHistory)]
    | _ => []
  Hcall.onRtnPosition data

/-- Process function `TdApi::processRspQryPositionSummary`: rebuilds the data dict and invokes the user handler. -/
def processRspQryPositionSummary (task : Task) : Hcall :=
  let data : TapDict :=
    match task.task_data with
    | some (Payload.pTapAPIPositionSummary d) =>
      [("AccountNo", toUtf d.AccountNo),
      ("ExchangeNo", toUtf d.ExchangeNo),
      ("CommodityType", DValue.num d.CommodityType),
      ("CommodityNo", toUtf d.CommodityNo),
      ("ContractNo", toUtf d.ContractNo),
      ("StrikePrice", toUtf d.StrikePrice),
      ("CallOrPutFlag", DValue.num d.CallOrPutFlag),
      ("MatchSide", DValue.num d.MatchSide),
      ("PositionPrice", DValue.num d.PositionPrice),
      ("PositionQty", DValue.num d.PositionQty),
      ("HisPositionQty", DValue.num d.HisPositionQty)]
    | _ => []
  Hcall.onRspQryPositionSummary task.task_id task.task_int task.task_last data

/-- Process function `TdApi::processRtnPositionSummary`: rebuilds the data dict and invokes the user handler. -/
def processRtnPositionSummary (task : Task) : Hcall :=
  let data : TapDict :=
    match task.task_data with
    | some (Payload.pTapAPIPositionSummary d) =>
      [("AccountNo", toUtf d.AccountNo),
      ("ExchangeNo", toUtf d.ExchangeNo),
      ("CommodityType", DValue.num d.CommodityType),
      ("CommodityNo", toUtf d.CommodityNo),
      ("ContractNo", toUtf d.ContractNo),
      ("StrikePrice", toUtf d.StrikePrice),
      ("CallOrPutFlag", DValue.num d.CallOrPutFlag),
      ("MatchSide", DValue.num d.MatchSide),
      ("PositionPrice", DValue.num d.PositionPrice),
      ("PositionQty", DValue.num d.PositionQty),
      ("HisPositionQty", DValue.num d.HisPositionQty)]
    | _ => []
  Hcall.onRtnPositionSummary data

/-- Process function `TdApi::processRtnPositionProfit`: rebuilds the data dict and invokes the user handler. -/
def processRtnPositionProfit (task : Task) : Hcall :=
  let data : TapDict :=
    match task.task_data with
    | some (Payload.pTapAPIPositionProfitNotice d) =>
      [("IsLast", DValue.num d.IsLast),
      ("Data", DValue.num d.Data)]
    | _ => []
  Hcall.onRtnPositionProfit data

/-- Process function `TdApi::processRspQryCurrency`: rebuilds the data dict and invokes the user handler. -/
def processRspQryCurrency (task : Task) : Hcall :=
  let data : TapDict :=
    match task.task_data with
    | some (Payload.pTapAPICurrencyInfo d) =>
      [("CurrencyNo", toUtf d.CurrencyNo),
      ("CurrencyGroupNo", toUtf d.CurrencyGroupNo),
      ("TradeRate", DValue.num d.TradeRate),
      ("TradeRate2", DValue.num d.TradeRate2),
      ("FutureAlg", DValue.num d.FutureAlg),
      ("OptionAlg", DValue.num d.OptionAlg)]
    | _ => []
  Hcall.onRspQryCurrency task.task_id task.task_int task.task_last data

/-- Process function `TdApi::processRspQryTradeMessage`: rebuilds the data dict and invokes the user handler. -/
def processRspQryTradeMessage (task : Task) : Hcall :=
  let data : TapDict :=
    match task.task_data with
    | some (Payload.pTapAPITradeMessage d) =>
      [("SerialID", DValue.num d.SerialID),
      ("AccountNo", toUtf d.AccountNo),
      ("TMsgValidDateTime", toUtf d.TMsgValidDateTime),
      ("TMsgTitle", toUtf d.TMsgTitle),
      ("TMsgContent", toUtf d.TMsgContent),
      ("TMsgType", DValue.num d.TMsgType),
      ("TMsgLevel", DValue.num d.TMsgLevel),
      ("IsSendBySMS", DValue.num d.IsSendBySMS),
      ("IsSendByEMail", DValue.num d.IsSendByEMail),
      ("Sender", toUtf d.Sender),
      ("SendDateTime", toUtf d.SendDateTime)]
    | _ => []
  Hcall.onRspQryTradeMessage task.task_id task.task_int task.task_last data

/-- Process function `TdApi::processRtnTradeMessage`: rebuilds the data dict and invokes the user handler. -/
def processRtnTradeMessage (task : Task) : Hcall :=
  let data : TapDict :=
    match task.task_data with
    | some (Payload.pTapAPITradeMessage d) =>
      [("SerialID", DValue.num d.SerialID),
      ("AccountNo", toUtf d.AccountNo),
      ("TMsgValidDateTime", toUtf d.TMsgValidDateTime),
      ("TMsgTitle", toUtf d.TMsgTitle),
      ("TMsgContent", toUtf d.TMsgContent),
      ("TMsgType", DValue.num d.TMsgType),
      ("TMsgLevel", DValue.num d.TMsgLevel),
      ("IsSendBySMS", DValue.num d.IsSendBySMS),
      ("IsSendByEMail", DValue.num d.IsSendByEMail),
      ("Sender", toUtf d.Sender),
      ("SendDateTime", toUtf d.SendDateTime)]
    | _ => []
  Hcall.onRtnTradeMessage data

/-- Process function `TdApi::processRspQryHisOrder`: rebuilds the data dict and invokes the user handler. -/
def processRspQryHisOrder (task : Task) : Hcall :=
  let data : TapDict :=
    match task.task_data with
    | some (Payload.pTapAPIHisOrderQryRsp d) =>
      [("Date", toUtf d.Date),
      ("AccountNo", toUtf d.AccountNo),
      ("ExchangeNo", toUtf d.ExchangeNo),
      ("CommodityType", DValue.num d.CommodityType),
      ("CommodityNo", toUtf d.CommodityNo),
      ("ContractNo", toUtf d.ContractNo),
      ("StrikePrice", toUtf d.StrikePrice),
      ("CallOrPutFlag", DValue.num d.CallOrPutFlag),
      ("ContractNo2", toUtf d.ContractNo2),
      ("StrikePrice2", toUtf d.StrikePrice2),
      ("CallOrPutFlag2", DValue.num d.CallOrPutFlag2),
      ("OrderType", DValue.num d.OrderType),
      ("OrderSource", DValue.num d.OrderSource),
      ("TimeInForce", DValue.num d.TimeInForce),
      ("ExpireTime", toUtf d.ExpireTime),
      ("IsRiskOrder", DValue.num d.IsRiskOrder),
      ("OrderSide", DValue.num d.OrderSide),
      ("PositionEffect", DValue.num d.PositionEffect),
      ("PositionEffect2", DValue.num d.PositionEffect2),
      ("InquiryNo", toUtf d.InquiryNo),
      ("HedgeFlag", DValue.num d.HedgeFlag),
      ("OrderPrice", DValue.num d.OrderPrice),
      ("OrderPrice2", DValue.num d.OrderPrice2),
      ("StopPrice", DValue.num d.StopPrice),
      ("OrderQty", DValue.num d.OrderQty),
      ("OrderMinQty", DValue.num d.OrderMinQty),
      ("OrderCanceledQty", DValue.num d.OrderCanceledQty),
      ("RefInt", DValue.num d.RefInt),
      ("RefDouble", DValue.num d.RefDouble),
      ("RefString", toUtf d.RefString),
      ("ServerFlag", DValue.num d.ServerFlag),
      ("OrderNo", toUtf d.OrderNo),
      ("OrderStreamID", DValue.num d.OrderStreamID),
      ("UpperNo", toUtf d.UpperNo),
      ("UpperChannelNo", toUtf d.UpperChannelNo),
      ("OrderLocalNo", toUtf d.OrderLocalNo),
      ("UpperStreamID", DValue.num d.UpperStreamID),
      ("OrderSystemNo", toUtf d.OrderSystemNo),
      ("OrderExchangeSystemNo", toUtf d.OrderExchangeSystemNo),
      ("OrderParentSystemNo", toUtf d.OrderParentSystemNo),
      ("OrderInsertUserNo", toUtf d.OrderInsertUserNo),
      ("OrderInsertTime", toUtf d.OrderInsertTime),
      ("OrderCommandUserNo", toUtf d.OrderCommandUserNo),
      ("OrderUpdateUserNo", toUtf d.OrderUpdateUserNo),
      ("OrderUpdateTime", toUtf d.OrderUpdateTime),
      ("OrderState", DValue.num d.OrderState),
      ("OrderMatchPrice", DValue.num d.OrderMatchPrice),
      ("OrderMatchPrice2", DValue.num d.OrderMatchPrice2),
      ("OrderMatchQty", DValue.num d.OrderMatchQty),
      ("OrderMatchQty2", DValue.num d.OrderMatchQty2),
      ("ErrorCode", DValue.num d.ErrorCode),
      ("ErrorText", toUtf d.ErrorText),
      ("IsBackInput", DValue.num d.IsBackInput),
      ("IsDeleted", DValue.num d.IsDeleted),
      ("IsAddOne", DValue.num d.IsAddOne),
      ("AddOneIsValid", DValue.num d.AddOneIsValid),
      ("MinClipSize", DValue.num d.MinClipSize),
      ("MaxClipSize", DValue.num d.MaxClipSize),
      ("LicenseNo", toUtf d.LicenseNo),
      ("TacticsType", DValue.num d.TacticsType),
      ("TriggerCondition", DValue.num d.TriggerCondition),
      ("TriggerPriceType", DValue.num d.TriggerPriceType)]
    | _ => []
  Hcall.onRspQryHisOrder task.task_id task.task_int task.task_last data

/-- Process function `TdApi::processRspQryHisOrderProcess`: rebuilds the data dict and invokes the user handler. -/
def processRspQryHisOrderProcess (task : Task) : Hcall :=
  let data : TapDict :=
    match task.task_data with
    | some (Payload.pTapAPIHisOrderProcessQryRsp d) =>
      [("Date", toUtf d.Date),
      ("AccountNo", toUtf d.AccountNo),
      ("ExchangeNo", toUtf d.ExchangeNo),
      ("CommodityType", DValue.num d.CommodityType),
      ("CommodityNo", toUtf d.CommodityNo),
      ("ContractNo", toUtf d.ContractNo),
      ("StrikePrice", toUtf d.StrikePrice),
      ("CallOrPutFlag", DValue.num d.CallOrPutFlag),
      ("ContractNo2", toUtf d.ContractNo2),
      ("StrikePrice2", toUtf d.StrikePrice2),
      ("CallOrPutFlag2", DValue.num d.CallOrPutFlag2),
      ("OrderType", DValue.num d.OrderType),
      ("OrderSource", DValue.num d.OrderSource),
      ("TimeInForce", DValue.num d.TimeInForce),
      ("ExpireTime", toUtf d.ExpireTime),
      ("IsRiskOrder", DValue.num d.IsRiskOrder),
      ("OrderSide", DValue.num d.OrderSide),
      ("PositionEffect", DValue.num d.PositionEffect),
      ("PositionEffect2", DValue.num d.PositionEffect2),
      ("InquiryNo", toUtf d.InquiryNo),
      ("HedgeFlag", DValue.num d.HedgeFlag),
      ("OrderPrice", DValue.num d.OrderPrice),
      ("OrderPrice2", DValue.num d.OrderPrice2),
      ("StopPrice", DValue.num d.StopPrice),
      ("OrderQty", DValue.num d.OrderQty),
      ("OrderMinQty", DValue.num d.OrderMinQty),
      ("OrderCanceledQty", DValue.num d.OrderCanceledQty),
      ("RefInt", DValue.num d.RefInt),
      ("RefDouble", DValue.num d.RefDouble),
      ("RefString", toUtf d.RefString),
      ("ServerFlag", DValue.num d.ServerFlag),
      ("OrderNo", toUtf d.OrderNo),
      ("OrderStreamID", DValue.num d.OrderStreamID),
      ("UpperNo", toUtf d.UpperNo),
      ("UpperChannelNo", toUtf d.UpperChannelNo),
      ("OrderLocalNo", toUtf d.OrderLocalNo),
      ("UpperStreamID", DValue.num d.UpperStreamID),
      ("OrderSystemNo", toUtf d.OrderSystemNo),
      ("OrderExchangeSystemNo", toUtf d.OrderExchangeSystemNo),
      ("OrderParentSystemNo", toUtf d.OrderParentSystemNo),
      ("OrderInsertUserNo", toUtf d.OrderInsertUserNo),
      ("OrderInsertTime", toUtf d.OrderInsertTime),
      ("OrderCommandUserNo", toUtf d.OrderCommandUserNo),
      ("OrderUpdateUserNo", toUtf d.OrderUpdateUserNo),
      ("OrderUpdateTime", toUtf d.OrderUpdateTime),
      ("OrderState", DValue.num d.OrderState),
      ("OrderMatchPrice", DValue.num d.OrderMatchPrice),
      ("OrderMatchPrice2", DValue.num d.OrderMatchPrice2),
      ("OrderMatchQty", DValue.num d.OrderMatchQty),
      ("OrderMatchQty2", DValue.num d.OrderMatchQty2),
      ("ErrorCode", DValue.num d.ErrorCode),
      ("ErrorText", toUtf d.ErrorText),
      ("IsBackInput", DValue.num d.IsBackInput),
      ("IsDeleted", DValue.num d.IsDeleted),
      ("IsAddOne", DValue.num d.IsAddOne),
      ("AddOneIsValid", DValue.num d.AddOneIsValid),
      ("MinClipSize", DValue.num d.MinClipSize),
      ("MaxClipSize", DValue.num d.MaxClipSize),
      ("LicenseNo", toUtf d.LicenseNo),
      ("TacticsType", DValue.num d.TacticsType),
      ("TriggerCondition", DValue.num d.TriggerCondition),
      ("TriggerPriceType", DValue.num d.TriggerPriceType)]
    | _ => []
  Hcall.onRspQryHisOrderProcess task.task_id task.task_int task.task_last data

/-- Process function `TdApi::processRspQryHisMatch`: rebuilds the data dict and invokes the user handler. -/
def processRspQryHisMatch (task : Task) : Hcall :=
  let data : TapDict :=
    match task.task_data with
    | some (Payload.pTapAPIHisMatchQryRsp d) =>
      [("SettleDate", toUtf d.SettleDate),
      ("TradeDate", toUtf d.TradeDate),
      ("AccountNo", toUtf d.AccountNo),
      ("ExchangeNo", toUtf d.ExchangeNo),
      ("CommodityType", DValue.num d.CommodityType),
      ("CommodityNo", toUtf d.CommodityNo),
      ("ContractNo", toUtf d.ContractNo),
      ("StrikePrice", toUtf d.StrikePrice),
      ("CallOrPutFlag", DValue.num d.CallOrPutFlag),
      ("MatchSource", DValue.num d.MatchSource),
      ("MatchSide", DValue.num d.MatchSide),
      ("PositionEffect", DValue.num d.PositionEffect),
      ("HedgeFlag", DValue.num d.HedgeFlag),
      ("MatchPrice", DValue.num d.MatchPrice),
      ("MatchQty", DValue.num d.MatchQty),
      ("OrderNo", toUtf d.OrderNo),
      ("MatchNo", toUtf d.MatchNo),
      ("MatchStreamID", DValue.num d.MatchStreamID),
      ("UpperNo", toUtf d.UpperNo),
      ("MatchCmbNo", toUtf d.MatchCmbNo),
      ("ExchangeMatchNo", toUtf d.ExchangeMatchNo),
      ("MatchUpperStreamID", DValue.num d.MatchUpperStreamID),
      ("CommodityCurrencyGroup", toUtf d.CommodityCurrencyGroup),
      ("CommodityCurrency", toUtf d.CommodityCurrency),
      ("Turnover", DValue.num d.Turnover),
      ("PremiumIncome", DValue.num d.PremiumIncome),
      ("PremiumPay", DValue.num d.PremiumPay),
      ("AccountFee", DValue.num d.AccountFee),
      ("AccountFeeCurrencyGroup", toUtf d.AccountFeeCurrencyGroup),
      ("AccountFeeCurrency", toUtf d.AccountFeeCurrency),
      ("IsManualFee", DValue.num d.IsManualFee),
      ("AccountOtherFee", DValue.num d.AccountOtherFee),
      ("UpperFee", DValue.num d.UpperFee),
      ("UpperFeeCurrencyGroup", toUtf d.UpperFeeCurrencyGroup),
      ("UpperFeeCurrency", toUtf d.UpperFeeCurrency),
      ("IsUpperManualFee", DValue.num d.IsUpperManualFee),
      ("UpperOtherFee", DValue.num d.UpperOtherFee),
      ("MatchDateTime", toUtf d.MatchDateTime),
      ("UpperMatchDateTime", toUtf d.UpperMatchDateTime),
      ("CloseProfit", DValue.num d.CloseProfit),
      ("ClosePrice", DValue.num d.ClosePrice),
      ("CloseQty", DValue.num d.CloseQty),
      ("SettleGroupNo", toUtf d.SettleGroupNo),
      ("OperatorNo", toUtf d.OperatorNo),
      ("OperateTime", toUtf d.OperateTime)]
    | _ => []
  Hcall.onRspQryHisMatch task.task_id task.task_int task.task_last data

/-- Process function `TdApi::processRspQryHisPosition`: rebuilds the data dict and invokes the user handler. -/
def processRspQryHisPosition (task : Task) : Hcall :=
  let data : TapDict :=
    match task.task_data with
    | some (Payload.pTapAPIHisPositionQryRsp d) =>
      [("SettleDate", toUtf d.SettleDate),
      ("OpenDate", toUtf d.OpenDate),
      ("AccountNo", toUtf d.AccountNo),
      ("ExchangeNo", toUtf d.ExchangeNo),
      ("CommodityType", DValue.num d.CommodityType),
      ("CommodityNo", toUtf d.CommodityNo),
      ("ContractNo", toUtf d.ContractNo),
      ("StrikePrice", toUtf d.StrikePrice),
      ("CallOrPutFlag", DValue.num d.CallOrPutFlag),
      ("MatchSide", DValue.num d.MatchSide),
      ("HedgeFlag", DValue.num d.HedgeFlag),
      ("PositionPrice", DValue.num d.PositionPrice),
      ("PositionQty", DValue.num d.PositionQty),
      ("OrderNo", toUtf d.OrderNo),
      ("PositionNo", toUtf d.PositionNo),
      ("UpperNo", toUtf d.UpperNo),
      ("CurrencyGroup", toUtf d.CurrencyGroup),
      ("Currency", toUtf d.Currency),
      ("PreSettlePrice", DValue.num d.PreSettlePrice),
      ("SettlePrice", DValue.num d.SettlePrice),
      ("PositionDProfit", DValue.num d.PositionDProfit),
      ("LMEPositionProfit", DValue.num d.LMEPositionProfit),
      ("OptionMarketValue", DValue.num d.OptionMarketValue),
      ("AccountInitialMargin", DValue.num d.AccountInitialMargin),
      ("AccountMaintenanceMargin", DValue.num d.AccountMaintenanceMargin),
      ("UpperInitialMargin", DValue.num d.UpperInitialMargin),
      ("UpperMaintenanceMargin", DValue.num d.UpperMaintenanceMargin),
      ("SettleGroupNo", toUtf d.SettleGroupNo)]
    | _ => []
  Hcall.onRspQryHisPosition task.task_id task.task_int task.task_last data

/-- Process function `TdApi::processRspQryHisDelivery`: rebuilds the data dict and invokes the user handler. -/
def processRspQryHisDelivery (task : Task) : Hcall :=
  let data : TapDict :=
    match task.task_data with
    | some (Payload.pTapAPIHisDeliveryQryRsp d) =>
      [("DeliveryDate", toUtf d.DeliveryDate),
      ("OpenDate", toUtf d.OpenDate),
      ("AccountNo", toUtf d.AccountNo),
      ("ExchangeNo", toUtf d.ExchangeNo),
      ("CommodityType", DValue.num d.CommodityType),
      ("CommodityNo", toUtf d.CommodityNo),
      ("ContractNo", toUtf d.ContractNo),
      ("StrikePrice", toUtf d.StrikePrice),
      ("CallOrPutFlag", DValue.num d.CallOrPutFlag),
      ("MatchSource", DValue.num d.MatchSource),
      ("OpenSide", DValue.num d.OpenSide),
      ("OpenPrice", DValue.num d.OpenPrice),
      ("DeliveryPrice", DValue.num d.DeliveryPrice),
      ("DeliveryQty", DValue.num d.DeliveryQty),
      ("FrozenQty", DValue.num d.FrozenQty),
      ("OpenNo", toUtf d.OpenNo),
      ("UpperNo", toUtf d.UpperNo),
      ("CommodityCurrencyGroupy", toUtf d.CommodityCurrencyGroupy),
      ("CommodityCurrency", toUtf d.CommodityCurrency),
      ("PreSettlePrice", DValue.num d.PreSettlePrice),
      ("DeliveryProfit", DValue.num d.DeliveryProfit),
      ("AccountFrozenInitialMargin", DValue.num d.AccountFrozenInitialMargin),
      ("AccountFrozenMaintenanceMargin", DValue.num d.AccountFrozenMaintenanceMargin),
      ("UpperFrozenInitialMargin", DValue.num d.UpperFrozenInitialMargin),
      ("UpperFrozenMaintenanceMargin", DValue.num d.UpperFrozenMaintenanceMargin),
      ("AccountFeeCurrencyGroup", toUtf d.AccountFeeCurrencyGroup),
      ("AccountFeeCurrency", toUtf d.AccountFeeCurrency),
      ("AccountDeliveryFee", DValue.num d.AccountDeliveryFee),
      ("UpperFeeCurrencyGroup", toUtf d.UpperFeeCurrencyGroup),
      ("UpperFeeCurrency", toUtf d.UpperFeeCurrency),
      ("UpperDeliveryFee", DValue.num d.UpperDeliveryFee),
      ("DeliveryMode", DValue.num d.DeliveryMode),
      ("OperatorNo", toUtf d.OperatorNo),
      ("OperateTime", toUtf d.OperateTime),
      ("SettleGourpNo", toUtf d.SettleGourpNo)]
    | _ => []
  Hcall.onRspQryHisDelivery task.task_id task.task_int task.task_last data

/-- Process function `TdApi::processRspQryAccountCashAdjust`: rebuilds the data dict and invokes the user handler. -/
def processRspQryAccountCashAdjust (task : Task) : Hcall :=
  let data : TapDict :=
    match task.task_data with
    | some (Payload.pTapAPIAccountCashAdjustQryRsp d) =>
      [("Date", toUtf d.Date),
      ("AccountNo", toUtf d.AccountNo),
      ("CashAdjustType", DValue.num d.CashAdjustType),
      ("CurrencyGroupNo", toUtf d.CurrencyGroupNo),
      ("CurrencyNo", toUtf d.CurrencyNo),
      ("CashAdjustValue", DValue.num d.CashAdjustValue),
      ("CashAdjustRemark", toUtf d.CashAdjustRemark),
      ("OperateTime", toUtf d.OperateTime),
      ("OperatorNo", toUtf d.OperatorNo),
      ("AccountBank", toUtf d.AccountBank),
      ("BankAccount", toUtf d.BankAccount),
      ("AccountLWFlag", DValue.num d.AccountLWFlag),
      ("CompanyBank", toUtf d.CompanyBank),
      ("InternalBankAccount", toUtf d.InternalBankAccount),
      ("CompanyLWFlag", DValue.num d.CompanyLWFlag)]
    | _ => []
  Hcall.onRspQryAccountCashAdjust task.task_id task.task_int task.task_last data

/-- Process function `TdApi::processRspQryBill`: rebuilds the data dict and invokes the user handler. -/
def processRspQryBill (task : Task) : Hcall :=
  let data : TapDict :=
    match task.task_data with
    | some (Payload.pTapAPIBillQryRsp d) =>
      [("Reqdata", DValue.num d.Reqdata),
      ("BillLen", DValue.num d.BillLen),
      ("BillText", DValue.num d.BillText)]
    | _ => []
  Hcall.onRspQryBill task.task_id task.task_int task.task_last data

/-- Process function `TdApi::processRspQryAccountFeeRent`: rebuilds the data dict and invokes the user handler. -/
def processRspQryAccountFeeRent (task : Task) : Hcall :=
  let data : TapDict :=
    match task.task_data with
    | some (Payload.pTapAPIAccountFeeRentQryRsp d) =>
      [("AccountNo", toUtf d.AccountNo),
      ("ExchangeNo", toUtf d.ExchangeNo),
      ("CommodityType", DValue.num d.CommodityType),
      ("CommodityNo", toUtf d.CommodityNo),
      ("MatchSource", DValue.num d.MatchSource),
      ("CalculateMode", DValue.num d.CalculateMode),
      ("CurrencyGroupNo", toUtf d.CurrencyGroupNo),
      ("CurrencyNo", toUtf d.CurrencyNo),
      ("OpenCloseFee", DValue.num d.OpenCloseFee),
      ("CloseTodayFee", DValue.num d.CloseTodayFee)]
    | _ => []
  Hcall.onRspQryAccountFeeRent task.task_id task.task_int task.task_last data

/-- Process function `TdApi::processRspQryAccountMarginRent`: rebuilds the data dict and invokes the user handler. -/
def processRspQryAccountMarginRent (task : Task) : Hcall :=
  let data : TapDict :=
    match task.task_data with
    | some (Payload.pTapAPIAccountMarginRentQryRsp d) =>
      [("AccountNo", toUtf d.AccountNo),
      ("ExchangeNo", toUtf d.ExchangeNo),
      ("CommodityType", DValue.num d.CommodityType),
      ("CommodityNo", toUtf d.CommodityNo),
      ("ContractNo", toUtf d.ContractNo),
      ("StrikePrice", toUtf d.StrikePrice),
      ("CallOrPutFlag", DValue.num d.CallOrPutFlag),
      ("CalculateMode", DValue.num d.CalculateMode),
      ("CurrencyGroupNo", toUtf d.CurrencyGroupNo),
      ("CurrencyNo", toUtf d.CurrencyNo),
      ("InitialMargin", DValue.num d.InitialMargin),
      ("MaintenanceMargin", DValue.num d.MaintenanceMargin),
      ("SellInitialMargin", DValue.num d.SellInitialMargin),
      ("SellMaintenanceMargin", DValue.num d.SellMaintenanceMargin),
      ("LockMargin", DValue.num d.LockMargin)]
    | _ => []
  Hcall.onRspQryAccountMarginRent task.task_id task.task_int task.task_last data

/-- Process function `TdApi::processRspHKMarketOrderInsert`: rebuilds the data dict and invokes the user handler. -/
def processRspHKMarketOrderInsert (task : Task) : Hcall :=
  let data : TapDict :=
    match task.task_data with
    | some (Payload.pTapAPIOrderMarketInsertRsp d) =>
      [("AccountNo", toUtf d.AccountNo),
      ("ExchangeNo", toUtf d.ExchangeNo),
      ("CommodityType", DValue.num d.CommodityType),
      ("CommodityNo", toUtf d.CommodityNo),
      ("ContractNo", toUtf d.ContractNo),
      ("StrikePrice", toUtf d.StrikePrice),
      ("CallOrPutFlag", DValue.num d.CallOrPutFlag),
      ("OrderType", DValue.num d.OrderType),
      ("TimeInForce", DValue.num d.TimeInForce),
      ("ExpireTime", toUtf d.ExpireTime),
      ("OrderSource", DValue.num d.OrderSource),
      ("BuyPositionEffect", DValue.num d.BuyPositionEffect),
      ("SellPositionEffect", DValue.num d.SellPositionEffect),
      ("OrderBuyPrice", DValue.num d.OrderBuyPrice),
      ("OrderSellPrice", DValue.num d.OrderSellPrice),
      ("OrderBuyQty", DValue.num d.OrderBuyQty),
      ("OrderSellQty", DValue.num d.OrderSellQty),
      ("ServerFlag", DValue.num d.ServerFlag),
      ("OrderBuyNo", toUtf d.OrderBuyNo),
      ("OrderSellNo", toUtf d.OrderSellNo),
      ("AddOneIsValid", DValue.num d.AddOneIsValid),
      ("OrderMarketUserNo", toUtf d.OrderMarketUserNo),
      ("OrderMarketTime", toUtf d.OrderMarketTime),
      ("RefInt", DValue.num d.RefInt),
      ("RefDouble", DValue.num d.RefDouble),
      ("RefString", toUtf d.RefString),
      ("ClientBuyOrderNo", toUtf d.ClientBuyOrderNo),
      ("ClientSellOrderNo", toUtf d.ClientSellOrderNo),
      ("ErrorCode", DValue.num d.ErrorCode),
      ("ErrorText", toUtf d.ErrorText),
      ("ClientLocalIP", toUtf d.ClientLocalIP),
      ("ClientMac", toUtf d.ClientMac),
      ("ClientIP", toUtf d.ClientIP),
      ("Remark", toUtf d.Remark)]
    | _ => []
  Hcall.onRspHKMarketOrderInsert task.task_id task.task_int data

/-- Process function `TdApi::processRspHKMarketOrderDelete`: rebuilds the data dict and invokes the user handler. -/
def processRspHKMarketOrderDelete (task : Task) : Hcall :=
  let data : TapDict :=
    match task.task_data with
    | some (Payload.pTapAPIOrderMarketDeleteRsp d) =>
      [("AccountNo", toUtf d.AccountNo),
      ("ExchangeNo", toUtf d.ExchangeNo),
      ("CommodityType", DValue.num d.CommodityType),
      ("CommodityNo", toUtf d.CommodityNo),
      ("ContractNo", toUtf d.ContractNo),
      ("StrikePrice", toUtf d.StrikePrice),
      ("CallOrPutFlag", DValue.num d.CallOrPutFlag),
      ("OrderType", DValue.num d.OrderType),
      ("TimeInForce", DValue.num d.TimeInForce),
      ("ExpireTime", toUtf d.ExpireTime),
      ("OrderSource", DValue.num d.OrderSource),
      ("BuyPositionEffect", DValue.num d.BuyPositionEffect),
      ("SellPositionEffect", DValue.num d.SellPositionEffect),
      ("OrderBuyPrice", DValue.num d.OrderBuyPrice),
      ("OrderSellPrice", DValue.num d.OrderSellPrice),
      ("OrderBuyQty", DValue.num d.OrderBuyQty),
      ("OrderSellQty", DValue.num d.OrderSellQty),
      ("ServerFlag", DValue.num d.ServerFlag),
      ("OrderBuyNo", toUtf d.OrderBuyNo),
      ("OrderSellNo", toUtf d.OrderSellNo),
      ("AddOneIsValid", DValue.num d.AddOneIsValid),
      ("OrderMarketUserNo", toUtf d.OrderMarketUserNo),
      ("OrderMarketTime", toUtf d.OrderMarketTime),
      ("RefInt", DValue.num d.RefInt),
      ("RefDouble", DValue.num d.RefDouble),
      ("RefString", toUtf d.RefString),
      ("ClientBuyOrderNo", toUtf d.ClientBuyOrderNo),
      ("ClientSellOrderNo", toUtf d.ClientSellOrderNo),
      ("ErrorCode", DValue.num d.ErrorCode),
      ("ErrorText", toUtf d.ErrorText),
      ("ClientLocalIP", toUtf d.ClientLocalIP),
      ("ClientMac", toUtf d.ClientMac),
      ("ClientIP", toUtf d.ClientIP),
      ("Remark", toUtf d.Remark)]
    | _ => []
  Hcall.onRspHKMarketOrderDelete task.task_id task.task_int data

/-- Process function `TdApi::processHKMarketQuoteNotice`: rebuilds the data dict and invokes the user handler. -/
def processHKMarketQuoteNotice (task : Task) : Hcall :=
  let data : TapDict :=
    match task.task_data with
    | some (Payload.pTapAPIOrderQuoteMarketNotice d) =>
      [("ExchangeNo", toUtf d.ExchangeNo),
      ("CommodityType", DValue.num d.CommodityType),
      ("CommodityNo", toUtf d.CommodityNo),
      ("ContractNo", toUtf d.ContractNo),
      ("StrikePrice", toUtf d.StrikePrice),
      ("CallOrPutFlag", DValue.num d.CallOrPutFlag),
      ("OrderSide", DValue.num d.OrderSide),
      ("OrderQty", DValue.num d.OrderQty)]
    | _ => []
  Hcall.onHKMarketQuoteNotice data

/-- Process function `TdApi::processRspOrderLocalRemove`: rebuilds the data dict and invokes the user handler. -/
def processRspOrderLocalRemove (task : Task) : Hcall :=
  let data : TapDict :=
    match task.task_data with
    | some (Payload.pTapAPIOrderLocalRemoveRsp d) =>
      [("req", DValue.num d.req),
      ("ClientLocalIP", toUtf d.ClientLocalIP),
      ("ClientMac", toUtf d.ClientMac),
      ("ClientIP", toUtf d.ClientIP)]
    | _ => []
  Hcall.onRspOrderLocalRemove task.task_id task.task_int data

/-- Process function `TdApi::processRspOrderLocalInput`: rebuilds the data dict and invokes the user handler. -/
def processRspOrderLocalInput (task : Task) : Hcall :=
  let data : TapDict :=
    match task.task_data with
    | some (Payload.pTapAPIOrderLocalInputRsp d) =>
      [("AccountNo", toUtf d.AccountNo),
      ("ExchangeNo", toUtf d.ExchangeNo),
      ("CommodityType", DValue.num d.CommodityType),
      ("CommodityNo", toUtf d.CommodityNo),
      ("ContractNo", toUtf d.ContractNo),
      ("StrikePrice", toUtf d.StrikePrice),
      ("CallOrPutFlag", DValue.num d.CallOrPutFlag),
      ("ContractNo2", toUtf d.ContractNo2),
      ("StrikePrice2", toUtf d.StrikePrice2),
      ("CallOrPutFlag2", DValue.num d.CallOrPutFlag2),
      ("OrderType", DValue.num d.OrderType),
      ("OrderSource", DValue.num d.OrderSource),
      ("TimeInForce", DValue.num d.TimeInForce),
      ("ExpireTime", toUtf d.ExpireTime),
      ("IsRiskOrder", DValue.num d.IsRiskOrder),
      ("OrderSide", DValue.num d.OrderSide),
      ("PositionEffect", DValue.num d.PositionEffect),
      ("PositionEffect2", DValue.num d.PositionEffect2),
      ("InquiryNo", toUtf d.InquiryNo),
      ("HedgeFlag", DValue.num d.HedgeFlag),
      ("OrderPrice", DValue.num d.OrderPrice),
      ("OrderPrice2", DValue.num d.OrderPrice2),
      ("StopPrice", DValue.num d.StopPrice),
      ("OrderQty", DValue.num d.OrderQty),
      ("OrderMinQty", DValue.num d.OrderMinQty),
      ("RefInt", DValue.num d.RefInt),
      ("RefDouble", DValue.num d.RefDouble),
      ("RefString", toUtf d.RefString),
      ("MinClipSize", DValue.num d.MinClipSize),
      ("MaxClipSize", DValue.num d.MaxClipSize),
      ("LicenseNo", toUtf d.LicenseNo),
      ("ServerFlag", DValue.num d.ServerFlag),
      ("OrderNo", toUtf d.OrderNo),
      ("ClientOrderNo", toUtf d.ClientOrderNo),
      ("ClientID", toUtf d.ClientID),
      ("TacticsType", DValue.num d.TacticsType),
      ("TriggerCondition", DValue.num d.TriggerCondition),
      ("TriggerPriceType", DValue.num d.TriggerPriceType),
      ("AddOneIsValid", DValue.num d.AddOneIsValid),
      ("ClientLocalIP", toUtf d.ClientLocalIP),
      ("ClientMac", toUtf d.ClientMac),
      ("ClientIP", toUtf d.ClientIP),
      ("OrderStreamID", DValue.num d.OrderStreamID),
      ("UpperNo", toUtf d.UpperNo),
      ("UpperChannelNo", toUtf d.UpperChannelNo),
      ("OrderLocalNo", toUtf d.OrderLocalNo),
      ("UpperStreamID", DValue.num d.UpperStreamID),
      ("OrderSystemNo", toUtf d.OrderSystemNo),
      ("OrderExchangeSystemNo", toUtf d.OrderExchangeSystemNo),
      ("OrderParentSystemNo", toUtf d.OrderParentSystemNo),
      ("OrderInsertUserNo", toUtf d.OrderInsertUserNo),
      ("OrderInsertTime", toUtf d.OrderInsertTime),
      ("OrderCommandUserNo", toUtf d.OrderCommandUserNo),
      ("OrderUpdateUserNo", toUtf d.OrderUpdateUserNo),
      ("OrderUpdateTime", toUtf d.OrderUpdateTime),
      ("OrderState", DValue.num d.OrderState),
      ("OrderMatchPrice", DValue.num d.OrderMatchPrice),
      ("OrderMatchPrice2", DValue.num d.OrderMatchPrice2),
      ("OrderMatchQty", DValue.num d.OrderMatchQty),
      ("OrderMatchQty2", DValue.num d.OrderMatchQty2),
      ("ErrorCode", DValue.num d.ErrorCode),
      ("ErrorText", toUtf d.ErrorText),
      ("IsBackInput", DValue.num d.IsBackInput),
      ("IsDeleted", DValue.num d.IsDeleted),
      ("IsAddOne", DValue.num d.IsAddOne)]
    | _ => []
  Hcall.onRspOrderLocalInput task.task_id task.task_int data

/-- Process function `TdApi::processRspOrderLocalModify`: rebuilds the data dict and invokes the user handler. -/
def processRspOrderLocalModify (task : Task) : Hcall :=
  let data : TapDict :=
    match task.task_data with
    | some (Payload.pTapAPIOrderLocalModifyRsp d) =>
      [("AccountNo", toUtf d.AccountNo),
      ("ExchangeNo", toUtf d.ExchangeNo),
      ("CommodityType", DValue.num d.CommodityType),
      ("CommodityNo", toUtf d.CommodityNo),
      ("ContractNo", toUtf d.ContractNo),
      ("StrikePrice", toUtf d.StrikePrice),
      ("CallOrPutFlag", DValue.num d.CallOrPutFlag),
      ("ContractNo2", toUtf d.ContractNo2),
      ("StrikePrice2", toUtf d.StrikePrice2),
      ("CallOrPutFlag2", DValue.num d.CallOrPutFlag2),
      ("OrderType", DValue.num d.OrderType),
      ("OrderSource", DValue.num d.OrderSource),
      ("TimeInForce", DValue.num d.TimeInForce),
      ("ExpireTime", toUtf d.ExpireTime),
      ("IsRiskOrder", DValue.num d.IsRiskOrder),
      ("OrderSide", DValue.num d.OrderSide),
      ("PositionEffect", DValue.num d.PositionEffect),
      ("PositionEffect2", DValue.num d.PositionEffect2),
      ("InquiryNo", toUtf d.InquiryNo),
      ("HedgeFlag", DValue.num d.HedgeFlag),
      ("OrderPrice", DValue.num d.OrderPrice),
      ("OrderPrice2", DValue.num d.OrderPrice2),
      ("StopPrice", DValue.num d.StopPrice),
      ("OrderQty", DValue.num d.OrderQty),
      ("OrderMinQty", DValue.num d.OrderMinQty),
      ("RefInt", DValue.num d.RefInt),
      ("RefDouble", DValue.num d.RefDouble),
      ("RefString", toUtf d.RefString),
      ("MinClipSize", DValue.num d.MinClipSize),
      ("MaxClipSize", DValue.num d.MaxClipSize),
      ("LicenseNo", toUtf d.LicenseNo),
      ("ServerFlag", DValue.num d.ServerFlag),
      ("OrderNo", toUtf d.OrderNo),
      ("ClientOrderNo", toUtf d.ClientOrderNo),
      ("ClientID", toUtf d.ClientID),
      ("TacticsType", DValue.num d.TacticsType),
      ("TriggerCondition", DValue.num d.TriggerCondition),
      ("TriggerPriceType", DValue.num d.TriggerPriceType),
      ("AddOneIsValid", DValue.num d.AddOneIsValid),
      ("ClientLocalIP", toUtf d.ClientLocalIP),
      ("ClientMac", toUtf d.ClientMac),
      ("ClientIP", toUtf d.ClientIP),
      ("OrderStreamID", DValue.num d.OrderStreamID),
      ("UpperNo", toUtf d.UpperNo),
      ("UpperChannelNo", toUtf d.UpperChannelNo),
      ("OrderLocalNo", toUtf d.OrderLocalNo),
      ("UpperStreamID", DValue.num d.UpperStreamID),
      ("OrderSystemNo", toUtf d.OrderSystemNo),
      ("OrderExchangeSystemNo", toUtf d.OrderExchangeSystemNo),
      ("OrderParentSystemNo", toUtf d.OrderParentSystemNo),
      ("OrderInsertUserNo", toUtf d.OrderInsertUserNo),
      ("OrderInsertTime", toUtf d.OrderInsertTime),
      ("OrderCommandUserNo", toUtf d.OrderCommandUserNo),
      ("OrderUpdateUserNo", toUtf d.OrderUpdateUserNo),
      ("OrderUpdateTime", toUtf d.OrderUpdateTime),
      ("OrderState", DValue.num d.OrderState),
      ("OrderMatchPrice", DValue.num d.OrderMatchPrice),
      ("OrderMatchPrice2", DValue.num d.OrderMatchPrice2),
      ("OrderMatchQty", DValue.num d.OrderMatchQty),
      ("OrderMatchQty2", DValue.num d.OrderMatchQty2),
      ("ErrorCode", DValue.num d.ErrorCode),
      ("ErrorText", toUtf d.ErrorText),
      ("IsBackInput", DValue.num d.IsBackInput),
      ("IsDeleted", DValue.num d.IsDeleted),
      ("IsAddOne", DValue.num d.IsAddOne)]
    | _ => []
  Hcall.onRspOrderLocalModify task.task_id task.task_int data

/-- Process function `TdApi::processRspOrderLocalTransfer`: rebuilds the data dict and invokes the user handler. -/
def processRspOrderLocalTransfer (task : Task) : Hcall :=
  let data : TapDict :=
    match task.task_data with
    | some (Payload.pTapAPIOrderLocalTransferRsp d) =>
      [("AccountNo", toUtf d.AccountNo),
      ("ExchangeNo", toUtf d.ExchangeNo),
      ("CommodityType", DValue.num d.CommodityType),
      ("CommodityNo", toUtf d.CommodityNo),
      ("ContractNo", toUtf d.ContractNo),
      ("StrikePrice", toUtf d.StrikePrice),
      ("CallOrPutFlag", DValue.num d.CallOrPutFlag),
      ("ContractNo2", toUtf d.ContractNo2),
      ("StrikePrice2", toUtf d.StrikePrice2),
      ("CallOrPutFlag2", DValue.num d.CallOrPutFlag2),
      ("OrderType", DValue.num d.OrderType),
      ("OrderSource", DValue.num d.OrderSource),
      ("TimeInForce", DValue.num d.TimeInForce),
      ("ExpireTime", toUtf d.ExpireTime),
      ("IsRiskOrder", DValue.num d.IsRiskOrder),
      ("OrderSide", DValue.num d.OrderSide),
      ("PositionEffect", DValue.num d.PositionEffect),
      ("PositionEffect2", DValue.num d.PositionEffect2),
      ("InquiryNo", toUtf d.InquiryNo),
      ("HedgeFlag", DValue.num d.HedgeFlag),
      ("OrderPrice", DValue.num d.OrderPrice),
      ("OrderPrice2", DValue.num d.OrderPrice2),
      ("StopPrice", DValue.num d.StopPrice),
      ("OrderQty", DValue.num d.OrderQty),
      ("OrderMinQty", DValue.num d.OrderMinQty),
      ("RefInt", DValue.num d.RefInt),
      ("RefDouble", DValue.num d.RefDouble),
      ("RefString", toUtf d.RefString),
      ("MinClipSize", DValue.num d.MinClipSize),
      ("MaxClipSize", DValue.num d.MaxClipSize),
      ("LicenseNo", toUtf d.LicenseNo),
      ("ServerFlag", DValue.num d.ServerFlag),
      ("OrderNo", toUtf d.OrderNo),
      ("ClientOrderNo", toUtf d.ClientOrderNo),
      ("ClientID", toUtf d.ClientID),
      ("TacticsType", DValue.num d.TacticsType),
      ("TriggerCondition", DValue.num d.TriggerCondition),
      ("TriggerPriceType", DValue.num d.TriggerPriceType),
      ("AddOneIsValid", DValue.num d.AddOneIsValid),
      ("ClientLocalIP", toUtf d.ClientLocalIP),
      ("ClientMac", toUtf d.ClientMac),
      ("ClientIP", toUtf d.ClientIP),
      ("OrderStreamID", DValue.num d.OrderStreamID),
      ("UpperNo", toUtf d.UpperNo),
      ("UpperChannelNo", toUtf d.UpperChannelNo),
      ("OrderLocalNo", toUtf d.OrderLocalNo),
      ("UpperStreamID", DValue.num d.UpperStreamID),
      ("OrderSystemNo", toUtf d.OrderSystemNo),
      ("OrderExchangeSystemNo", toUtf d.OrderExchangeSystemNo),
      ("OrderParentSystemNo", toUtf d.OrderParentSystemNo),
      ("OrderInsertUserNo", toUtf d.OrderInsertUserNo),
      ("OrderInsertTime", toUtf d.OrderInsertTime),
      ("OrderCommandUserNo", toUtf d.OrderCommandUserNo),
      ("OrderUpdateUserNo", toUtf d.OrderUpdateUserNo),
      ("OrderUpdateTime", toUtf d.OrderUpdateTime),
      ("OrderState", DValue.num d.OrderState),
      ("OrderMatchPrice", DValue.num d.OrderMatchPrice),
      ("OrderMatchPrice2", DValue.num d.OrderMatchPrice2),
      ("OrderMatchQty", DValue.num d.OrderMatchQty),
      ("OrderMatchQty2", DValue.num d.OrderMatchQty2),
      ("ErrorCode", DValue.num d.ErrorCode),
      ("ErrorText", toUtf d.ErrorText),
      ("IsBackInput", DValue.num d.IsBackInput),
      ("IsDeleted", DValue.num d.IsDeleted),
      ("IsAddOne", DValue.num d.IsAddOne)]
    | _ => []
  Hcall.onRspOrderLocalTransfer task.task_id task.task_int data

/-- Process function `TdApi::processRspFillLocalInput`: rebuilds the data dict and invokes the user handler. -/
def processRspFillLocalInput (task : Task) : Hcall :=
  let data : TapDict :=
    match task.task_data with
    | some (Payload.pTapAPIFillLocalInputRsp d) =>
      [("AccountNo", toUtf d.AccountNo),
      ("ExchangeNo", toUtf d.ExchangeNo),
      ("CommodityType", DValue.num d.CommodityType),
      ("CommodityNo", toUtf d.CommodityNo),
      ("ContractNo", toUtf d.ContractNo),
      ("StrikePrice", toUtf d.StrikePrice),
      ("CallOrPutFlag", DValue.num d.CallOrPutFlag),
      ("MatchSide", DValue.num d.MatchSide),
      ("PositionEffect", DValue.num d.PositionEffect),
      ("HedgeFlag", DValue.num d.HedgeFlag),
      ("MatchPrice", DValue.num d.MatchPrice),
      ("MatchQty", DValue.num d.MatchQty),
      ("OrderSystemNo", toUtf d.OrderSystemNo),
      ("UpperMatchNo", toUtf d.UpperMatchNo),
      ("MatchDateTime", toUtf d.MatchDateTime),
      ("UpperMatchDateTime", toUtf d.UpperMatchDateTime),
      ("UpperNo", toUtf d.UpperNo),
      ("IsAddOne", DValue.num d.IsAddOne),
      ("FeeCurrencyGroup", toUtf d.FeeCurrencyGroup),
      ("FeeCurrency", toUtf d.FeeCurrency),
      ("FeeValue", DValue.num d.FeeValue),
      ("IsManualFee", DValue.num d.IsManualFee),
      ("ClosePositionPrice", DValue.num d.ClosePositionPrice)]
    | _ => []
  Hcall.onRspFillLocalInput task.task_id task.task_int data

/-- Process function `TdApi::processRspFillLocalRemove`: rebuilds the data dict and invokes the user handler. -/
def processRspFillLocalRemove (task : Task) : Hcall :=
  let data : TapDict :=
    match task.task_data with
    | some (Payload.pTapAPIFillLocalRemoveRsp d) =>
      [("ServerFlag", DValue.num d.ServerFlag),
      ("MatchNo", toUtf d.MatchNo)]
    | _ => []
  Hcall.onRspFillLocalRemove task.task_id task.task_int data

/-- One iteration of the `switch` in `TdApi::processTask`: dispatch a popped task to its
process function (`none` when no case matches: the task is dropped). -/
def processTask1 (task : Task) : Option Hcall :=
  if task.task_name = ONCONNECT then some (processConnect task)
  else if task.task_name = ONRSPLOGIN then some (processRspLogin task)
  else if task.task_name = ONRTNCONTACTINFO then some (processRtnContactInfo task)
  else if task.task_name = ONRSPREQUESTVERTIFICATECODE then some (processRspRequestVertificateCode task)
  else if task.task_name = ONEXPRIATIONDATE then some (processExpriationDate task)
  else if task.task_name = ONAPIREADY then some (processAPIReady task)
  else if task.task_name = ONDISCONNECT then some (processDisconnect task)
  else if task.task_name = ONRSPCHANGEPASSWORD then some (processRspChangePassword task)
  else if task.task_name = ONRSPAUTHPASSWORD then some (processRspAuthPassword task)
  else if task.task_name = ONRSPQRYTRADINGDATE then some (processRspQryTradingDate task)
  else if task.task_name = ONRSPSETRESERVEDINFO then some (processRspSetReservedInfo task)
  else if task.task_name = ONRSPQRYACCOUNT then some (processRspQryAccount task)
  else if task.task_name = ONRSPQRYFUND then some (processRspQryFund task)
  else if task.task_name = ONRTNFUND then some (processRtnFund task)
  else if task.task_name = ONRSPQRYEXCHANGE then some (processRspQryExchange task)
  else if task.task_name = ONRSPQRYCOMMODITY then some (processRspQryCommodity task)
  else if task.task_name = ONRSPQRYCONTRACT then some (processRspQryContract task)
  else if task.task_name = ONRTNCONTRACT then some (processRtnContract task)
  else if task.task_name = ONRSPORDERACTION then some (processRspOrderAction task)
  else if task.task_name = ONRTNORDER then some (processRtnOrder task)
  else if task.task_name = ONRSPQRYORDER then some (processRspQryOrder task)
  else if task.task_name = ONRSPQRYORDERPROCESS then some (processRspQryOrderProcess task)
  else if task.task_name = ONRSPQRYFILL then some (processRspQryFill task)
  else if task.task_name = ONRTNFILL then some (processRtnFill task)
  else if task.task_name = ONRSPQRYPOSITION then some (processRspQryPosition task)
  else if task.task_name = ONRTNPOSITION then some (processRtnPosition task)
  else if task.task_name = ONRSPQRYPOSITIONSUMMARY then some (processRspQryPositionSummary task)
  else if task.task_name = ONRTNPOSITIONSUMMARY then some (processRtnPositionSummary task)
  else if task.task_name = ONRTNPOSITIONPROFIT then some (processRtnPositionProfit task)
  else if task.task_name = ONRSPQRYCURRENCY then some (processRspQryCurrency task)
  else if task.task_name = ONRSPQRYTRADEMESSAGE then some (processRspQryTradeMessage task)
  else if task.task_name = ONRTNTRADEMESSAGE then some (processRtnTradeMessage task)
  else if task.task_name = ONRSPQRYHISORDER then some (processRspQryHisOrder task)
  else if task.task_name = ONRSPQRYHISORDERPROCESS then some (processRspQryHisOrderProcess task)
  else if task.task_name = ONRSPQRYHISMATCH then some (processRspQryHisMatch task)
  else if task.task_name = ONRSPQRYHISPOSITION then some (processRspQryHisPosition task)
  else if task.task_name = ONRSPQRYHISDELIVERY then some (processRspQryHisDelivery task)
  else if task.task_name = ONRSPQRYACCOUNTCASHADJUST then some (processRspQryAccountCashAdjust task)
  else if task.task_name = ONRSPQRYBILL then some (processRspQryBill task)
  else if task.task_name = ONRSPQRYACCOUNTFEERENT then some (processRspQryAccountFeeRent task)
  else if task.task_name = ONRSPQRYACCOUNTMARGINRENT then some (processRspQryAccountMarginRent task)
  else if task.task_name = ONRSPHKMARKETORDERINSERT then some (processRspHKMarketOrderInsert task)
  else if task.task_name = ONRSPHKMARKETORDERDELETE then some (processRspHKMarketOrderDelete task)
  else if task.task_name = ONHKMARKETQUOTENOTICE then some (processHKMarketQuoteNotice task)
  else if task.task_name = ONRSPORDERLOCALREMOVE then some (processRspOrderLocalRemove task)
  else if task.task_name = ONRSPORDERLOCALINPUT then some (processRspOrderLocalInput task)
  else if task.task_name = ONRSPORDERLOCALMODIFY then some (processRspOrderLocalModify task)
  else if task.task_name = ONRSPORDERLOCALTRANSFER then some (processRspOrderLocalTransfer task)
  else if task.task_name = ONRSPFILLLOCALINPUT then some (processRspFillLocalInput task)
  else if task.task_name = ONRSPFILLLOCALREMOVE then some (processRspFillLocalRemove task)
  else none

/-- The 50 defined event tags, `ONCONNECT` through `ONRSPFILLLOCALREMOVE`. -/
def tagList : List Nat :=
  [ONCONNECT, ONRSPLOGIN, ONRTNCONTACTINFO, ONRSPREQUESTVERTIFICATECODE, ONEXPRIATIONDATE, ONAPIREADY, ONDISCONNECT, ONRSPCHANGEPASSWORD, ONRSPAUTHPASSWORD, ONRSPQRYTRADINGDATE, ONRSPSETRESERVEDINFO, ONRSPQRYACCOUNT, ONRSPQRYFUND, ONRTNFUND, ONRSPQRYEXCHANGE, ONRSPQRYCOMMODITY, ONRSPQRYCONTRACT, ONRTNCONTRACT, ONRSPORDERACTION, ONRTNORDER, ONRSPQRYORDER, ONRSPQRYORDERPROCESS, ONRSPQRYFILL, ONRTNFILL, ONRSPQRYPOSITION, ONRTNPOSITION, ONRSPQRYPOSITIONSUMMARY, ONRTNPOSITIONSUMMARY, ONRTNPOSITIONPROFIT, ONRSPQRYCURRENCY, ONRSPQRYTRADEMESSAGE, ONRTNTRADEMESSAGE, ONRSPQRYHISORDER, ONRSPQRYHISORDERPROCESS, ONRSPQRYHISMATCH, ONRSPQRYHISPOSITION, ONRSPQRYHISDELIVERY, ONRSPQRYACCOUNTCASHADJUST, ONRSPQRYBILL, ONRSPQRYACCOUNTFEERENT, ONRSPQRYACCOUNTMARGINRENT, ONRSPHKMARKETORDERINSERT, ONRSPHKMARKETORDERDELETE, ONHKMARKETQUOTENOTICE, ONRSPORDERLOCALREMOVE, ONRSPORDERLOCALINPUT, ONRSPORDERLOCALMODIFY, ONRSPORDERLOCALTRANSFER, ONRSPFILLLOCALINPUT, ONRSPFILLLOCALREMOVE]

/-- The `sessionID` argument of a callback event, when it has one. -/
def cbSession : CbEvent → Option Nat
  | .OnConnect => none
  | .OnRspLogin _ _ => none
  | .OnRtnContactInfo _ _ _ => none
  | .OnRspRequestVertificateCode sessionID _ _ => some sessionID
  | .OnExpriationDate _ _ => none
  | .OnAPIReady _ => none
  | .OnDisconnect _ => none
  | .OnRspChangePassword sessionID _ => some sessionID
  | .OnRspAuthPassword sessionID _ => some sessionID
  | .OnRspQryTradingDate sessionID _ _ => some sessionID
  | .OnRspSetReservedInfo sessionID _ _ => some sessionID
  | .OnRspQryAccount sessionID _ _ _ => some sessionID
  | .OnRspQryFund sessionID _ _ _ => some sessionID
  | .OnRtnFund _ => none
  | .OnRspQryExchange sessionID _ _ _ => some sessionID
  | .OnRspQryCommodity sessionID _ _ _ => some sessionID
  | .OnRspQryContract sessionID _ _ _ => some sessionID
  | .OnRtnContract _ => none
  | .OnRspOrderAction sessionID _ _ => some sessionID
  | .OnRtnOrder _ => none
  | .OnRspQryOrder sessionID _ _ _ => some sessionID
  | .OnRspQryOrderProcess sessionID _ _ _ => some sessionID
  | .OnRspQryFill sessionID _ _ _ => some sessionID
  | .OnRtnFill _ => none
  | .OnRspQryPosition sessionID _ _ _ => some sessionID
  | .OnRtnPosition _ => none
  | .OnRspQryPositionSummary sessionID _ _ _ => some sessionID
  | .OnRtnPositionSummary _ => none
  | .OnRtnPositionProfit _ => none
  | .OnRspQryCurrency sessionID _ _ _ => some sessionID
  | .OnRspQryTradeMessage sessionID _ _ _ => some sessionID
  | .OnRtnTradeMessage _ => none
  | .OnRspQryHisOrder sessionID _ _ _ => some sessionID
  | .OnRspQryHisOrderProcess sessionID _ _ _ => some sessionID
  | .OnRspQryHisMatch sessionID _ _ _ => some sessionID
  | .OnRspQryHisPosition sessionID _ _ _ => some sessionID
  | .OnRspQryHisDelivery sessionID _ _ _ => some sessionID
  | .OnRspQryAccountCashAdjust sessionID _ _ _ => some sessionID
  | .OnRspQryBill sessionID _ _ _ => some sessionID
  | .OnRspQryAccountFeeRent sessionID _ _ _ => some sessionID
  | .OnRspQryAccountMarginRent sessionID _ _ _ => some sessionID
  | .OnRspHKMarketOrderInsert sessionID _ _ => some sessionID
  | .OnRspHKMarketOrderDelete sessionID _ _ => some sessionID
  | .OnHKMarketQuoteNotice _ => none
  | .OnRspOrderLocalRemove sessionID _ _ => some sessionID
  | .OnRspOrderLocalInput sessionID _ _ => some sessionID
  | .OnRspOrderLocalModify sessionID _ _ => some sessionID
  | .OnRspOrderLocalTransfer sessionID _ _ => some sessionID
  | .OnRspFillLocalInput sessionID _ _ => some sessionID
  | .OnRspFillLocalRemove sessionID _ _ => some sessionID

/-- The `errorCode` argument of a callback event, when it has one (as an integer). -/
def cbError : CbEvent → Option Int
  | .OnConnect => none
  | .OnRspLogin errorCode _ => some errorCode
  | .OnRtnContactInfo errorCode _ _ => some errorCode
  | .OnRspRequestVertificateCode _ errorCode _ => some errorCode
  | .OnExpriationDate _ _ => none
  | .OnAPIReady errorCode => some errorCode
  | .OnDisconnect _ => none
  | .OnRspChangePassword _ errorCode => some errorCode
  | .OnRspAuthPassword _ errorCode => some errorCode
  | .OnRspQryTradingDate _ errorCode _ => some errorCode
  | .OnRspSetReservedInfo _ errorCode _ => some errorCode
  | .OnRspQryAccount _ errorCode _ _ => some (errorCode : Int)
  | .OnRspQryFund _ errorCode _ _ => some errorCode
  | .OnRtnFund _ => none
  | .OnRspQryExchange _ errorCode _ _ => some errorCode
  | .OnRspQryCommodity _ errorCode _ _ => some errorCode
  | .OnRspQryContract _ errorCode _ _ => some errorCode
  | .OnRtnContract _ => none
  | .OnRspOrderAction _ errorCode _ => some errorCode
  | .OnRtnOrder _ => none
  | .OnRspQryOrder _ errorCode _ _ => some errorCode
  | .OnRspQryOrderProcess _ errorCode _ _ => some errorCode
  | .OnRspQryFill _ errorCode _ _ => some errorCode
  | .OnRtnFill _ => none
  | .OnRspQryPosition _ errorCode _ _ => some errorCode
  | .OnRtnPosition _ => none
  | .OnRspQryPositionSummary _ errorCode _ _ => some errorCode
  | .OnRtnPositionSummary _ => none
  | .OnRtnPositionProfit _ => none
  | .OnRspQryCurrency _ errorCode _ _ => some errorCode
  | .OnRspQryTradeMessage _ errorCode _ _ => some errorCode
  | .OnRtnTradeMessage _ => none
  | .OnRspQryHisOrder _ errorCode _ _ => some errorCode
  | .OnRspQryHisOrderProcess _ errorCode _ _ => some errorCode
  | .OnRspQryHisMatch _ errorCode _ _ => some errorCode
  | .OnRspQryHisPosition _ errorCode _ _ => some errorCode
  | .OnRspQryHisDelivery _ errorCode _ _ => some errorCode
  | .OnRspQryAccountCashAdjust _ errorCode _ _ => some errorCode
  | .OnRspQryBill _ errorCode _ _ => some errorCode
  | .OnRspQryAccountFeeRent _ errorCode _ _ => some errorCode
  | .OnRspQryAccountMarginRent _ errorCode _ _ => some errorCode
  | .OnRspHKMarketOrderInsert _ errorCode _ => some errorCode
  | .OnRspHKMarketOrderDelete _ errorCode _ => some errorCode
  | .OnHKMarketQuoteNotice _ => none
  | .OnRspOrderLocalRemove _ errorCode _ => some errorCode
  | .OnRspOrderLocalInput _ errorCode _ => some errorCode
  | .OnRspOrderLocalModify _ errorCode _ => some errorCode
  | .OnRspOrderLocalTransfer _ errorCode _ => some errorCode
  | .OnRspFillLocalInput _ errorCode _ => some errorCode
  | .OnRspFillLocalRemove _ errorCode _ => some errorCode

/-- The `isLast` argument of a callback event, when it has one. -/
def cbLast : CbEvent → Option Int
  | .OnConnect => none
  | .OnRspLogin _ _ => none
  | .OnRtnContactInfo _ isLast _ => some isLast
  | .OnRspRequestVertificateCode _ _ _ => none
  | .OnExpriationDate _ _ => none
  | .OnAPIReady _ => none
  | .OnDisconnect _ => none
  | .OnRspChangePassword _ _ => none
  | .OnRspAuthPassword _ _ => none
  | .OnRspQryTradingDate _ _ _ => none
  | .OnRspSetReservedInfo _ _ _ => none
  | .OnRspQryAccount _ _ isLast _ => some isLast
  | .OnRspQryFund _ _ isLast _ => some isLast
  | .OnRtnFund _ => none
  | .OnRspQryExchange _ _ isLast _ => some isLast
  | .OnRspQryCommodity _ _ isLast _ => some isLast
  | .OnRspQryContract _ _ isLast _ => some isLast
  | .OnRtnContract _ => none
  | .OnRspOrderAction _ _ _ => none
  | .OnRtnOrder _ => none
  | .OnRspQryOrder _ _ isLast _ => some isLast
  | .OnRspQryOrderProcess _ _ isLast _ => some isLast
  | .OnRspQryFill _ _ isLast _ => some isLast
  | .OnRtnFill _ => none
  | .OnRspQryPosition _ _ isLast _ => some isLast
  | .OnRtnPosition _ => none
  | .OnRspQryPositionSummary _ _ isLast _ => some isLast
  | .OnRtnPositionSummary _ => none
  | .OnRtnPositionProfit _ => none
  | .OnRspQryCurrency _ _ isLast _ => some isLast
  | .OnRspQryTradeMessage _ _ isLast _ => some isLast
  | .OnRtnTradeMessage _ => none
  | .OnRspQryHisOrder _ _ isLast _ => some isLast
  | .OnRspQryHisOrderProcess _ _ isLast _ => some isLast
  | .OnRspQryHisMatch _ _ isLast _ => some isLast
  | .OnRspQryHisPosition _ _ isLast _ => some isLast
  | .OnRspQryHisDelivery _ _ isLast _ => some isLast
  | .OnRspQryAccountCashAdjust _ _ isLast _ => some isLast
  | .OnRspQryBill _ _ isLast _ => some isLast
  | .OnRspQryAccountFeeRent _ _ isLast _ => some isLast
  | .OnRspQryAccountMarginRent _ _ isLast _ => some isLast
  | .OnRspHKMarketOrderInsert _ _ _ => none
  | .OnRspHKMarketOrderDelete _ _ _ => none
  | .OnHKMarketQuoteNotice _ => none
  | .OnRspOrderLocalRemove _ _ _ => none
  | .OnRspOrderLocalInput _ _ _ => none
  | .OnRspOrderLocalModify _ _ _ => none
  | .OnRspOrderLocalTransfer _ _ _ => none
  | .OnRspFillLocalInput _ _ _ => none
  | .OnRspFillLocalRemove _ _ _ => none

/-- Whether the callback takes a vendor payload struct pointer. -/
def cbHasPayload : CbEvent → Bool
  | .OnConnect => false
  | .OnRspLogin _ _ => true
  | .OnRtnContactInfo _ _ _ => false
  | .OnRspRequestVertificateCode _ _ _ => true
  | .OnExpriationDate _ _ => false
  | .OnAPIReady _ => false
  | .OnDisconnect _ => false
  | .OnRspChangePassword _ _ => false
  | .OnRspAuthPassword _ _ => false
  | .OnRspQryTradingDate _ _ _ => true
  | .OnRspSetReservedInfo _ _ _ => false
  | .OnRspQryAccount _ _ _ _ => true
  | .OnRspQryFund _ _ _ _ => true
  | .OnRtnFund _ => true
  | .OnRspQryExchange _ _ _ _ => true
  | .OnRspQryCommodity _ _ _ _ => true
  | .OnRspQryContract _ _ _ _ => true
  | .OnRtnContract _ => true
  | .OnRspOrderAction _ _ _ => true
  | .OnRtnOrder _ => true
  | .OnRspQryOrder _ _ _ _ => true
  | .OnRspQryOrderProcess _ _ _ _ => true
  | .OnRspQryFill _ _ _ _ => true
  | .OnRtnFill _ => true
  | .OnRspQryPosition _ _ _ _ => true
  | .OnRtnPosition _ => true
  | .OnRspQryPositionSummary _ _ _ _ => true
  | .OnRtnPositionSummary _ => true
  | .OnRtnPositionProfit _ => true
  | .OnRspQryCurrency _ _ _ _ => true
  | .OnRspQryTradeMessage _ _ _ _ => true
  | .OnRtnTradeMessage _ => true
  | .OnRspQryHisOrder _ _ _ _ => true
  | .OnRspQryHisOrderProcess _ _ _ _ => true
  | .OnRspQryHisMatch _ _ _ _ => true
  | .OnRspQryHisPosition _ _ _ _ => true
  | .OnRspQryHisDelivery _ _ _ _ => true
  | .OnRspQryAccountCashAdjust _ _ _ _ => true
  | .OnRspQryBill _ _ _ _ => true
  | .OnRspQryAccountFeeRent _ _ _ _ => true
  | .OnRspQryAccountMarginRent _ _ _ _ => true
  | .OnRspHKMarketOrderInsert _ _ _ => true
  | .OnRspHKMarketOrderDelete _ _ _ => true
  | .OnHKMarketQuoteNotice _ => true
  | .OnRspOrderLocalRemove _ _ _ => true
  | .OnRspOrderLocalInput _ _ _ => true
  | .OnRspOrderLocalModify _ _ _ => true
  | .OnRspOrderLocalTransfer _ _ _ => true
  | .OnRspFillLocalInput _ _ _ => true
  | .OnRspFillLocalRemove _ _ _ => true

/-- Whether the callback takes a payload pointer and was invoked with it null. -/
def cbPayloadNone : CbEvent → Bool
  | .OnConnect => false
  | .OnRspLogin _ loginRspInfo => loginRspInfo.isNone
  | .OnRtnContactInfo _ _ _ => false
  | .OnRspRequestVertificateCode _ _ rsp => rsp.isNone
  | .OnExpriationDate _ _ => false
  | .OnAPIReady _ => false
  | .OnDisconnect _ => false
  | .OnRspChangePassword _ _ => false
  | .OnRspAuthPassword _ _ => false
  | .OnRspQryTradingDate _ _ info => info.isNone
  | .OnRspSetReservedInfo _ _ _ => false
  | .OnRspQryAccount _ _ _ info => info.isNone
  | .OnRspQryFund _ _ _ info => info.isNone
  | .OnRtnFund info => info.isNone
  | .OnRspQryExchange _ _ _ info => info.isNone
  | .OnRspQryCommodity _ _ _ info => info.isNone
  | .OnRspQryContract _ _ _ info => info.isNone
  | .OnRtnContract info => info.isNone
  | .OnRspOrderAction _ _ info => info.isNone
  | .OnRtnOrder info => info.isNone
  | .OnRspQryOrder _ _ _ info => info.isNone
  | .OnRspQryOrderProcess _ _ _ info => info.isNone
  | .OnRspQryFill _ _ _ info => info.isNone
  | .OnRtnFill info => info.isNone
  | .OnRspQryPosition _ _ _ info => info.isNone
  | .OnRtnPosition info => info.isNone
  | .OnRspQryPositionSummary _ _ _ info => info.isNone
  | .OnRtnPositionSummary info => info.isNone
  | .OnRtnPositionProfit info => info.isNone
  | .OnRspQryCurrency _ _ _ info => info.isNone
  | .OnRspQryTradeMessage _ _ _ info => info.isNone
  | .OnRtnTradeMessage info => info.isNone
  | .OnRspQryHisOrder _ _ _ info => info.isNone
  | .OnRspQryHisOrderProcess _ _ _ info => info.isNone
  | .OnRspQryHisMatch _ _ _ info => info.isNone
  | .OnRspQryHisPosition _ _ _ info => info.isNone
  | .OnRspQryHisDelivery _ _ _ info => info.isNone
  | .OnRspQryAccountCashAdjust _ _ _ info => info.isNone
  | .OnRspQryBill _ _ _ info => info.isNone
  | .OnRspQryAccountFeeRent _ _ _ info => info.isNone
  | .OnRspQryAccountMarginRent _ _ _ info => info.isNone
  | .OnRspHKMarketOrderInsert _ _ info => info.isNone
  | .OnRspHKMarketOrderDelete _ _ info => info.isNone
  | .OnHKMarketQuoteNotice info => info.isNone
  | .OnRspOrderLocalRemove _ _ info => info.isNone
  | .OnRspOrderLocalInput _ _ info => info.isNone
  | .OnRspOrderLocalModify _ _ info => info.isNone
  | .OnRspOrderLocalTransfer _ _ info => info.isNone
  | .OnRspFillLocalInput _ _ info => info.isNone
  | .OnRspFillLocalRemove _ _ info => info.isNone

/-- Whether the event is an `OnRspQryAccount` invocation. -/
def isOnRspQryAccount : CbEvent → Bool
  | .OnRspQryAccount _ _ _ _ => true
  | _ => false

/-- The session argument a handler invocation receives (the slot matching the callback's `sessionID` parameter), when the handler has such a slot. -/
def hsession : Hcall → Option Nat
  | .onConnect => none
  | .onRspLogin _ _ => none
  | .onRtnContactInfo _ _ _ => none
  | .onRspRequestVertificateCode a0 _ _ => some a0
  | .onExpriationDate _ _ => none
  | .onAPIReady _ => none
  | .onDisconnect _ => none
  | .onRspChangePassword a0 _ => some a0
  | .onRspAuthPassword a0 _ => some a0
  | .onRspQryTradingDate a0 _ _ => some a0
  | .onRspSetReservedInfo a0 _ _ => some a0
  | .onRspQryAccount a0 _ _ _ => some a0
  | .onRspQryFund a0 _ _ _ => some a0
  | .onRtnFund _ => none
  | .onRspQryExchange a0 _ _ _ => some a0
  | .onRspQryCommodity a0 _ _ _ => some a0
  | .onRspQryContract a0 _ _ _ => some a0
  | .onRtnContract _ => none
  | .onRspOrderAction a0 _ _ => some a0
  | .onRtnOrder _ => none
  | .onRspQryOrder a0 _ _ _ => some a0
  | .onRspQryOrderProcess a0 _ _ _ => some a0
  | .onRspQryFill a0 _ _ _ => some a0
  | .onRtnFill _ => none
  | .onRspQryPosition a0 _ _ _ => some a0
  | .onRtnPosition _ => none
  | .onRspQryPositionSummary a0 _ _ _ => some a0
  | .onRtnPositionSummary _ => none
  | .onRtnPositionProfit _ => none
  | .onRspQryCurrency a0 _ _ _ => some a0
  | .onRspQryTradeMessage a0 _ _ _ => some a0
  | .onRtnTradeMessage _ => none
  | .onRspQryHisOrder a0 _ _ _ => some a0
  | .onRspQryHisOrderProcess a0 _ _ _ => some a0
  | .onRspQryHisMatch a0 _ _ _ => some a0
  | .onRspQryHisPosition a0 _ _ _ => some a0
  | .onRspQryHisDelivery a0 _ _ _ => some a0
  | .onRspQryAccountCashAdjust a0 _ _ _ => some a0
  | .onRspQryBill a0 _ _ _ => some a0
  | .onRspQryAccountFeeRent a0 _ _ _ => some a0
  | .onRspQryAccountMarginRent a0 _ _ _ => some a0
  | .onRspHKMarketOrderInsert a0 _ _ => some a0
  | .onRspHKMarketOrderDelete a0 _ _ => some a0
  | .onHKMarketQuoteNotice _ => none
  | .onRspOrderLocalRemove a0 _ _ => some a0
  | .onRspOrderLocalInput a0 _ _ => some a0
  | .onRspOrderLocalModify a0 _ _ => some a0
  | .onRspOrderLocalTransfer a0 _ _ => some a0
  | .onRspFillLocalInput a0 _ _ => some a0
  | .onRspFillLocalRemove a0 _ _ => some a0
/-- The error argument a handler invocation receives (the slot matching the callback's `errorCode` parameter, as an integer), when the handler has such a slot. -/
def herror : Hcall → Option Int
  | .onConnect => none
  | .onRspLogin a0 _ => some a0
  | .onRtnContactInfo a0 _ _ => some a0
  | .onRspRequestVertificateCode _ a1 _ => some a1
  | .onExpriationDate _ _ => none
  | .onAPIReady a0 => some a0
  | .onDisconnect _ => none
  | .onRspChangePassword _ a1 => some a1
  | .onRspAuthPassword _ a1 => some a1
  | .onRspQryTradingDate _ a1 _ => some a1
  | .onRspSetReservedInfo _ a1 _ => some a1
  | .onRspQryAccount _ a1 _ _ => some (a1 : Int)
  | .onRspQryFund _ a1 _ _ => some a1
  | .onRtnFund _ => none
  | .onRspQryExchange _ a1 _ _ => some a1
  | .onRspQryCommodity _ a1 _ _ => some a1
  | .onRspQryContract _ a1 _ _ => some a1
  | .onRtnContract _ => none
  | .onRspOrderAction _ a1 _ => some a1
  | .onRtnOrder _ => none
  | .onRspQryOrder _ a1 _ _ => some a1
  | .onRspQryOrderProcess _ a1 _ _ => some a1
  | .onRspQryFill _ a1 _ _ => some a1
  | .onRtnFill _ => none
  | .onRspQryPosition _ a1 _ _ => some a1
  | .onRtnPosition _ => none
  | .onRspQryPositionSummary _ a1 _ _ => some a1
  | .onRtnPositionSummary _ => none
  | .onRtnPositionProfit _ => none
  | .onRspQryCurrency _ a1 _ _ => some a1
  | .onRspQryTradeMessage _ a1 _ _ => some a1
  | .onRtnTradeMessage _ => none
  | .onRspQryHisOrder _ a1 _ _ => some a1
  | .onRspQryHisOrderProcess _ a1 _ _ => some a1
  | .onRspQryHisMatch _ a1 _ _ => some a1
  | .onRspQryHisPosition _ a1 _ _ => some a1
  | .onRspQryHisDelivery _ a1 _ _ => some a1
  | .onRspQryAccountCashAdjust _ a1 _ _ => some a1
  | .onRspQryBill _ a1 _ _ => some a1
  | .onRspQryAccountFeeRent _ a1 _ _ => some a1
  | .onRspQryAccountMarginRent _ a1 _ _ => some a1
  | .onRspHKMarketOrderInsert _ a1 _ => some a1
  | .onRspHKMarketOrderDelete _ a1 _ => some a1
  | .onHKMarketQuoteNotice _ => none
  | .onRspOrderLocalRemove _ a1 _ => some a1
  | .onRspOrderLocalInput _ a1 _ => some a1
  | .onRspOrderLocalModify _ a1 _ => some a1
  | .onRspOrderLocalTransfer _ a1 _ => some a1
  | .onRspFillLocalInput _ a1 _ => some a1
  | .onRspFillLocalRemove _ a1 _ => some a1
/-- The isLast argument a handler invocation receives, when the handler has such a slot. -/
def hlast : Hcall → Option Int
  | .onConnect => none
  | .onRspLogin _ _ => none
  | .onRtnContactInfo _ a1 _ => some a1
  | .onRspRequestVertificateCode _ _ _ => none
  | .onExpriationDate _ _ => none
  | .onAPIReady _ => none
  | .onDisconnect _ => none
  | .onRspChangePassword _ _ => none
  | .onRspAuthPassword _ _ => none
  | .onRspQryTradingDate _ _ _ => none
  | .onRspSetReservedInfo _ _ _ => none
  | .onRspQryAccount _ _ a2 _ => some a2
  | .onRspQryFund _ _ a2 _ => some a2
  | .onRtnFund _ => none
  | .onRspQryExchange _ _ a2 _ => some a2
  | .onRspQryCommodity _ _ a2 _ => some a2
  | .onRspQryContract _ _ a2 _ => some a2
  | .onRtnContract _ => none
  | .onRspOrderAction _ _ _ => none
  | .onRtnOrder _ => none
  | .onRspQryOrder _ _ a2 _ => some a2
  | .onRspQryOrderProcess _ _ a2 _ => some a2
  | .onRspQryFill _ _ a2 _ => some a2
  | .onRtnFill _ => none
  | .onRspQryPosition _ _ a2 _ => some a2
  | .onRtnPosition _ => none
  | .onRspQryPositionSummary _ _ a2 _ => some a2
  | .onRtnPositionSummary _ => none
  | .onRtnPositionProfit _ => none
  | .onRspQryCurrency _ _ a2 _ => some a2
  | .onRspQryTradeMessage _ _ a2 _ => some a2
  | .onRtnTradeMessage _ => none
  | .onRspQryHisOrder _ _ a2 _ => some a2
  | .onRspQryHisOrderProcess _ _ a2 _ => some a2
  | .onRspQryHisMatch _ _ a2 _ => some a2
  | .onRspQryHisPosition _ _ a2 _ => some a2
  | .onRspQryHisDelivery _ _ a2 _ => some a2
  | .onRspQryAccountCashAdjust _ _ a2 _ => some a2
  | .onRspQryBill _ _ a2 _ => some a2
  | .onRspQryAccountFeeRent _ _ a2 _ => some a2
  | .onRspQryAccountMarginRent _ _ a2 _ => some a2
  | .onRspHKMarketOrderInsert _ _ _ => none
  | .onRspHKMarketOrderDelete _ _ _ => none
  | .onHKMarketQuoteNotice _ => none
  | .onRspOrderLocalRemove _ _ _ => none
  | .onRspOrderLocalInput _ _ _ => none
  | .onRspOrderLocalModify _ _ _ => none
  | .onRspOrderLocalTransfer _ _ _ => none
  | .onRspFillLocalInput _ _ _ => none
  | .onRspFillLocalRemove _ _ _ => none

/-- The dict argument a handler invocation receives, when it has one. -/
def hdata : Hcall → Option TapDict
  | .onConnect => none
  | .onRspLogin _ a1 => some a1
  | .onRtnContactInfo _ _ _ => none
  | .onRspRequestVertificateCode _ _ a2 => some a2
  | .onExpriationDate _ _ => none
  | .onAPIReady _ => none
  | .onDisconnect _ => none
  | .onRspChangePassword _ _ => none
  | .onRspAuthPassword _ _ => none
  | .onRspQryTradingDate _ _ a2 => some a2
  | .onRspSetReservedInfo _ _ _ => none
  | .onRspQryAccount _ _ _ a3 => some a3
  | .onRspQryFund _ _ _ a3 => some a3
  | .onRtnFund a0 => some a0
  | .onRspQryExchange _ _ _ a3 => some a3
  | .onRspQryCommodity _ _ _ a3 => some a3
  | .onRspQryContract _ _ _ a3 => some a3
  | .onRtnContract a0 => some a0
  | .onRspOrderAction _ _ a2 => some a2
  | .onRtnOrder a0 => some a0
  | .onRspQryOrder _ _ _ a3 => some a3
  | .onRspQryOrderProcess _ _ _ a3 => some a3
  | .onRspQryFill _ _ _ a3 => some a3
  | .onRtnFill a0 => some a0
  | .onRspQryPosition _ _ _ a3 => some a3
  | .onRtnPosition a0 => some a0
  | .onRspQryPositionSummary _ _ _ a3 => some a3
  | .onRtnPositionSummary a0 => some a0
  | .onRtnPositionProfit a0 => some a0
  | .onRspQryCurrency _ _ _ a3 => some a3
  | .onRspQryTradeMessage _ _ _ a3 => some a3
  | .onRtnTradeMessage a0 => some a0
  | .onRspQryHisOrder _ _ _ a3 => some a3
  | .onRspQryHisOrderProcess _ _ _ a3 => some a3
  | .onRspQryHisMatch _ _ _ a3 => some a3
  | .onRspQryHisPosition _ _ _ a3 => some a3
  | .onRspQryHisDelivery _ _ _ a3 => some a3
  | .onRspQryAccountCashAdjust _ _ _ a3 => some a3
  | .onRspQryBill _ _ _ a3 => some a3
  | .onRspQryAccountFeeRent _ _ _ a3 => some a3
  | .onRspQryAccountMarginRent _ _ _ a3 => some a3
  | .onRspHKMarketOrderInsert _ _ a2 => some a2
  | .onRspHKMarketOrderDelete _ _ a2 => some a2
  | .onHKMarketQuoteNotice a0 => some a0
  | .onRspOrderLocalRemove _ _ a2 => some a2
  | .onRspOrderLocalInput _ _ a2 => some a2
  | .onRspOrderLocalModify _ _ a2 => some a2
  | .onRspOrderLocalTransfer _ _ a2 => some a2
  | .onRspFillLocalInput _ _ a2 => some a2
  | .onRspFillLocalRemove _ _ a2 => some a2

/-- Shared state of the bridge: the blocking `task_queue` plus the log of user-handler
invocations made by the worker thread, in invocation order. -/
structure SysState where
  queue : List Task
  handlerLog : List Hcall

/-- Push on `task_queue`: enqueue at the tail. -/
def pushTask (t : Task) (s : SysState) : SysState :=
  { s with queue := s.queue ++ [t] }

/-- One iteration of the worker loop in `TdApi::processTask`: pop the head task (the pop
blocks, so the step has no effect while the queue is empty) and run one `switch` dispatch,
recording the handler invocation it makes. -/
def workerStep (s : SysState) : SysState :=
  match s.queue with
  | [] => s
  | t :: rest => { queue := rest, handlerLog := s.handlerLog ++ (processTask1 t).toList }

/-- An event of the concurrent system: an SDK callback invocation (producer side) or one
iteration of the single consumer thread that `init()` starts. -/
inductive Event where
  | cb (e : CbEvent)
  | work

/-- Effect of one event on the shared state. -/
def stepEv (s : SysState) (ev : Event) : SysState :=
  match ev with
  | .cb e => pushTask (buildTask e) s
  | .work => workerStep s

/-- Run a sequence of interleaved events. -/
def runEv (s : SysState) (evs : List Event) : SysState :=
  evs.foldl stepEv s

/-- Tasks pushed during an event sequence, in push order. -/
def pushedTasks (evs : List Event) : List Task :=
  evs.filterMap fun ev =>
    match ev with
    | .cb e => some (buildTask e)
    | .work => none

/-- Request dict passed in from the host to the active (query) functions; the functions
modelled here read only string-valued entries. -/
abbrev ReqDict := List (String × String)

/-- Modelled from the spec: the helper `getString` (a binding utility defined outside the
translated sources) copies the string stored in the request dict under `key` into a
zero-initialised char buffer, leaving it empty when the key is absent. -/
def getString (req : ReqDict) (key : String) : String :=
  match req.lookup key with
  | some v => v
  | none => ""

/-- Vendor request struct sent by `qryAccount`. The binding `memset`s it to zero and never
writes any field, so its zero value is the only one ever sent. -/
structure TapAPIAccQryReq where
  zeroed : Unit
deriving DecidableEq

/-- Vendor request struct sent by `qryFund`; after the `memset` the binding fills only
`AccountNo`, so all other fields stay zero and are omitted. -/
structure TapAPIFundReq where
  AccountNo : String
deriving DecidableEq

/-- SDK call issued by an active query function. -/
inductive SdkCall where
  | qryAccountCall (session : Nat) (req : TapAPIAccQryReq)
  | qryFundCall (session : Nat) (req : TapAPIFundReq)
deriving DecidableEq

/-- `TdApi::qryAccount`: zero-initialises a `TapAPIAccQryReq` and sends it; the `req`
argument is never read. -/
def qryAccount (session : Nat) (req : ReqDict) : SdkCall :=
  SdkCall.qryAccountCall session { zeroed := () }

/-- `TdApi::qryFund`: zero-initialises a `TapAPIFundReq`, fills its `AccountNo` from the
request dict, and sends it. -/
def qryFund (session : Nat) (req : ReqDict) : SdkCall :=
  SdkCall.qryFundCall session { AccountNo := getString req ("AccountNo") }

/-- The task a callback pushes is tagged with the constant belonging to that callback. -/
theorem buildTask_task_name (e : CbEvent) : (buildTask e).task_name = cbIndex e := by
  cases e <;> rfl

/-- C2 counterexample to the stated count: the defined event tags `ONCONNECT` through
`ONRSPFILLLOCALREMOVE` are pairwise distinct but number exactly 50, not 51. -/
theorem tag_count_is_fifty :
    tagList.Nodup ∧ tagList.length = 50 ∧ tagList.length ≠ 51 := by decide

/-- C2 (amended: there are 50 defined event tags, not 51): every task whose `task_name` is
one of the defined event tags is dispatched by the `processTask` switch to the process
function for that tag, which invokes the user handler with the matching constructor index
exactly once; no such task is dropped. -/
theorem processTask_dispatches_every_tag (task : Task) (h : task.task_name ∈ tagList) :
    ∃ hc, processTask1 task = some hc ∧ hname hc = task.task_name := by
  obtain ⟨n, tid, tint, tlast, tstr, tdata⟩ := task
  have hn : n < 50 := by
    have he : tagList = List.range 50 := by decide
    simpa [he, List.mem_range] using h
  clear h
  interval_cases n <;> exact ⟨_, rfl, rfl⟩

/-- Witness: the dispatch theorem applied to the task pushed by `OnConnect`. -/
theorem processTask_dispatches_every_tag_witness :
    OnConnect.task_name ∈ tagList ∧
      ∃ hc, processTask1 OnConnect = some hc ∧ hname hc = OnConnect.task_name :=
  ⟨by decide, processTask_dispatches_every_tag OnConnect (by decide)⟩

/-- C3 counterexample to the stated count: the callbacks `OnConnect` through
`OnRspFillLocalRemove` occupy the constructor indices 0 through 49, so there are 50 of
them, not 51. -/
theorem callback_count_is_fifty :
    cbIndex CbEvent.OnConnect = 0 ∧
    cbIndex (CbEvent.OnRspFillLocalRemove 0 0 none) = 49 ∧
    tagList.length ≠ 51 :=
  ⟨rfl, rfl, by decide⟩

/-- C3 (amended: 50 callbacks, not 51): every callback invocation appends exactly one task
at the tail of the queue, the task's tag is a constant determined solely by which callback
fired, and distinct callbacks use distinct tags. -/
theorem callbacks_tag_distinctly :
    (∀ (s : SysState) (e : CbEvent),
      (stepEv s (Event.cb e)).queue = s.queue ++ [buildTask e]) ∧
    (∀ e₁ e₂ : CbEvent, cbIndex e₁ = cbIndex e₂ →
      (buildTask e₁).task_name = (buildTask e₂).task_name) ∧
    (∀ e₁ e₂ : CbEvent, cbIndex e₁ ≠ cbIndex e₂ →
      (buildTask e₁).task_name ≠ (buildTask e₂).task_name) := by
  refine ⟨fun s e => rfl, fun e₁ e₂ h => ?_, fun e₁ e₂ h hEq => ?_⟩
  · rw [buildTask_task_name, buildTask_task_name, h]
  · exact h (by rwa [buildTask_task_name, buildTask_task_name] at hEq)

/-- Witness: two distinct callbacks, `OnConnect` and `OnAPIReady`, get distinct tags. -/
theorem callbacks_tag_distinctly_witness :
    (buildTask CbEvent.OnConnect).task_name ≠
      (buildTask (CbEvent.OnAPIReady 0)).task_name :=
  callbacks_tag_distinctly.2.2 CbEvent.OnConnect (CbEvent.OnAPIReady 0) (by decide)

/-- C1 (the code contradicts it): at the failing input
`OnRspQryAccount(sessionID = 1, errorCode = 2, isLast = 0, info = NULL)` the replay invokes
`onRspQryAccount` with session argument 2 — the error code — instead of the callback's
session ID 1, because `OnRspQryAccount` assigns `task_id` twice (sessionID, then errorCode)
and `processRspQryAccount` passes `task_id` for both the session and the error slot. -/
theorem rspQryAccount_replay_loses_session :
    processTask1 (buildTask (CbEvent.OnRspQryAccount 1 2 0 none)) =
      some (Hcall.onRspQryAccount 2 2 0 []) ∧
    hsession (Hcall.onRspQryAccount 2 2 0 []) ≠ some 1 :=
  ⟨rfl, by decide⟩

/-- C5: for every sessionID and errorCode, replaying `OnRspQryAccount` invokes the handler
with both the session and the error argument equal to `errorCode`, and the task the
callback builds does not depend on `sessionID` at all, so the sessionID value is never
delivered. -/
theorem rspQryAccount_session_is_errorCode :
    (∀ (sessionID errorCode : Nat) (isLast : Int) (info : Option TapAPIAccountInfo),
      ∃ hc,
        processTask1 (buildTask (CbEvent.OnRspQryAccount sessionID errorCode isLast info)) =
          some hc ∧
        hsession hc = some errorCode ∧ herror hc = some (errorCode : Int)) ∧
    (∀ (s₁ s₂ errorCode : Nat) (isLast : Int) (info : Option TapAPIAccountInfo),
      buildTask (CbEvent.OnRspQryAccount s₁ errorCode isLast info) =
        buildTask (CbEvent.OnRspQryAccount s₂ errorCode isLast info)) :=
  ⟨fun _ _ _ _ => ⟨_, rfl, rfl, rfl⟩, fun _ _ _ _ _ => rfl⟩

/-- C4: for every callback that carries a vendor payload struct, the replay hands the user
handler the dict that enumerates, one for one and in declaration order, the payload's
fields, each value stored under a key equal to the field's name (`Payload.toDict`); an
absent payload yields the empty dict. -/
theorem process_copies_fields_one_for_one (e : CbEvent) (h : cbHasPayload e = true) :
    ∃ hc, processTask1 (buildTask e) = some hc ∧
      hdata hc = some (((buildTask e).task_data).elim [] Payload.toDict) := by
  cases e <;>
    first
      | exact Bool.noConfusion h
      | (rename_i o; cases o <;> exact ⟨_, rfl, rfl⟩)

/-- Witness: the one-for-one copy theorem applied to `OnRspLogin` with a null payload. -/
theorem process_copies_fields_one_for_one_witness :
    cbHasPayload (CbEvent.OnRspLogin 0 none) = true ∧
    ∃ hc, processTask1 (buildTask (CbEvent.OnRspLogin 0 none)) = some hc ∧
      hdata hc =
        some (((buildTask (CbEvent.OnRspLogin 0 none)).task_data).elim [] Payload.toDict) :=
  ⟨rfl, process_copies_fields_one_for_one (CbEvent.OnRspLogin 0 none) rfl⟩

/-- C6: callbacks never invoke a user handler — a callback step leaves the handler log
unchanged — and the only steps that extend the log are iterations of the single worker
(the sole consumer), each popping the head of the task queue and appending that task's
dispatch. -/
theorem handlers_only_from_worker :
    (∀ (s : SysState) (e : CbEvent),
      (stepEv s (Event.cb e)).handlerLog = s.handlerLog) ∧
    (∀ (s : SysState) (ev : Event), (stepEv s ev).handlerLog ≠ s.handlerLog →
      ev = Event.work ∧ ∃ t rest, s.queue = t :: rest ∧
        stepEv s ev =
          { queue := rest, handlerLog := s.handlerLog ++ (processTask1 t).toList }) := by
  constructor
  · intro s e; rfl
  · intro s ev hne
    cases ev with
    | cb e => exact absurd rfl hne
    | work =>
      refine ⟨rfl, ?_⟩
      cases hq : s.queue with
      | nil => exact absurd (by simp [stepEv, workerStep, hq]) hne
      | cons t rest => exact ⟨t, rest, rfl, by simp [stepEv, workerStep, hq]⟩

/-- Witness: a worker step on a queue holding the `OnConnect` task extends the handler
log by popping that task. -/
theorem handlers_only_from_worker_witness :
    Event.work = Event.work ∧ ∃ t rest,
      (⟨[OnConnect], []⟩ : SysState).queue = t :: rest ∧
      stepEv ⟨[OnConnect], []⟩ Event.work =
        { queue := rest,
          handlerLog := ([] : List Hcall) ++ (processTask1 t).toList } :=
  handlers_only_from_worker.2 ⟨[OnConnect], []⟩ Event.work
    (fun hEq =>
      List.noConfusion (show (Hcall.onConnect :: []) = ([] : List Hcall) from hEq))

/-- Helper invariant: the handler log is always the in-order dispatch of the prefix of
pushed tasks that the worker has consumed so far. -/
theorem runEv_split (evs : List Event) :
    ∀ (s : SysState) (processed : List Task),
      s.handlerLog = processed.filterMap processTask1 →
      ∃ processed',
        (runEv s evs).handlerLog = processed'.filterMap processTask1 ∧
        processed ++ s.queue ++ pushedTasks evs = processed' ++ (runEv s evs).queue := by
  induction evs with
  | nil =>
    intro s processed h
    exact ⟨processed, h, by simp [runEv, pushedTasks]⟩
  | cons ev rest ih =>
    intro s processed h
    cases ev with
    | cb e =>
      obtain ⟨p', h1, h2⟩ := ih (stepEv s (Event.cb e)) processed h
      refine ⟨p', ?_, ?_⟩
      · show (runEv (stepEv s (Event.cb e)) rest).handlerLog =
          List.filterMap processTask1 p'
        exact h1
      · show processed ++ s.queue ++ pushedTasks (Event.cb e :: rest) =
          p' ++ (runEv (stepEv s (Event.cb e)) rest).queue
        have hqs : (stepEv s (Event.cb e)).queue = s.queue ++ [buildTask e] := rfl
        rw [hqs] at h2
        have hps : pushedTasks (Event.cb e :: rest) = buildTask e :: pushedTasks rest := by
          simp [pushedTasks]
        rw [hps]
        simpa [List.append_assoc] using h2
    | work =>
      cases hq : s.queue with
      | nil =>
        have hstep : stepEv s Event.work = s := by
          simp [stepEv, workerStep, hq]
        obtain ⟨p', h1, h2⟩ := ih s processed h
        refine ⟨p', ?_, ?_⟩
        · show (runEv (stepEv s Event.work) rest).handlerLog =
            List.filterMap processTask1 p'
          rw [hstep]; exact h1
        · show processed ++ ([] : List Task) ++ pushedTasks (Event.work :: rest) =
            p' ++ (runEv (stepEv s Event.work) rest).queue
          rw [hstep]
          have hps : pushedTasks (Event.work :: rest) = pushedTasks rest := by
            simp [pushedTasks]
          rw [hps, ← hq]
          exact h2
      | cons t q =>
        have hstep : stepEv s Event.work =
            { queue := q, handlerLog := s.handlerLog ++ (processTask1 t).toList } := by
          simp [stepEv, workerStep, hq]
        have hlog : (stepEv s Event.work).handlerLog =
            List.filterMap processTask1 (processed ++ [t]) := by
          rw [hstep, h, List.filterMap_append]
          cases hpt : processTask1 t <;> simp [hpt]
        obtain ⟨p', h1, h2⟩ := ih (stepEv s Event.work) (processed ++ [t]) hlog
        refine ⟨p', ?_, ?_⟩
        · show (runEv (stepEv s Event.work) rest).handlerLog =
            List.filterMap processTask1 p'
          exact h1
        · show processed ++ t :: q ++ pushedTasks (Event.work :: rest) =
            p' ++ (runEv (stepEv s Event.work) rest).queue
          have hqs : (stepEv s Event.work).queue = q := by rw [hstep]
          rw [hqs] at h2
          have hps : pushedTasks (Event.work :: rest) = pushedTasks rest := by
            simp [pushedTasks]
          rw [hps]
          simpa [List.append_assoc] using h2

/-- C7: over any interleaving of callback invocations and worker iterations starting from
the empty state, the handler invocations are exactly the dispatches of an initial prefix
of the pushed tasks, in push order: a task pushed earlier is never replayed after a task
pushed later. -/
theorem fifo_replay (evs : List Event) :
    ∃ k, (runEv ⟨[], []⟩ evs).handlerLog =
      ((pushedTasks evs).take k).filterMap processTask1 := by
  obtain ⟨p', hlog, hsplit⟩ := runEv_split evs ⟨[], []⟩ [] rfl
  refine ⟨p'.length, ?_⟩
  have hpush : pushedTasks evs = p' ++ (runEv ⟨[], []⟩ evs).queue := by
    simpa using hsplit
  rw [hpush, List.take_left]
  exact hlog

/-- C8: `qryAccount` never reads its request dict — any two requests yield the identical
SDK call carrying the zero-initialised struct — while `qryFund` does depend on the
`AccountNo` entry of its request dict. -/
theorem qryAccount_ignores_request :
    (∀ (session : Nat) (req₁ req₂ : ReqDict),
      qryAccount session req₁ = qryAccount session req₂) ∧
    (∀ (session : Nat) (req : ReqDict),
      qryAccount session req = SdkCall.qryAccountCall session { zeroed := () }) ∧
    (∃ (session : Nat) (req₁ req₂ : ReqDict),
      qryFund session req₁ ≠ qryFund session req₂) :=
  ⟨fun _ _ _ => rfl, fun _ _ => rfl,
    ⟨0, [], [(("AccountNo"), ("A"))], by decide⟩⟩

/-- C9 counterexample: `OnRspQryAccount` takes a payload pointer, and invoked with a null
pointer and `sessionID = 5`, `errorCode = 7`, the replayed handler receives session
argument 7, not the unchanged 5 the claim requires. -/
theorem nullPayload_session_not_preserved :
    cbPayloadNone (CbEvent.OnRspQryAccount 5 7 1 none) = true ∧
    processTask1 (buildTask (CbEvent.OnRspQryAccount 5 7 1 none)) =
      some (Hcall.onRspQryAccount 7 7 1 []) ∧
    hsession (Hcall.onRspQryAccount 7 7 1 []) ≠ some 5 :=
  ⟨rfl, rfl, by decide⟩

/-- C9 (amended: scalar fidelity holds for every payload callback except
`OnRspQryAccount`, whose session slot receives the error code): a payload callback invoked
with a null pointer still enqueues its tagged task, and its replay invokes the handler
exactly once with the empty dict, the error and isLast arguments unchanged, and the
session argument unchanged unless the callback is `OnRspQryAccount`. -/
theorem nullPayload_replay (e : CbEvent) (h : cbPayloadNone e = true) (s : SysState) :
    (stepEv s (Event.cb e)).queue = s.queue ++ [buildTask e] ∧
    ∃ hc, processTask1 (buildTask e) = some hc ∧
      hdata hc = some [] ∧
      herror hc = cbError e ∧
      hlast hc = cbLast e ∧
      (isOnRspQryAccount e = false → hsession hc = cbSession e) ∧
      (isOnRspQryAccount e = true →
        ∃ ec : Nat, cbError e = some (ec : Int) ∧ hsession hc = some ec) := by
  cases e <;>
    first
      | exact Bool.noConfusion h
      | (rename_i o
         cases o with
         | some d => exact Bool.noConfusion h
         | none =>
           refine ⟨rfl, _, rfl, rfl, rfl, rfl, ?_, ?_⟩ <;> intro hq <;>
             first
               | rfl
               | exact ⟨_, rfl, rfl⟩
               | exact Bool.noConfusion hq)

/-- Witness: the null-payload theorem applied to `OnRspLogin(errorCode = 3, NULL)` from
the empty state. -/
theorem nullPayload_replay_witness :
    cbPayloadNone (CbEvent.OnRspLogin 3 none) = true ∧
    ((stepEv ⟨[], []⟩ (Event.cb (CbEvent.OnRspLogin 3 none))).queue =
        [] ++ [buildTask (CbEvent.OnRspLogin 3 none)] ∧
      ∃ hc, processTask1 (buildTask (CbEvent.OnRspLogin 3 none)) = some hc ∧
        hdata hc = some [] ∧
        herror hc = cbError (CbEvent.OnRspLogin 3 none) ∧
        hlast hc = cbLast (CbEvent.OnRspLogin 3 none) ∧
        (isOnRspQryAccount (CbEvent.OnRspLogin 3 none) = false →
          hsession hc = cbSession (CbEvent.OnRspLogin 3 none)) ∧
        (isOnRspQryAccount (CbEvent.OnRspLogin 3 none) = true →
          ∃ ec : Nat, cbError (CbEvent.OnRspLogin 3 none) = some (ec : Int) ∧
            hsession hc = some ec)) :=
  ⟨rfl, nullPayload_replay (CbEvent.OnRspLogin 3 none) rfl ⟨[], []⟩⟩

end VnTapTd
